import Mathlib

/-!
# Quality-service backend: authentication and permission resolution

A shallow embedding of the authentication core of the backend
(`src/services/auth.service.js`, `src/services/token.service.js`,
`src/authentication/index.js`, `src/middlewares/auth.middleware.js`,
`src/controllers/auth.controller.js`) together with the Mongoose models it reads
and writes (`src/models/*.js`).

Conventions of the embedding

* A collection is a `List` of documents in insertion order.  `findOne` and
  `findById` return the first matching document, `deleteMany` removes every
  match, `deleteOne` removes the first match, `doc.save()` overwrites the
  stored document that has the same `_id`.
* Instants are milliseconds since the epoch (`Nat`), the value of `Date.now()`.
  One request reads the clock once: every `Date.now()` / `new Date()` of a
  single call is the field `now` of its `Env`.
* What comes from outside the repository (the clock, `uuidv4`, `Math.random`,
  `bcrypt`, `jsonwebtoken`, the mail transport) is a field of `Env`.
* A service operation returns its outcome (`Except String _`, the string being
  the message of the thrown `Error`) paired with the store it leaves behind,
  because an operation may throw after it has already written.  An operation
  that only reads (`ForgotPasswordEmail`) returns its outcome paired with the
  mail it hands to the transport.
* A controller returns the answer it sends (`Reply`): the status code with the
  data and cookie of the success branch, or with the message of the `catch`.
* Strings are the stored values: the `trim` / `lowercase` setters of the
  schemas are taken as already applied.
-/

namespace QualityService

/-! ## Data model (`src/models`) -/

/-- A MongoDB `ObjectId`, in its string form. -/
abbrev ObjectId := String

/-- Embeds `RefreshTokenSchema` of `models/users.js`. -/
structure RefreshTokenRecord where
  token : String
  createdAt : Nat
  expiresAt : Nat
deriving DecidableEq, Repr

/-- The `access` sub-document of a user. -/
structure Access where
  active : Bool
  suspend : Bool
deriving DecidableEq, Repr

/-- Embeds `userSchema` of `models/users.js` (the fields the authentication core uses). -/
structure User where
  _id : ObjectId
  username : String
  email : String
  password : String
  query : List ObjectId
  role : Option ObjectId
  uid : String
  g_uid : Option String
  profile_pic : Option String
  timeAdded : Option Nat
  theme : Bool
  firstLogin : Bool
  googleAuth : Bool
  subscribed : Bool
  lastLoginAt : Option Nat
  access : Access
  refreshTokens : List RefreshTokenRecord
deriving DecidableEq, Repr

/-- Embeds `OTPSchema` of `models/otp.js`. -/
structure OTP where
  username : String
  email : String
  password : String
  query : String
  otpCode : String
  otpId : String
  expiresAt : Nat
  verified : Bool
deriving DecidableEq, Repr

/-- The `actions` sub-document of a permission. -/
structure Actions where
  get : Bool
  post : Bool
  put : Bool
  delete : Bool
deriving DecidableEq, Repr

/-- Embeds `PermissionSchema` of `models/roles.js`: a module reference and its actions. -/
structure Permission where
  module : ObjectId
  actions : Actions
deriving DecidableEq, Repr

/-- Embeds `roleSchema` of `models/roles.js`. -/
structure Role where
  _id : ObjectId
  name : Option String
  uid : String
  permissions : List Permission
  slug : String
deriving DecidableEq, Repr

/-- The `status` sub-document of a module. -/
structure ModuleStatus where
  active : Bool
  maintenance : Bool
deriving DecidableEq, Repr

/-- Embeds `moduleSchema` of `models/modules.js`. -/
structure Module where
  _id : ObjectId
  uid : String
  isSystem : Bool
  name : String
  slug : String
  status : ModuleStatus
deriving DecidableEq, Repr

/-- Embeds `defaultSchema` of `models/defaults.js`. -/
structure Defaults where
  prior : String
  roleId : Option ObjectId
deriving DecidableEq, Repr

/-- Embeds `VisitorSchema` of `models/visitors.js` (the fields the core reads). -/
structure Visitor where
  _id : ObjectId
  device : String
  city : String
  regionName : String
  country : String
deriving DecidableEq, Repr

/-- The database: one list per collection. -/
structure Store where
  users : List User
  otps : List OTP
  roles : List Role
  modules : List Module
  defaults : List Defaults
  visitors : List Visitor
deriving DecidableEq, Repr

/-- What a single call takes from outside the repository. -/
structure Env where
  /-- The value of `Date.now()` / `new Date()`. -/
  now : Nat
  /-- The value of `uuidv4()` called in the body of the operation. -/
  uuid : String
  /-- The value of `Math.floor(Math.random() * 900000)`. -/
  random : Nat
  /-- The `_id` MongoDB gives to a document created by the operation. -/
  objectId : ObjectId
  /-- The `uuidv4` the schema default gives to the `uid` of a created user. -/
  defaultUid : String
  /-- The function `bcrypt.hash(password, rounds)`. -/
  hash : String → String
  /-- The function `bcrypt.compare(password, hash)`. -/
  compare : String → String → Bool
  /-- The function `jwt.sign` with the access secret, on `{id, role}`. -/
  signAccess : ObjectId → Option ObjectId → String
  /-- The function `jwt.sign` with the refresh secret, on `{id}`. -/
  signRefresh : ObjectId → String
  /-- The function `jwt.verify` with the refresh secret: the `id` of the payload, or
  `none` when it throws. -/
  verifyRefresh : String → Option ObjectId
  /-- The error thrown by the mail transport, `none` when the mail is accepted. -/
  mailError : Option String

deriving instance DecidableEq for Except

/-! ## Collection primitives -/

/-- Embeds `User.findById(id)`. -/
def User.findById (users : List User) (id : ObjectId) : Option User :=
  users.find? (fun u => u._id == id)

/-- Embeds `User.findOne({ email })`. -/
def User.findByEmail (users : List User) (email : String) : Option User :=
  users.find? (fun u => u.email == email)

/-- Embeds `User.findOne({ uid })`. -/
def User.findByUid (users : List User) (uid : String) : Option User :=
  users.find? (fun u => u.uid == uid)

/-- Embeds the write of `user.save()`: the stored document with the `_id` of `user`
becomes `user`. The validation that `save` runs before the write (the `required`
strings, as in `User.create`) is embedded in `googleAuth`, the flow that writes a
string of the request to a required path of a stored user; the other flows save
strings that passed this validation when they were stored. -/
def User.save (users : List User) (user : User) : List User :=
  users.map (fun v => if v._id == user._id then user else v)

/-- Embeds `Role.findById(id)`; a user without a role reference finds nothing. -/
def Role.findById (roles : List Role) (id : Option ObjectId) : Option Role :=
  match id with
  | none => none
  | some r => roles.find? (fun x => x._id == r)

/-- Embeds `Module.findById(id)`. -/
def Module.findById (modules : List Module) (id : ObjectId) : Option Module :=
  modules.find? (fun m => m._id == id)

/-- Embeds `Visitor.findById(id)`. -/
def Visitor.findById (visitors : List Visitor) (id : ObjectId) : Option Visitor :=
  visitors.find? (fun v => v._id == id)

/-- Embeds `Defaults.findOne({ prior })`. -/
def Defaults.findOne (defaults : List Defaults) (prior : String) : Option Defaults :=
  defaults.find? (fun d => d.prior == prior)

/-- Embeds `OTP.findOne({ otpId })`. -/
def OTP.findOne (otps : List OTP) (otpId : String) : Option OTP :=
  otps.find? (fun o => o.otpId == otpId)

/-- Embeds `OTP.deleteMany({ email })`. -/
def OTP.deleteMany (otps : List OTP) (email : String) : List OTP :=
  otps.filter (fun o => o.email != email)

/-- Embeds `OTP.deleteOne({ otpId })`. -/
def OTP.deleteOne (otps : List OTP) (otpId : String) : List OTP :=
  otps.eraseP (fun o => o.otpId == otpId)

/-- Embeds `OTP.create(doc)`: the schema validation (`required` strings are non-empty,
`otpId` is `unique`) and the insert; `none` when the document is refused. -/
def OTP.create (otps : List OTP) (doc : OTP) : Option (List OTP) :=
  if doc.username = "" ∨ doc.email = "" ∨ doc.password = "" ∨ doc.query = ""
      ∨ doc.otpCode = "" ∨ doc.otpId = "" then none
  else if otps.any (fun o => o.otpId == doc.otpId) then none
  else some (otps ++ [doc])

/-- Embeds `User.create(doc)`: the schema validation (`required` strings are non-empty,
`email` and `uid` are `unique`) and the insert; `none` when the document is refused. -/
def User.create (users : List User) (doc : User) : Option (List User) :=
  if doc.username = "" ∨ doc.email = "" ∨ doc.password = "" then none
  else if users.any (fun u => u.email == doc.email || u.uid == doc.uid) then none
  else some (users ++ [doc])

/-! ## Token service (`src/services/token.service.js`) -/

/-- The message of the token service when the user is not found. -/
def msgNoAccount : String := "No account found. Please register first."

/-- The lifetime of a stored refresh-token record: `7 * 24 * 60 * 60 * 1000` ms. -/
def recordTtl : Nat := 7 * 24 * 60 * 60 * 1000

/-- Embeds `saveRefreshToken(userId, refreshToken)` at the instant `now`. -/
def saveRefreshToken (users : List User) (userId : ObjectId) (refreshToken : String)
    (now : Nat) : Except String (List User) :=
  match User.findById users userId with
  | none => .error msgNoAccount
  | some user =>
    let expiresAt := now + recordTtl
    .ok (User.save users { user with
      refreshTokens := user.refreshTokens ++
        [{ token := refreshToken, createdAt := now, expiresAt := expiresAt }] })

/-- Embeds `removeRefreshToken(userId, refreshToken)`. -/
def removeRefreshToken (users : List User) (userId : ObjectId) (refreshToken : String) :
    Except String (List User) :=
  match User.findById users userId with
  | none => .error msgNoAccount
  | some user =>
    .ok (User.save users { user with
      refreshTokens := user.refreshTokens.filter (fun rt => rt.token != refreshToken) })

/-- Embeds `isRefreshTokenValid(userId, token)` at the instant `now`. -/
def isRefreshTokenValid (users : List User) (userId : ObjectId) (token : String)
    (now : Nat) : Bool :=
  match User.findById users userId with
  | none => false
  | some user =>
    match user.refreshTokens.find? (fun rt => rt.token == token) with
    | none => false
    | some storedToken =>
      if now > storedToken.expiresAt then false
      else true

/-! ## Permission resolution (the block repeated in every session-producing flow) -/

/-- The `module` object of a resolved permission: `{slug, uid, status}`. -/
structure ModuleInfo where
  slug : String
  uid : String
  status : ModuleStatus
deriving DecidableEq, Repr

/-- An entry of the `permissions` array sent to the client. -/
structure ResolvedPermission where
  module : ModuleInfo
  actions : Actions
deriving DecidableEq, Repr

/-- The array `permissionsData`: `roleData.permissions.map(...)`, `none` standing for
the `null` returned when `Module.findById(perm.module)` finds nothing. -/
def permissionsData (modules : List Module) (permissions : List Permission) :
    List (Option ResolvedPermission) :=
  permissions.map (fun perm =>
    match Module.findById modules perm.module with
    | none => none
    | some moduleDoc =>
      some { module := { slug := moduleDoc.slug, uid := moduleDoc.uid,
                         status := moduleDoc.status },
             actions := perm.actions })

/-- The array `filteredPermissions`: `permissionsData.filter(Boolean)`, which keeps
the entries that are not `null`. -/
def filteredPermissions (modules : List Module) (permissions : List Permission) :
    List ResolvedPermission :=
  (permissionsData modules permissions).filterMap (fun entry => entry)

/-- The JavaScript `toLowerCase()` of a string, on its ASCII letters. -/
def toLowerCase (s : String) : String := String.mk (s.data.map Char.toLower)

/-- The `role` object of a session payload. -/
structure RoleObj where
  name : String
  slug : String
  uid : String
  permissions : List ResolvedPermission
deriving DecidableEq, Repr

/-- The `user` object of a session payload (`userObj`); `id` is absent in the
payload of `refreshToken`. -/
structure UserObj where
  id : Option ObjectId
  username : String
  email : String
  profile_pic : Option String
  g_auth : Bool
  theme : Bool
  uid : String
  redirectRoute : String
  role : RoleObj
deriving DecidableEq, Repr

/-- The `routeRole`: `roleData.name?.toLowerCase() ?? ""`. -/
def routeRole (roleData : Role) : String :=
  match roleData.name with
  | some n => toLowerCase n
  | none => ""

/-- The `userObj` built by the session-producing flows from the saved user and the
loaded role. -/
def userObj (modules : List Module) (user : User) (roleData : Role) (withId : Bool) :
    UserObj :=
  let filtered := filteredPermissions modules roleData.permissions
  let route := routeRole roleData
  let redirectRoute := "/" ++ route ++ "/" ++ user.uid
  { id := if withId then some user._id else none
    username := user.username
    email := user.email
    profile_pic := user.profile_pic
    g_auth := user.googleAuth
    theme := user.theme
    uid := user.uid
    redirectRoute := redirectRoute
    role := { name := route, slug := roleData.slug, uid := roleData.uid,
              permissions := filtered } }

/-- The value returned by a session-producing service operation. -/
structure Session where
  message : Option String
  user : UserObj
  accessToken : String
  refreshToken : String
deriving DecidableEq, Repr

/-! ## Access gate (`src/middlewares/auth.middleware.js`, `verifyemail.middleware.js`) -/

/-- The JSON body of an error response; a flag that the source leaves out is `false`. -/
structure JsonBody where
  status : Bool
  verify : Bool
  refresh : Bool
  message : String
deriving DecidableEq, Repr

/-- What a middleware does: call `next()`, or answer `res.status(code).json(body)`. -/
inductive Gate where
  | next
  | respond (code : Nat) (body : JsonBody)
deriving DecidableEq, Repr

def msgEmailRequired : String := "Email address is required."
def msgNoAccountEmail : String := "No account found with this email. Please register first."
def msgSuspended : String := "Your account has been suspended. Please contact support."
def msgInactive : String := "Your account is inactive. Please contact support."
def msgSignupSuspended : String :=
  "This email is linked to a suspended account. Please contact support."
def msgEmailExists : String := "An account with this email already exists."

/-- The JavaScript test `!s` on a value that is a string or absent. -/
def isMissing (s : Option String) : Bool :=
  match s with
  | none => true
  | some v => v == ""

/-- The middleware `checkAccess`, on the `email` of the request body. -/
def checkAccess (users : List User) (email : Option String) : Gate :=
  if isMissing email then
    .respond 400 { status := false, verify := false, refresh := false,
                   message := msgEmailRequired }
  else
    match User.findByEmail users (email.getD "") with
    | none =>
      .respond 404 { status := false, verify := false, refresh := false,
                     message := msgNoAccountEmail }
    | some user =>
      if user.access.active && user.access.suspend then
        .respond 403 { status := false, verify := true, refresh := false,
                       message := msgSuspended }
      else if !user.access.active && !user.access.suspend then
        .respond 403 { status := false, verify := true, refresh := false,
                       message := msgNoAccountEmail }
      else if !user.access.active then
        .respond 403 { status := false, verify := true, refresh := false,
                       message := msgInactive }
      else if user.access.suspend then
        .respond 403 { status := false, verify := true, refresh := false,
                       message := msgSuspended }
      else .next

/-- The middleware `checkAccessForSignup`, on the `email` of the request body. -/
def checkAccessForSignup (users : List User) (email : Option String) : Gate :=
  if isMissing email then
    .respond 400 { status := false, verify := false, refresh := false,
                   message := msgEmailRequired }
  else
    match User.findByEmail users (email.getD "") with
    | some existingUser =>
      if !existingUser.access.active && !existingUser.access.suspend then .next
      else if existingUser.access.suspend then
        .respond 403 { status := false, verify := false, refresh := false,
                       message := msgSignupSuspended }
      else if !existingUser.access.active then
        .respond 403 { status := false, verify := false, refresh := false,
                       message := msgInactive }
      else
        .respond 409 { status := false, verify := false, refresh := false,
                       message := msgEmailExists }
    | none => .next

/-- The middleware `checkEmailInDB`, on the `email` of the request body. -/
def checkEmailInDB (users : List User) (email : Option String) : Gate :=
  if isMissing email then
    .respond 400 { status := false, verify := false, refresh := false,
                   message := msgEmailRequired }
  else
    match User.findByEmail users (email.getD "") with
    | some user =>
      if !user.access.active && !user.access.suspend then .next
      else
        .respond 409 { status := false, verify := false, refresh := false,
                       message := msgEmailExists }
    | none => .next

/-! ## OTP flows (`src/services/auth.service.js`) -/

def msgSetupFailed : String := "Unable to set up your account. Please try again later."
def msgOtpSent : String := "A verification code has been sent to your email."
def msgOtpInvalid : String :=
  "This verification code is invalid or has already expired. Please request a new one."
def msgOtpMissing : String := "Please enter the verification code sent to your email."
def msgOtpIncorrect : String :=
  "The verification code you entered is incorrect. Please try again."
def msgOtpExpired : String := "This verification code has expired. Please request a new one."
def msgNoDefaultRole : String :=
  "We could not assign a role to your account. Please contact support."
def msgSignupSession : String :=
  "Your session could not be verified. Please try signing up again."
def msgRoleNotFound : String := "Role not found for this user."
def msgVerified : String :=
  "Your account has been verified successfully. You are now signed in."
def msgSession : String := "Your session could not be verified. Please try again."
def msgNoCredentials : String := "We couldn’t find an account with these credentials."
def msgWrongPassword : String := "The email or password you entered is incorrect."
def msgLoginOtpSent : String :=
  "A verification code has been sent to your email. Please check your inbox."
def msgSigninSession : String :=
  "Your session could not be verified. Please try signing in again."
def msgNoAccountForEmail : String :=
  "No account was found with this email address. Please create an account first."
def msgGoogleData : String := "Invalid Google account data received. Please try again."
def msgGoogleNoRole : String := "Unable to assign a default role. Please contact support."
def defaultProfilePic : String :=
  "https://res.cloudinary.com/dd2alel5h/image/upload/v1759061203/user-image_cs4soq.png"
def googlePasswordHash : String :=
  "$2b$10$lvTvdmmMdgGmfPH10tq4kO/jAhGugImhwFSN3a7fSIQhWrSNxGO16"

/-- The message of the error Mongoose throws when a `create` is refused by the
schema; its text comes from the library. -/
def msgStoreRefused : String := "ValidationError"

/-- The OTP code drawn by `Math.floor(100000 + Math.random() * 900000).toString()`. -/
def otpCodeOf (env : Env) : String := toString (100000 + env.random)

/-- The payload returned by `registerUserWithOTP` and `loginUser`. -/
structure OtpIssued where
  message : String
  username : String
  email : String
  otpId : String
deriving DecidableEq, Repr

/-- Embeds `registerUserWithOTP({ username, email, password, query })`. -/
def registerUserWithOTP (st : Store) (env : Env)
    (username email password query : String) : Except String OtpIssued × Store :=
  match Defaults.findOne st.defaults "Role" with
  | none => (.error msgSetupFailed, st)
  | some _ =>
    let hashedPassword := env.hash password
    let otpCode := otpCodeOf env
    let otpId := env.uuid
    let expiresAt := env.now + 60 * 1000
    -- try { deleteMany; create } catch { log }: a refused create is swallowed
    let cleared := OTP.deleteMany st.otps email
    let otps := match OTP.create cleared
        { username := username, email := email, password := hashedPassword,
          query := query, otpCode := otpCode, otpId := otpId, expiresAt := expiresAt,
          verified := false } with
      | some created => created
      | none => cleared
    let st1 := { st with otps := otps }
    match env.mailError with
    | some err => (.error err, st1)
    | none =>
      (.ok { message := msgOtpSent, username := username, email := email, otpId := otpId },
       st1)

/-- The four checks that open `verifyOTPAndCreateUser` and `verifyOTPAndLoginUser`:
the message thrown, or the challenge when all four pass. -/
def checkOtp (otps : List OTP) (now : Nat) (otpId : String) (otpCode : Option String) :
    Except String OTP :=
  match OTP.findOne otps otpId with
  | none => .error msgOtpInvalid
  | some otpObj =>
    if isMissing otpCode then .error msgOtpMissing
    else if otpObj.otpCode != otpCode.getD "" then .error msgOtpIncorrect
    else if otpObj.expiresAt < now then .error msgOtpExpired
    else .ok otpObj

/-- Embeds `verifyOTPAndCreateUser({ otpId, otpCode })`. -/
def verifyOTPAndCreateUser (st : Store) (env : Env) (otpId : String)
    (otpCode : Option String) : Except String Session × Store :=
  match checkOtp st.otps env.now otpId otpCode with
  | .error msg => (.error msg, st)
  | .ok otpObj =>
    match Defaults.findOne st.defaults "Role" with
    | none => (.error msgNoDefaultRole, st)
    | some defaults =>
      match Visitor.findById st.visitors otpObj.query with
      | none => (.error msgSignupSession, st)
      | some existingVisitor =>
        let currentTime := env.now
        let newUid := env.uuid
        let saved : Option (User × List User) :=
          match User.findByEmail st.users otpObj.email with
          | none =>
            let doc : User :=
              { _id := env.objectId, username := otpObj.username, email := otpObj.email,
                password := otpObj.password, query := [existingVisitor._id],
                role := defaults.roleId, uid := env.defaultUid, g_uid := none,
                profile_pic := some defaultProfilePic, timeAdded := some env.now,
                theme := true, firstLogin := true, googleAuth := false,
                subscribed := true, lastLoginAt := none,
                access := { active := true, suspend := false }, refreshTokens := [] }
            (User.create st.users doc).map (fun users => (doc, users))
          | some user =>
            let user : User :=
              { user with
                username := otpObj.username, password := otpObj.password,
                access := { active := true, suspend := false },
                subscribed := true, firstLogin := false,
                lastLoginAt := some currentTime, uid := newUid }
            some (user, User.save st.users user)
        match saved with
        | none => (.error msgStoreRefused, st)
        | some (user, users) =>
          let st1 := { st with users := users }
          match Role.findById st.roles user.role with
          | none => (.error msgRoleNotFound, st1)
          | some roleData =>
            let accessToken := env.signAccess user._id user.role
            let refreshToken := env.signRefresh user._id
            let st2 := { st1 with otps := OTP.deleteOne st1.otps otpId }
            match env.mailError with
            | some err => (.error err, st2)
            | none =>
              (.ok { message := some msgVerified,
                     user := userObj st.modules user roleData true,
                     accessToken := accessToken, refreshToken := refreshToken },
               st2)

/-- Embeds `loginUser({ query, email, password })`. -/
def loginUser (st : Store) (env : Env) (query email password : String) :
    Except String OtpIssued × Store :=
  match Visitor.findById st.visitors query with
  | none => (.error msgSession, st)
  | some visitor =>
    match User.findByEmail st.users email with
    | none => (.error msgNoCredentials, st)
    | some user =>
      if !env.compare password user.password then (.error msgWrongPassword, st)
      else
        let queryExists := user.query.any (fun q => q == query)
        let users :=
          if queryExists then st.users
          else User.save st.users { user with query := user.query ++ [visitor._id] }
        let otpCode := otpCodeOf env
        let otpId := env.uuid
        let expiresAt := env.now + 1 * 60 * 1000
        let cleared := OTP.deleteMany st.otps email
        match OTP.create cleared
            { username := user.username, email := email, password := user.password,
              query := query, otpCode := otpCode, otpId := otpId,
              expiresAt := expiresAt, verified := false } with
        | none => (.error msgStoreRefused, { st with users := users, otps := cleared })
        | some otps =>
          let st1 := { st with users := users, otps := otps }
          match env.mailError with
          | some err => (.error err, st1)
          | none =>
            (.ok { message := msgLoginOtpSent, username := user.username,
                   email := user.email, otpId := otpId },
             st1)

/-- The update of the user made by `verifyOTPAndLoginUser` and `verifyLoginUser`
before `user.save()`: the visitor is recorded, the flags are cleared, the login
times move on and a new `uid` is set. -/
def loginUpdate (user : User) (visitorId : ObjectId) (now : Nat) (newUid : String) : User :=
  let queryExists := user.query.any (fun q => q == visitorId)
  { user with
    query := if queryExists then user.query else user.query ++ [visitorId]
    firstLogin := false
    googleAuth := false
    lastLoginAt := match user.timeAdded with
      | some t => some t
      | none => user.lastLoginAt
    timeAdded := some now
    uid := newUid }

/-- Embeds `verifyOTPAndLoginUser({ otpId, otpCode })`. -/
def verifyOTPAndLoginUser (st : Store) (env : Env) (otpId : String)
    (otpCode : Option String) : Except String Session × Store :=
  match checkOtp st.otps env.now otpId otpCode with
  | .error msg => (.error msg, st)
  | .ok otpObj =>
    match Visitor.findById st.visitors otpObj.query with
    | none => (.error msgSigninSession, st)
    | some visitor =>
      match User.findByEmail st.users otpObj.email with
      | none => (.error msgNoAccountForEmail, st)
      | some user =>
        let user := loginUpdate user visitor._id env.now env.uuid
        let st1 := { st with users := User.save st.users user }
        match Role.findById st.roles user.role with
        | none => (.error msgRoleNotFound, st1)
        | some roleData =>
          let accessToken := env.signAccess user._id user.role
          let refreshToken := env.signRefresh user._id
          let st2 := { st1 with otps := OTP.deleteOne st1.otps otpId }
          match env.mailError with
          | some err => (.error err, st2)
          | none =>
            (.ok { message := some msgVerified,
                   user := userObj st.modules user roleData true,
                   accessToken := accessToken, refreshToken := refreshToken },
             st2)

/-- Embeds `googleAuth({ username, email, uid, profile_pic, query })`. -/
def googleAuth (st : Store) (env : Env) (username : String) (email uid : Option String)
    (profile_pic : Option String) (query : String) : Except String Session × Store :=
  match Visitor.findById st.visitors query with
  | none => (.error msgSession, st)
  | some visitor =>
    if isMissing uid || isMissing email then (.error msgGoogleData, st)
    else
      let saved : Except String (User × List User) :=
        match User.findByEmail st.users (email.getD "") with
        | none =>
          match Defaults.findOne st.defaults "Role" with
          | none => .error msgGoogleNoRole
          | some defaults =>
            let doc : User :=
              { _id := env.objectId, username := username, email := email.getD "",
                password := googlePasswordHash, query := [query],
                role := defaults.roleId, uid := env.defaultUid, g_uid := uid,
                profile_pic := profile_pic, timeAdded := some env.now,
                theme := true, firstLogin := true, googleAuth := true,
                subscribed := true, lastLoginAt := none,
                access := { active := true, suspend := false }, refreshTokens := [] }
            match User.create st.users doc with
            | none => .error msgStoreRefused
            | some users => .ok (doc, users)
        | some user =>
          let user : User :=
            { user with
              username := if !user.access.active then username else user.username
              query := if !user.query.contains visitor._id
                then user.query ++ [visitor._id] else user.query
              firstLogin := false
              googleAuth := true
              lastLoginAt := match user.timeAdded with
                | some t => some t
                | none => user.lastLoginAt
              timeAdded := some env.now
              access := { active := true, suspend := false }
              g_uid := if isMissing user.g_uid then uid else user.g_uid
              profile_pic := profile_pic }
          -- `user.save()` validates the document: the username may be the request's
          if user.username = "" ∨ user.email = "" ∨ user.password = "" then
            .error msgStoreRefused
          else .ok (user, User.save st.users user)
      match saved with
      | .error msg => (.error msg, st)
      | .ok (user, users) =>
        let st1 := { st with users := users }
        match Role.findById st.roles user.role with
        | none => (.error msgRoleNotFound, st1)
        | some roleData =>
          let accessToken := env.signAccess user._id user.role
          let refreshToken := env.signRefresh user._id
          match env.mailError with
          | some err => (.error err, st1)
          | none =>
            (.ok { message := none, user := userObj st.modules user roleData true,
                   accessToken := accessToken, refreshToken := refreshToken },
             st1)

/-- Embeds `verifyLoginUser({ query, email, password })`. -/
def verifyLoginUser (st : Store) (env : Env) (query email password : String) :
    Except String Session × Store :=
  match Visitor.findById st.visitors query with
  | none => (.error msgSession, st)
  | some visitor =>
    match User.findByEmail st.users email with
    | none => (.error msgNoCredentials, st)
    | some user =>
      if !env.compare password user.password then (.error msgWrongPassword, st)
      else
        let user := loginUpdate user visitor._id env.now env.uuid
        let st1 := { st with users := User.save st.users user }
        match Role.findById st.roles user.role with
        | none => (.error msgRoleNotFound, st1)
        | some roleData =>
          let accessToken := env.signAccess user._id user.role
          let refreshToken := env.signRefresh user._id
          (.ok { message := some msgVerified,
                 user := userObj st.modules user roleData true,
                 accessToken := accessToken, refreshToken := refreshToken },
           st1)

/-! ## Refresh endpoint (`src/authentication/index.js`) -/

def msgNoRefreshToken : String := "No refresh token"
def msgInvalidRefreshToken : String := "Invalid refresh token"
def msgDeleted : String := "Your account has been deleted. Please contact support."
def msgRoleMissing : String := "Role not found"

/-- The answer of `refreshToken`: an error response, or the 200 response with the
cookie it sets, the access token and the user payload. -/
inductive RefreshResponse where
  | fail (code : Nat) (body : JsonBody)
  | success (cookie : String) (accessToken : String) (user : UserObj)
deriving DecidableEq, Repr

/-- The 401 answer of the `catch` block and of an invalid token. -/
def invalidRefresh : RefreshResponse :=
  .fail 401 { status := false, verify := false, refresh := false,
              message := msgInvalidRefreshToken }

/-- The handler `refreshToken(req, res)`, on the `refreshToken` cookie of the request. -/
def refreshToken (st : Store) (env : Env) (cookie : Option String) :
    RefreshResponse × Store :=
  if isMissing cookie then
    (.fail 401 { status := false, verify := false, refresh := false,
                 message := msgNoRefreshToken }, st)
  else
    let token := cookie.getD ""
    match env.verifyRefresh token with
    | none => (invalidRefresh, st)
    | some id =>
      if !isRefreshTokenValid st.users id token env.now then (invalidRefresh, st)
      else
        match User.findById st.users id with
        | none => (invalidRefresh, st)
        | some user =>
          if user.access.active && user.access.suspend then
            (.fail 403 { status := false, verify := true, refresh := false,
                         message := msgSuspended }, st)
          else if !user.access.active && !user.access.suspend then
            (.fail 403 { status := false, verify := true, refresh := false,
                         message := msgDeleted }, st)
          else if !user.access.active then
            (.fail 403 { status := false, verify := true, refresh := false,
                         message := msgInactive }, st)
          else if user.access.suspend then
            (.fail 403 { status := false, verify := true, refresh := false,
                         message := msgSuspended }, st)
          else
            match Role.findById st.roles user.role with
            | none =>
              (.fail 404 { status := false, verify := false, refresh := false,
                           message := msgRoleMissing }, st)
            | some roleData =>
              let accessToken := env.signAccess user._id user.role
              let newRefreshToken := env.signRefresh user._id
              match removeRefreshToken st.users user._id token with
              | .error _ => (invalidRefresh, st)
              | .ok users1 =>
                match saveRefreshToken users1 user._id newRefreshToken env.now with
                | .error _ => (invalidRefresh, { st with users := users1 })
                | .ok users2 =>
                  (.success newRefreshToken accessToken
                     (userObj st.modules user roleData false),
                   { st with users := users2 })

/-! ## Logout (`src/authentication/index.js`) -/

def msgLoggedOut : String := "You have been logged out successfully."
def msgLogoutFailed : String := "Unable to log out at the moment."

/-- Embeds `User.updateOne({ _id: id }, { $pull: { refreshTokens: { token } } })`: in
the first document with that `_id` every record with that token is removed; when no
document matches nothing is written. -/
def User.pullRefreshToken : List User → ObjectId → String → List User
  | [], _, _ => []
  | u :: rest, id, token =>
    if u._id == id then
      { u with refreshTokens := u.refreshTokens.filter (fun rt => rt.token != token) }
        :: rest
    else u :: User.pullRefreshToken rest id token

/-- The answer of `logout`: the status code, whether `res.clearCookie("refreshToken")`
was called, and the JSON body. -/
structure LogoutResponse where
  code : Nat
  clearedCookie : Bool
  body : JsonBody
deriving DecidableEq, Repr

/-- The handler `logout(req, res)`, on the `refreshToken` cookie of the request. -/
def logout (st : Store) (env : Env) (cookie : Option String) : LogoutResponse × Store :=
  let done : LogoutResponse :=
    { code := 200, clearedCookie := true,
      body := { status := true, verify := false, refresh := false,
                message := msgLoggedOut } }
  if isMissing cookie then (done, st)
  else
    let token := cookie.getD ""
    match env.verifyRefresh token with
    | none =>
      -- verifyRefreshToken throws: the catch block answers, clearCookie is not reached
      ({ code := 500, clearedCookie := false,
         body := { status := false, verify := false, refresh := false,
                   message := msgLogoutFailed } }, st)
    | some id => (done, { st with users := User.pullRefreshToken st.users id token })

/-! ## Password change and reset (`src/services/auth.service.js`) -/

def msgProvidePassword : String := "Please provide your new password."
def msgNeedLower : String := "Password must contain at least one lowercase letter."
def msgNeedUpper : String := "Password must contain at least one uppercase letter."
def msgNeedNumber : String := "Password must contain at least one number."
def msgNeedSpecial : String := "Password must contain at least one special character."
def msgTooShort : String := "Password must be at least 7 characters long."
def msgNoUserFound : String := "No user found for the provided account."
def msgPasswordUpdated : String := "Your password has been updated successfully."
def msgEnterEmail : String :=
  "Please enter the email address associated with your account."
def msgNoAccountRegistered : String :=
  "We couldn’t find any account registered with this email address."
def msgResetLinkSent : String :=
  "We’ve sent a password reset link to your registered email address."

/-- The JavaScript `s.length`: the number of UTF-16 code units of the string. -/
def jsLength (s : String) : Nat :=
  (s.data.map (fun c => if c.val < 0x10000 then 1 else 2)).sum

/-- The characters of the class `[@$!%*?&]`. -/
def specialChars : List Char := "@$!%*?&".data

/-- The test `/(?=.*[a-z])/.test(s)`: some character of `s` is in `a-z`. -/
def hasLower (s : String) : Bool := s.data.any Char.isLower

/-- The test `/(?=.*[A-Z])/.test(s)`: some character of `s` is in `A-Z`. -/
def hasUpper (s : String) : Bool := s.data.any Char.isUpper

/-- The test `/(?=.*\d)/.test(s)`: some character of `s` is in `0-9`. -/
def hasDigit (s : String) : Bool := s.data.any Char.isDigit

/-- The test `/(?=.*[@$!%*?&])/.test(s)`: some character of `s` is one of `@$!%*?&`. -/
def hasSpecial (s : String) : Bool := s.data.any (fun c => specialChars.contains c)

/-- The payload returned by `changePassword`. -/
structure Confirmation where
  message : String
deriving DecidableEq, Repr

/-- Embeds `changePassword({ uid, password })`. -/
def changePassword (st : Store) (env : Env) (uid password : Option String) :
    Except String Confirmation × Store :=
  if isMissing uid || isMissing password then (.error msgProvidePassword, st)
  else
    let uid := uid.getD ""
    let password := password.getD ""
    if !hasLower password then (.error msgNeedLower, st)
    else if !hasUpper password then (.error msgNeedUpper, st)
    else if !hasDigit password then (.error msgNeedNumber, st)
    else if !hasSpecial password then (.error msgNeedSpecial, st)
    else if jsLength password < 7 then (.error msgTooShort, st)
    else
      match User.findByUid st.users uid with
      | none => (.error msgNoUserFound, st)
      | some user =>
        let hashedPassword := env.hash password
        let newUid := env.uuid
        let user : User := { user with password := hashedPassword, uid := newUid }
        let st1 := { st with users := User.save st.users user }
        match env.mailError with
        | some err => (.error err, st1)
        | none => (.ok { message := msgPasswordUpdated }, st1)

/-- The mail that `ForgotPasswordEmail` hands to the mail transport: the reset
request, or the notice of a suspicious attempt with its description. -/
inductive ResetMail where
  | request
  | suspicious (info : String)
deriving DecidableEq, Repr

/-- The payload returned by `ForgotPasswordEmail`. -/
structure ResetPayload where
  message : String
  username : String
  email : String
  uid : String
deriving DecidableEq, Repr

/-- The text `suspiciousInfo` of `ForgotPasswordEmail`. -/
def suspiciousInfo (visitorObj : Option Visitor) : String :=
  match visitorObj with
  | some v =>
    "A suspicious forgot password attempt was detected from device: " ++ v.device ++
      ", located in " ++ v.city ++ ", " ++ v.regionName ++ ", " ++ v.country ++ "."
  | none => "A suspicious forgot password attempt was detected."

/-- Embeds `ForgotPasswordEmail({ email, query })`: the value returned or the message
thrown, together with the mail handed to the transport (if any). -/
def ForgotPasswordEmail (st : Store) (env : Env) (email : Option String) (query : String) :
    Except String ResetPayload × Option ResetMail :=
  if isMissing email then (.error msgEnterEmail, none)
  else
    match User.findByEmail st.users (email.getD "") with
    | none => (.error msgNoAccountRegistered, none)
    | some user =>
      let uid := user.uid
      if user.query.contains query then
        match env.mailError with
        | some err => (.error err, some .request)
        | none =>
          (.ok { message := msgResetLinkSent, username := user.username,
                 email := user.email, uid := uid }, some .request)
      else
        let visitorObj := Visitor.findById st.visitors query
        let info := suspiciousInfo visitorObj
        match env.mailError with
        | some err => (.error err, some (.suspicious info))
        | none =>
          (.ok { message := msgResetLinkSent, username := user.username,
                 email := user.email, uid := uid }, some (.suspicious info))

/-! ## Controllers (`src/controllers/auth.controller.js`) -/

/-- The answer of a controller: `res.status(code).json(...)` with the data of the
success branch and the cookie it sets, or with `{ status: false, message }` of the
`catch` branch. -/
inductive Reply (α : Type) where
  | sent (code : Nat) (cookie : Option String) (data : α)
  | failed (code : Nat) (message : String)
deriving DecidableEq, Repr

/-- The status code of a controller's answer. -/
def Reply.code {α : Type} : Reply α → Nat
  | .sent code _ _ => code
  | .failed code _ => code

/-- The body sent by the verify controllers on success. -/
structure SessionReply where
  message : String
  user : UserObj
  accessToken : String
deriving DecidableEq, Repr

/-- The success branch shared by the verify controllers: the refresh token is
saved for `result.user.id`, set as cookie, and `id` is deleted from the user
object that is sent. -/
def sendSession (st : Store) (env : Env) (result : Session) : Reply SessionReply × Store :=
  match saveRefreshToken st.users (result.user.id.getD "") result.refreshToken env.now with
  | .error msg => (.failed 400 msg, st)
  | .ok users =>
    (.sent 200 (some result.refreshToken)
       { message := msgVerified, user := { result.user with id := none },
         accessToken := result.accessToken },
     { st with users := users })

/-- The controller `login`. -/
def AuthController.login (st : Store) (env : Env) (query email password : String) :
    Reply OtpIssued × Store :=
  match loginUser st env query email password with
  | (.ok user, st1) => (.sent 200 none user, st1)
  | (.error msg, st1) => (.failed 400 msg, st1)

/-- The controller `VerifyOTPForSignup`. -/
def AuthController.VerifyOTPForSignup (st : Store) (env : Env) (otpId : String)
    (otpCode : Option String) : Reply SessionReply × Store :=
  match verifyOTPAndCreateUser st env otpId otpCode with
  | (.ok result, st1) => sendSession st1 env result
  | (.error msg, st1) => (.failed 400 msg, st1)

/-- The controller `VerifyOTPForSignin`. -/
def AuthController.VerifyOTPForSignin (st : Store) (env : Env) (otpId : String)
    (otpCode : Option String) : Reply SessionReply × Store :=
  match verifyOTPAndLoginUser st env otpId otpCode with
  | (.ok result, st1) => sendSession st1 env result
  | (.error msg, st1) => (.failed 400 msg, st1)

/-- The controller `ForgotPasswordEmail`. -/
def AuthController.ForgotPasswordEmail (st : Store) (env : Env) (email : Option String)
    (query : String) : Reply ResetPayload :=
  match (QualityService.ForgotPasswordEmail st env email query).1 with
  | .ok user => .sent 200 none user
  | .error msg => .failed 400 msg

/-! ## Permission check (`src/middlewares/checkRole.js`) -/

def msgNoUid : String := "Unauthorized: No UID"
def msgUserNotFound : String := "User not found"
def msgRoleNotFoundShort : String := "Role not found"
def msgInternal : String := "Internal server error"

/-- The message `Forbidden: Module '<slug>' not found or no permission.` -/
def msgNoModulePermission (moduleSlug : String) : String :=
  "Forbidden: Module '" ++ moduleSlug ++ "' not found or no permission."

/-- The message `Forbidden: No '<action>' permission for your role.` -/
def msgNoActionPermission (action : String) : String :=
  "Forbidden: No '" ++ action ++ "' permission for your role."

/-- The lookup `permission.actions[action]` for the names with which the routes
build the middleware, `get`, `post`, `put` and `delete`, the four fields of the
schema; any other name is taken to find nothing. -/
def actionAllowed (actions : Actions) (action : String) : Bool :=
  if action == "get" then actions.get
  else if action == "post" then actions.post
  else if action == "put" then actions.put
  else if action == "delete" then actions.delete
  else false

/-- The outcome of `role.permissions.find(...)` on the populated permissions. -/
inductive FindResult where
  | threw
  | absent
  | found (permission : Permission)
deriving DecidableEq, Repr

/-- The search `role.permissions.find(perm => perm.module.slug === moduleSlug &&
perm.module.status.active === true)` after `populate('permissions.module')`: the
permissions are examined in order; a reference that matches no module is populated
as `null`, and reading `perm.module.slug` of it throws. -/
def findPermission (modules : List Module) (moduleSlug : String) :
    List Permission → FindResult
  | [] => .absent
  | perm :: rest =>
    match Module.findById modules perm.module with
    | none => .threw
    | some m =>
      if m.slug == moduleSlug && m.status.active == true then .found perm
      else findPermission modules moduleSlug rest

/-- The middleware `checkPermission(moduleSlug, action)`, on the `uid` header of the
request. -/
def checkPermission (st : Store) (moduleSlug action : String) (uid : Option String) :
    Gate :=
  if isMissing uid then
    .respond 401 { status := false, verify := false, refresh := false,
                   message := msgNoUid }
  else
    match User.findByUid st.users (uid.getD "") with
    | none =>
      .respond 403 { status := false, verify := false, refresh := false,
                     message := msgUserNotFound }
    | some user =>
      match Role.findById st.roles user.role with
      | none =>
        .respond 403 { status := false, verify := false, refresh := false,
                       message := msgRoleNotFoundShort }
      | some role =>
        match findPermission st.modules moduleSlug role.permissions with
        | .threw =>
          .respond 500 { status := false, verify := false, refresh := false,
                         message := msgInternal }
        | .absent =>
          .respond 403 { status := false, verify := false, refresh := false,
                         message := msgNoModulePermission moduleSlug }
        | .found permission =>
          if !actionAllowed permission.actions action then
            .respond 403 { status := false, verify := false, refresh := false,
                           message := msgNoActionPermission action }
          else .next

/-! ## Sweep of expired refresh tokens (`src/cronjobs/expiredToken.js`) -/

/-- Embeds `User.updateOne({ _id: id }, { $pull: { refreshTokens: { expiresAt:
{ $lte: now } } } })`: in the first document with that `_id` every record with
`expiresAt <= now` is removed. -/
def User.pullExpired : List User → ObjectId → Nat → List User
  | [], _, _ => []
  | u :: rest, id, now =>
    if u._id == id then
      { u with refreshTokens := u.refreshTokens.filter (fun t => !(t.expiresAt ≤ now)) }
        :: rest
    else u :: User.pullExpired rest id now

/-- The hourly job at the instant `now`: the users with a record whose
`expiresAt <= now` are loaded, and for each of them that has such a record the
expired records are pulled from the stored document. -/
def sweepExpiredTokens (users : List User) (now : Nat) : List User :=
  let found := users.filter (fun u => u.refreshTokens.any (fun t => t.expiresAt ≤ now))
  found.foldl
    (fun (stored : List User) (user : User) =>
      let expiredTokens := user.refreshTokens.filter (fun t => t.expiresAt ≤ now)
      if expiredTokens.length = 0 then stored
      else User.pullExpired stored user._id now)
    users

/-! ## Predicates used in the statements -/

/-- The relation between a permission of the role and its resolved entry: the entry
carries `{slug, uid, status}` of the referenced module and the actions unchanged. -/
def ResolvesTo (modules : List Module) (perm : Permission) (entry : ResolvedPermission) :
    Prop :=
  ∃ m, Module.findById modules perm.module = some m ∧
    entry = { module := { slug := m.slug, uid := m.uid, status := m.status },
              actions := perm.actions }

/-- Every entry of a resolved list carries `{slug, uid, status}` of a module that is
in the module store. -/
def EntriesExist (modules : List Module) (entries : List ResolvedPermission) : Prop :=
  ∀ entry ∈ entries, ∃ m ∈ modules,
    entry.module = { slug := m.slug, uid := m.uid, status := m.status }

/-- The OTP store `after` holds exactly one challenge for `email`, the one with
`otpId`, and no challenge of `before` for `email` can be found by its id any more,
so that verifying with such an id fails with the not-found error. -/
def Supersedes (before after : List OTP) (email otpId : String) : Prop :=
  (∃ issued, after.filter (fun o => o.email == email) = [issued] ∧
    issued.otpId = otpId) ∧
  ∀ old ∈ before, old.email = email →
    OTP.findOne after old.otpId = none ∧
    ∀ (st2 : Store) (env2 : Env) (code2 : Option String), st2.otps = after →
      verifyOTPAndCreateUser st2 env2 old.otpId code2 = (.error msgOtpInvalid, st2) ∧
      verifyOTPAndLoginUser st2 env2 old.otpId code2 = (.error msgOtpInvalid, st2)

/-- The password policy in the words of the specification: the password is too
short (fewer than 7 characters, counted as JavaScript counts them, in UTF-16 code
units), or has no lower-case letter `a-z`, or no upper-case letter `A-Z`, or no
digit, or none of the symbols `@ $ ! % * ? &`. -/
def PolicyViolated (password : String) : Prop :=
  jsLength password < 7 ∨
  (∀ c ∈ password.data, ¬ ('a' ≤ c ∧ c ≤ 'z')) ∨
  (∀ c ∈ password.data, ¬ ('A' ≤ c ∧ c ≤ 'Z')) ∨
  (∀ c ∈ password.data, ¬ ('0' ≤ c ∧ c ≤ '9')) ∨
  (∀ c ∈ password.data, c ∉ ['@', '$', '!', '%', '*', '?', '&'])

/-- The messages of the password-policy errors of `changePassword`. -/
def policyErrors : List String :=
  [msgNeedLower, msgNeedUpper, msgNeedNumber, msgNeedSpecial, msgTooShort]

/-- The challenge document that `loginUser` creates for a stored user: the stored
username and password hash, the email and visitor reference of the request, the
drawn code and id, and an expiry one minute after the call. -/
def loginChallenge (user : User) (env : Env) (email query : String) : OTP :=
  { username := user.username, email := email, password := user.password,
    query := query, otpCode := otpCodeOf env, otpId := env.uuid,
    expiresAt := env.now + 1 * 60 * 1000, verified := false }

/-- The permission `perm` is the first one of `permissions` whose module has the
slug `moduleSlug` and is active: the list is `pre ++ perm :: post`, the module of
`perm` exists, has the slug and is active, and each permission of `pre` references
an existing module that lacks the slug or is not active. -/
def FirstPermission (modules : List Module) (moduleSlug : String)
    (permissions : List Permission) (perm : Permission) : Prop :=
  ∃ pre post, permissions = pre ++ perm :: post ∧
    (∀ q ∈ pre, ∃ m, Module.findById modules q.module = some m ∧
      ¬ (m.slug = moduleSlug ∧ m.status.active = true)) ∧
    ∃ m, Module.findById modules perm.module = some m ∧
      m.slug = moduleSlug ∧ m.status.active = true

/-! ## Sample documents for the concrete evaluations -/

/-- A user with one stored refresh token `T1` that expires at instant 1000. -/
def alice : User :=
  { _id := "u1", username := "alice", email := "a@x.com", password := "hash:Secret1!",
    query := ["v1"], role := some "r1", uid := "uid-0", g_uid := none,
    profile_pic := none, timeAdded := some 5, theme := true, firstLogin := true,
    googleAuth := false, subscribed := true, lastLoginAt := none,
    access := { active := true, suspend := false },
    refreshTokens := [{ token := "T1", createdAt := 0, expiresAt := 1000 }] }

/-- A user whose records hold the token `T` twice, the first record expiring at
instant 5 and the second at instant 10. -/
def twice : User :=
  { alice with
    refreshTokens := [{ token := "T", createdAt := 0, expiresAt := 5 },
                      { token := "T", createdAt := 1, expiresAt := 10 }] }

/-- An active module, an inactive module, and a role that holds a permission on
each of them and one on a module that is not in the store. -/
def moduleUsers : Module :=
  { _id := "m1", uid := "mod-uid-1", isSystem := true, name := "Users", slug := "_users_",
    status := { active := true, maintenance := false } }

def moduleReports : Module :=
  { _id := "m2", uid := "mod-uid-2", isSystem := true, name := "Reports",
    slug := "_reports_", status := { active := false, maintenance := false } }

def readOnly : Actions := { get := true, post := false, put := false, delete := false }

def adminRole : Role :=
  { _id := "r1", name := some "Admin", uid := "role-uid", slug := "admin-0a1b2c",
    permissions := [{ module := "m1", actions := readOnly },
                    { module := "gone", actions := readOnly },
                    { module := "m2", actions := readOnly }] }

def visitorOne : Visitor :=
  { _id := "v1", device := "laptop", city := "Lahore", regionName := "Punjab",
    country := "Pakistan" }

/-- A store with one user, no pending challenge, one role and two modules. -/
def sampleStore : Store :=
  { users := [alice], otps := [], roles := [adminRole],
    modules := [moduleUsers, moduleReports],
    defaults := [{ prior := "Role", roleId := some "r1" }], visitors := [visitorOne] }

/-- An environment at instant 100 whose hash of `p` is `hash:p`, whose refresh
token for the user `id` is `R-id`, and whose mail transport accepts every mail. -/
def sampleEnv : Env :=
  { now := 100, uuid := "uuid-1", random := 23456, objectId := "u2",
    defaultUid := "uuid-2", hash := fun p => "hash:" ++ p,
    compare := fun p h => h == "hash:" ++ p,
    signAccess := fun id _ => "A-" ++ id,
    signRefresh := fun id => "R-" ++ id,
    verifyRefresh := fun t => if t == "T1" || t == "R-u1" then some "u1" else none,
    mailError := none }

/-- A pending challenge for `alice`, issued at instant 100 with code `123456`. -/
def otpAlice : OTP :=
  { username := "alice", email := "a@x.com", password := "hash:Secret1!", query := "v1",
    otpCode := "123456", otpId := "otp-1", expiresAt := 160, verified := false }

/-- The sample store with the pending challenge `otp-1`. -/
def pendingStore : Store := { sampleStore with otps := [otpAlice] }

/-- The user `alice` after a login at instant 100 that gave her the uid `uuid-1`. -/
def aliceLoggedIn : User := loginUpdate alice "v1" 100 "uuid-1"

/-- The session that the login flows of the sample environment return for `alice`. -/
def aliceSession : Session :=
  { message := some msgVerified,
    user := userObj sampleStore.modules aliceLoggedIn adminRole true,
    accessToken := "A-u1", refreshToken := "R-u1" }

/-- The challenge that the sample environment issues for `alice` at instant 100. -/
def otpIssued : OTP :=
  { username := "alice", email := "a@x.com", password := "hash:Secret1!", query := "v1",
    otpCode := "123456", otpId := "uuid-1", expiresAt := 60100, verified := false }

/-- The sample environment in the second in which `T1` was signed: `jwt.sign` is a
function of the payload, the secret and the issue time in whole seconds, so it
signs the string `T1` again for `alice`. -/
def sameSecondEnv : Env := { sampleEnv with signRefresh := fun _ => "T1" }

/-- The store with the pending challenge `otp-1` and no role at all: the role
reference `r1` of `alice` matches no role. -/
def rolelessStore : Store := { pendingStore with roles := [] }

/-- The user `alice` after she changed her password to `Newpass1!` in the sample
environment, and the store that holds her. -/
def aliceChanged : User := { alice with password := "hash:Newpass1!", uid := "uuid-1" }

def changedStore : Store := { sampleStore with users := [aliceChanged] }

/-- The sample environment at instant 2000, after the expiry 1000 of the record of
`T1`; the signature of `T1` still verifies. -/
def lateEnv : Env := { sampleEnv with now := 2000 }

/-- The sample store with `alice` suspended. -/
def suspendedStore : Store :=
  { sampleStore with
    users := [{ alice with access := { active := true, suspend := true } }] }

/-- A second visitor, known to the store but not among the visitors of `alice`. -/
def visitorTwo : Visitor :=
  { _id := "v2", device := "phone", city := "Karachi", regionName := "Sindh",
    country := "Pakistan" }

/-- The sample store with the two visitors. -/
def twoVisitorStore : Store := { sampleStore with visitors := [visitorOne, visitorTwo] }

/-- A store whose only pending challenge belongs to another email and already
carries the id `uuid-1` that the sample environment draws. -/
def clashStore : Store :=
  { sampleStore with otps := [{ otpAlice with email := "z@x.com", otpId := "uuid-1" }] }

/-- The store in which `alice` is suspended and her challenge `otp-1` is pending. -/
def suspendedPendingStore : Store := { suspendedStore with otps := [otpAlice] }

/-- A role that holds two permissions on the module `m1`, the first without and the
second with the action `get`, and the sample store with that role. -/
def doubleRole : Role :=
  { adminRole with
    permissions := [{ module := "m1",
                      actions := { get := false, post := true, put := false,
                                   delete := false } },
                    { module := "m1", actions := readOnly }] }

def doubleStore : Store := { sampleStore with roles := [doubleRole] }

/-- A pending challenge for the email of `alice` that carries another username and
another password hash, the store that holds it, and `alice` after its verification
at instant 100. -/
def otpRename : OTP := { otpAlice with username := "alicia", password := "hash:Other1!" }

def renameStore : Store := { sampleStore with otps := [otpRename] }

def aliceRenamed : User :=
  { alice with
    username := "alicia", password := "hash:Other1!", firstLogin := false,
    lastLoginAt := some 100, uid := "uuid-1" }

/-- The sample store with the account of `alice` deleted: neither active nor
suspended. -/
def deletedStore : Store :=
  { sampleStore with
    users := [{ alice with access := { active := false, suspend := false } }] }

/-! ## Lemmas on the collection primitives -/

/-- Two tests that agree on every element of a list find the same element. -/
theorem find?_agree {α : Type} {p q : α → Bool} :
    ∀ (l : List α), (∀ a ∈ l, p a = q a) → l.find? p = l.find? q
  | [], _ => rfl
  | a :: l, h => by
    have ha : p a = q a := h a (List.mem_cons_self a l)
    have ih := find?_agree l (fun b hb => h b (List.mem_cons_of_mem a hb))
    simp [List.find?_cons, ha, ih]

/-- A lookup by `_id` after `save` is the lookup before it, with the saved document
in place of the stored one. -/
theorem User.findById_save (users : List User) (user : User) (id : ObjectId) :
    User.findById (User.save users user) id =
      (User.findById users id).map (fun v => if v._id == user._id then user else v) := by
  unfold User.findById User.save
  rw [List.find?_map]
  congr 1
  apply find?_agree
  intro v _
  show ((if v._id == user._id then user else v)._id == id) = (v._id == id)
  by_cases h : (v._id == user._id) = true
  · have hv : v._id = user._id := by simpa using h
    simp [hv]
  · simp [h]

/-- The document found by `_id` has that `_id`. -/
theorem User.findById_id {users : List User} {id : ObjectId} {user : User}
    (h : User.findById users id = some user) : user._id = id := by
  have := List.find?_some h
  simpa using this

/-- Saving the document that was found by `_id` and looking it up again gives the
saved document. -/
theorem User.findById_save_self {users : List User} {id : ObjectId} {user user1 : User}
    (h : User.findById users id = some user) (hid : user1._id = user._id) :
    User.findById (User.save users user1) id = some user1 := by
  rw [User.findById_save, h]
  simp [hid]

/-! ## Token service -/

/-- C2: after `removeRefreshToken(userId, t)` succeeds, `isRefreshTokenValid(userId, t)`
is false on the resulting user store at every instant `now`; the token is an
uninterpreted string, so the expiry carried in its signature plays no part. -/
theorem removeRefreshToken_then_invalid (users users1 : List User) (userId : ObjectId)
    (t : String) (h : removeRefreshToken users userId t = .ok users1) (now : Nat) :
    isRefreshTokenValid users1 userId t now = false := by
  unfold removeRefreshToken at h
  cases hf : User.findById users userId with
  | none => simp [hf] at h
  | some user =>
    simp only [hf, Except.ok.injEq] at h
    subst h
    unfold isRefreshTokenValid
    rw [User.findById_save_self hf (by rfl)]
    have hnone : (user.refreshTokens.filter (fun rt => rt.token != t)).find?
        (fun rt => rt.token == t) = none := by
      rw [List.find?_eq_none]
      intro rt hrt
      have := (List.mem_filter.mp hrt).2
      simpa using this
    simp only [hnone]

/-- C2, at a concrete store: the token `T1` of `alice`, stored with expiry 1000, is
removed and is then invalid at instant 0, long before that expiry. -/
theorem removeRefreshToken_then_invalid_witness :
    isRefreshTokenValid [alice] "u1" "T1" 0 = true ∧
    removeRefreshToken [alice] "u1" "T1" = .ok [{ alice with refreshTokens := [] }] ∧
    isRefreshTokenValid [{ alice with refreshTokens := [] }] "u1" "T1" 0 = false :=
  ⟨by decide, by decide,
   removeRefreshToken_then_invalid [alice] [{ alice with refreshTokens := [] }] "u1" "T1"
     (by decide) 0⟩

/-- C3, as stated, fails: the user exists and holds a record with the token `T` and
`now = 7 <= expiresAt = 10`, yet the check answers false, because it reads only the
first record with that token, which expired at 5. -/
theorem isRefreshTokenValid_some_record_counterexample :
    isRefreshTokenValid [twice] "u1" "T" 7 = false ∧
    ∃ user, User.findById [twice] "u1" = some user ∧
      ∃ rt ∈ user.refreshTokens, rt.token = "T" ∧ 7 ≤ rt.expiresAt :=
  ⟨by decide, twice, by decide,
   { token := "T", createdAt := 1, expiresAt := 10 }, by decide, rfl, by decide⟩

/-- C3, amended: `isRefreshTokenValid(userId, token)` at the instant `now` is true if
and only if the user exists and the first of the user's records with exactly that
token string has `now <= expiresAt`. -/
theorem isRefreshTokenValid_iff (users : List User) (userId : ObjectId) (token : String)
    (now : Nat) :
    isRefreshTokenValid users userId token now = true ↔
      ∃ user, User.findById users userId = some user ∧
        ∃ rt, user.refreshTokens.find? (fun rt => rt.token == token) = some rt ∧
          now ≤ rt.expiresAt := by
  unfold isRefreshTokenValid
  cases hf : User.findById users userId with
  | none => simp
  | some user =>
    cases hr : user.refreshTokens.find? (fun rt => rt.token == token) with
    | none => simp [hr]
    | some rt => simp [hr, Nat.not_lt]

/-! ## Access gate -/

/-- C8: for an existing user, `checkAccess` decides on `(active, suspend)` exactly as
the table: `(true, true)` is answered 403 suspended (and not with the inactive
message), `(false, false)` 403 with the not-found message, `(false, true)` 403
inactive, `(true, false)` passes; it passes if and only if active and not suspend. -/
theorem checkAccess_table (users : List User) (email : String) (user : User)
    (hemail : email ≠ "") (hfound : User.findByEmail users email = some user) :
    checkAccess users (some email) =
      (match user.access.active, user.access.suspend with
       | true, true => .respond 403 { status := false, verify := true, refresh := false,
                                      message := msgSuspended }
       | false, false => .respond 403 { status := false, verify := true, refresh := false,
                                        message := msgNoAccountEmail }
       | false, true => .respond 403 { status := false, verify := true, refresh := false,
                                       message := msgInactive }
       | true, false => .next) ∧
    msgSuspended ≠ msgInactive ∧
    (checkAccess users (some email) = .next ↔
      (user.access.active = true ∧ user.access.suspend = false)) := by
  have hm : isMissing (some email) = false := by simp [isMissing, hemail]
  refine ⟨?_, by decide, ?_⟩
  · simp only [checkAccess, hm, Option.getD_some, hfound]
    cases user.access.active <;> cases user.access.suspend <;> simp
  · simp only [checkAccess, hm, Option.getD_some, hfound]
    cases user.access.active <;> cases user.access.suspend <;> simp

/-- C8, at a concrete store: `alice` is active and not suspended and passes the gate. -/
theorem checkAccess_table_witness :
    checkAccess [alice] (some "a@x.com") = .next ∧
    checkAccess [{ alice with access := { active := true, suspend := true } }]
      (some "a@x.com") =
      .respond 403 { status := false, verify := true, refresh := false,
                     message := msgSuspended } :=
  ⟨(checkAccess_table [alice] "a@x.com" alice (by decide) (by decide)).1,
   (checkAccess_table [{ alice with access := { active := true, suspend := true } }]
      "a@x.com" { alice with access := { active := true, suspend := true } }
      (by decide) (by decide)).1⟩

/-- C9: for a signup request with an email, `checkAccessForSignup` passes if and only
if no user has that email or the existing user is neither active nor suspended; an
existing user with `suspend = true` is answered 403, and an existing active user
that is not suspended is answered 409. -/
theorem checkAccessForSignup_decision (users : List User) (email : String)
    (hemail : email ≠ "") :
    (checkAccessForSignup users (some email) = .next ↔
      (User.findByEmail users email = none ∨
        ∃ u, User.findByEmail users email = some u ∧
          u.access.active = false ∧ u.access.suspend = false)) ∧
    (∀ u, User.findByEmail users email = some u → u.access.suspend = true →
      checkAccessForSignup users (some email) =
        .respond 403 { status := false, verify := false, refresh := false,
                       message := msgSignupSuspended }) ∧
    (∀ u, User.findByEmail users email = some u →
      u.access.active = true → u.access.suspend = false →
      checkAccessForSignup users (some email) =
        .respond 409 { status := false, verify := false, refresh := false,
                       message := msgEmailExists }) := by
  have hm : isMissing (some email) = false := by simp [isMissing, hemail]
  cases hf : User.findByEmail users email with
  | none => simp [checkAccessForSignup, hm, hf]
  | some user =>
    simp only [checkAccessForSignup, hm, Option.getD_some, hf]
    cases ha : user.access.active <;> cases hs : user.access.suspend <;> simp [ha, hs]

/-- C9, at concrete stores: a free email passes, the email of the active user `alice`
is answered 409. -/
theorem checkAccessForSignup_decision_witness :
    checkAccessForSignup [alice] (some "new@x.com") = .next ∧
    checkAccessForSignup [alice] (some "a@x.com") =
      .respond 409 { status := false, verify := false, refresh := false,
                     message := msgEmailExists } :=
  ⟨(checkAccessForSignup_decision [alice] "new@x.com" (by decide)).1.mpr
     (Or.inl (by decide)),
   (checkAccessForSignup_decision [alice] "a@x.com" (by decide)).2.2 alice
     (by decide) (by decide) (by decide)⟩

/-! ## Permission resolution -/

/-- The resolved list, permission by permission. -/
theorem filteredPermissions_cons (modules : List Module) (perm : Permission)
    (rest : List Permission) :
    filteredPermissions modules (perm :: rest) =
      match Module.findById modules perm.module with
      | none => filteredPermissions modules rest
      | some m =>
        { module := { slug := m.slug, uid := m.uid, status := m.status },
          actions := perm.actions } :: filteredPermissions modules rest := by
  unfold filteredPermissions permissionsData
  cases h : Module.findById modules perm.module <;> simp [h]

/-- A module is found by `_id` exactly when some module of the store has that `_id`. -/
theorem Module.findById_isSome (modules : List Module) (id : ObjectId) :
    (Module.findById modules id).isSome = modules.any (fun m => m._id == id) := by
  unfold Module.findById
  induction modules with
  | nil => rfl
  | cons m rest ih =>
    by_cases h : (m._id == id) = true
    · simp [List.find?_cons, h]
    · simp only [Bool.not_eq_true] at h
      simp [List.find?_cons, h, ih]

/-- The resolved list is the role's list restricted to the permissions whose module
exists, entry by entry and in the same order. -/
theorem filteredPermissions_forall₂ (modules : List Module) :
    ∀ permissions : List Permission,
      List.Forall₂ (ResolvesTo modules)
        (permissions.filter (fun perm => modules.any (fun m => m._id == perm.module)))
        (filteredPermissions modules permissions)
  | [] => List.Forall₂.nil
  | perm :: rest => by
    have ih := filteredPermissions_forall₂ modules rest
    have hs := Module.findById_isSome modules perm.module
    rw [filteredPermissions_cons]
    cases h : Module.findById modules perm.module with
    | none =>
      rw [h] at hs
      have hany : modules.any (fun m => m._id == perm.module) = false := by
        simpa using hs.symm
      simpa [List.filter_cons, hany] using ih
    | some m =>
      rw [h] at hs
      have hany : modules.any (fun m => m._id == perm.module) = true := by
        simpa using hs.symm
      simp only [List.filter_cons, hany, if_true]
      exact List.Forall₂.cons ⟨m, h, rfl⟩ ih

/-- Every resolved entry comes from a module of the store. -/
theorem filteredPermissions_mem (modules : List Module) (permissions : List Permission)
    (entry : ResolvedPermission) (h : entry ∈ filteredPermissions modules permissions) :
    ∃ perm ∈ permissions, ∃ m ∈ modules, m._id = perm.module ∧
      entry = { module := { slug := m.slug, uid := m.uid, status := m.status },
                actions := perm.actions } := by
  unfold filteredPermissions permissionsData at h
  rw [List.filterMap_map, List.mem_filterMap] at h
  obtain ⟨perm, hperm, hentry⟩ := h
  simp only [Function.comp] at hentry
  cases hm : Module.findById modules perm.module with
  | none => simp [hm] at hentry
  | some m =>
    simp only [hm, Option.some.injEq] at hentry
    refine ⟨perm, hperm, m, List.mem_of_find?_eq_some hm, ?_, hentry.symm⟩
    have := List.find?_some hm
    simpa using this

/-- C10: the resolved permission list is the role's permission list, in the same
order, restricted to the entries whose referenced module exists, each mapped to
`{module: {slug, uid, status}, actions}` of the module found, the actions unchanged;
it has as many entries as the role has permissions on existing modules, and it is
the `permissions` array of the session payload. -/
theorem resolved_permissions_spec (modules : List Module) (role : Role) (user : User)
    (withId : Bool) :
    List.Forall₂ (ResolvesTo modules)
      (role.permissions.filter (fun perm => modules.any (fun m => m._id == perm.module)))
      (filteredPermissions modules role.permissions) ∧
    (filteredPermissions modules role.permissions).length =
      (role.permissions.filter
        (fun perm => modules.any (fun m => m._id == perm.module))).length ∧
    (userObj modules user role withId).role.permissions =
      filteredPermissions modules role.permissions :=
  ⟨filteredPermissions_forall₂ modules role.permissions,
   (List.Forall₂.length_eq (filteredPermissions_forall₂ modules role.permissions)).symm,
   rfl⟩

/-! ## The permission list of each session-producing flow -/

/-- A role found by `Role.findById` is a role of the store. -/
theorem Role.findById_mem {roles : List Role} {id : Option ObjectId} {role : Role}
    (h : Role.findById roles id = some role) : role ∈ roles := by
  unfold Role.findById at h
  cases id with
  | none => simp at h
  | some r => exact List.mem_of_find?_eq_some h

/-- The permissions in the payload of `verifyLoginUser` are resolved from a role of
the store. -/
theorem verifyLoginUser_permissions {st st1 : Store} {env : Env}
    {query email password : String} {s : Session}
    (h : verifyLoginUser st env query email password = (.ok s, st1)) :
    ∃ roleData ∈ st.roles,
      s.user.role.permissions = filteredPermissions st.modules roleData.permissions := by
  unfold verifyLoginUser at h
  dsimp only at h
  repeat' (split at h <;> try dsimp only at h)
  all_goals first
    | (simp only [Prod.mk.injEq, reduceCtorEq, false_and] at h; done)
    | skip
  rename_i roleData hrole
  simp only [Prod.mk.injEq, Except.ok.injEq] at h
  obtain ⟨hs, _⟩ := h
  subst hs
  exact ⟨roleData, Role.findById_mem hrole, rfl⟩

/-- The permissions in the payload of `verifyOTPAndLoginUser` are resolved from a role of
the store. -/
theorem verifyOTPAndLoginUser_permissions {st st1 : Store} {env : Env}
    {otpId : String} {otpCode : Option String} {s : Session}
    (h : verifyOTPAndLoginUser st env otpId otpCode = (.ok s, st1)) :
    ∃ roleData ∈ st.roles,
      s.user.role.permissions = filteredPermissions st.modules roleData.permissions := by
  unfold verifyOTPAndLoginUser at h
  dsimp only at h
  repeat' (split at h <;> try dsimp only at h)
  all_goals first
    | (simp only [Prod.mk.injEq, reduceCtorEq, false_and] at h; done)
    | skip
  all_goals
    simp only [Prod.mk.injEq, Except.ok.injEq] at h
    obtain ⟨hs, _⟩ := h
    subst hs
    refine ⟨_, ?_, rfl⟩
    exact Role.findById_mem (by assumption)

/-- The permissions in the payload of `verifyOTPAndCreateUser` are resolved from a role of
the store. -/
theorem verifyOTPAndCreateUser_permissions {st st1 : Store} {env : Env}
    {otpId : String} {otpCode : Option String} {s : Session}
    (h : verifyOTPAndCreateUser st env otpId otpCode = (.ok s, st1)) :
    ∃ roleData ∈ st.roles,
      s.user.role.permissions = filteredPermissions st.modules roleData.permissions := by
  unfold verifyOTPAndCreateUser at h
  dsimp only at h
  repeat' (split at h <;> try dsimp only at h)
  all_goals first
    | (simp only [Prod.mk.injEq, reduceCtorEq, false_and] at h; done)
    | skip
  all_goals
    simp only [Prod.mk.injEq, Except.ok.injEq] at h
    obtain ⟨hs, _⟩ := h
    subst hs
    refine ⟨_, ?_, rfl⟩
    exact Role.findById_mem (by assumption)

/-- The permissions in the payload of `googleAuth` are resolved from a role of
the store. -/
theorem googleAuth_permissions {st st1 : Store} {env : Env}
    {username query : String} {email uid profile_pic : Option String} {s : Session}
    (h : googleAuth st env username email uid profile_pic query = (.ok s, st1)) :
    ∃ roleData ∈ st.roles,
      s.user.role.permissions = filteredPermissions st.modules roleData.permissions := by
  unfold googleAuth at h
  dsimp only at h
  repeat' (split at h <;> try dsimp only at h)
  all_goals first
    | (simp only [Prod.mk.injEq, reduceCtorEq, false_and] at h; done)
    | skip
  all_goals
    simp only [Prod.mk.injEq, Except.ok.injEq] at h
    obtain ⟨hs, _⟩ := h
    subst hs
    refine ⟨_, ?_, rfl⟩
    exact Role.findById_mem (by assumption)

/-- The permissions in the payload of a successful `refreshToken` are resolved from
a role of the store. -/
theorem refreshToken_permissions {st st1 : Store} {env : Env} {cookie : Option String}
    {newCookie accessToken : String} {user : UserObj}
    (h : refreshToken st env cookie = (.success newCookie accessToken user, st1)) :
    ∃ roleData ∈ st.roles,
      user.role.permissions = filteredPermissions st.modules roleData.permissions := by
  unfold refreshToken at h
  dsimp only at h
  repeat' (split at h <;> try dsimp only at h)
  all_goals first
    | (simp only [invalidRefresh, Prod.mk.injEq, reduceCtorEq, false_and] at h; done)
    | skip
  all_goals
    simp only [Prod.mk.injEq, RefreshResponse.success.injEq] at h
    obtain ⟨⟨_, _, hs⟩, _⟩ := h
    subst hs
    refine ⟨_, ?_, rfl⟩
    exact Role.findById_mem (by assumption)

/-- The entries resolved from any permission list exist in the module store. -/
theorem filteredPermissions_entriesExist (modules : List Module)
    (permissions : List Permission) :
    EntriesExist modules (filteredPermissions modules permissions) := by
  intro entry hentry
  obtain ⟨perm, _, m, hm, _, he⟩ := filteredPermissions_mem modules permissions entry hentry
  exact ⟨m, hm, by rw [he]⟩

/-- C1, as stated, fails: in the sample store the role holds a permission on the
module `_reports_`, whose `status.active` is false, and the permission lists sent by
`refreshToken` and by `verifyLoginUser` both contain that entry (the permission on
the module `gone`, which is not in the store, is dropped). -/
theorem session_permissions_inactive_counterexample :
    (match (refreshToken sampleStore sampleEnv (some "T1")).1 with
     | .success _ _ user => some user.role.permissions
     | .fail _ _ => none) =
      some [{ module := { slug := "_users_", uid := "mod-uid-1",
                          status := { active := true, maintenance := false } },
              actions := readOnly },
            { module := { slug := "_reports_", uid := "mod-uid-2",
                          status := { active := false, maintenance := false } },
              actions := readOnly }] ∧
    (verifyLoginUser sampleStore sampleEnv "v1" "a@x.com" "Secret1!").1.map
        (fun s => s.user.role.permissions) =
      .ok [{ module := { slug := "_users_", uid := "mod-uid-1",
                         status := { active := true, maintenance := false } },
             actions := readOnly },
           { module := { slug := "_reports_", uid := "mod-uid-2",
                         status := { active := false, maintenance := false } },
             actions := readOnly }] := by
  constructor <;> decide

/-- C1, amended: in every session-producing flow (`verifyOTPAndCreateUser`,
`verifyOTPAndLoginUser`, `googleAuth`, `verifyLoginUser`, `refreshToken`) every entry
of the permission list of a successful payload carries `{slug, uid, status}` of a
module that is in the module store, so no entry refers to a deleted module; entries
of inactive modules are not filtered and show their status. -/
theorem session_permissions_exist (st : Store) (env : Env) :
    (∀ otpId otpCode s st1, verifyOTPAndCreateUser st env otpId otpCode = (.ok s, st1) →
      EntriesExist st.modules s.user.role.permissions) ∧
    (∀ otpId otpCode s st1, verifyOTPAndLoginUser st env otpId otpCode = (.ok s, st1) →
      EntriesExist st.modules s.user.role.permissions) ∧
    (∀ username email uid profile_pic query s st1,
      googleAuth st env username email uid profile_pic query = (.ok s, st1) →
      EntriesExist st.modules s.user.role.permissions) ∧
    (∀ query email password s st1,
      verifyLoginUser st env query email password = (.ok s, st1) →
      EntriesExist st.modules s.user.role.permissions) ∧
    (∀ cookie newCookie accessToken user st1,
      refreshToken st env cookie = (.success newCookie accessToken user, st1) →
      EntriesExist st.modules user.role.permissions) := by
  refine ⟨?_, ?_, ?_, ?_, ?_⟩
  · intro otpId otpCode s st1 h
    obtain ⟨r, _, hr⟩ := verifyOTPAndCreateUser_permissions h
    rw [hr]; exact filteredPermissions_entriesExist _ _
  · intro otpId otpCode s st1 h
    obtain ⟨r, _, hr⟩ := verifyOTPAndLoginUser_permissions h
    rw [hr]; exact filteredPermissions_entriesExist _ _
  · intro username email uid profile_pic query s st1 h
    obtain ⟨r, _, hr⟩ := googleAuth_permissions h
    rw [hr]; exact filteredPermissions_entriesExist _ _
  · intro query email password s st1 h
    obtain ⟨r, _, hr⟩ := verifyLoginUser_permissions h
    rw [hr]; exact filteredPermissions_entriesExist _ _
  · intro cookie newCookie accessToken user st1 h
    obtain ⟨r, _, hr⟩ := refreshToken_permissions h
    rw [hr]; exact filteredPermissions_entriesExist _ _

/-! ## OTP challenges -/

/-- When one of the four opening checks fails, `verifyOTPAndCreateUser` throws its
message and leaves the store as it was. -/
theorem verifyOTPAndCreateUser_of_checkOtp_error {st : Store} {env : Env} {otpId : String}
    {otpCode : Option String} {msg : String}
    (h : checkOtp st.otps env.now otpId otpCode = .error msg) :
    verifyOTPAndCreateUser st env otpId otpCode = (.error msg, st) := by
  simp only [verifyOTPAndCreateUser, h]

/-- When one of the four opening checks fails, `verifyOTPAndLoginUser` throws its
message and leaves the store as it was. -/
theorem verifyOTPAndLoginUser_of_checkOtp_error {st : Store} {env : Env} {otpId : String}
    {otpCode : Option String} {msg : String}
    (h : checkOtp st.otps env.now otpId otpCode = .error msg) :
    verifyOTPAndLoginUser st env otpId otpCode = (.error msg, st) := by
  simp only [verifyOTPAndLoginUser, h]

/-- C6: OTP verification (`verifyOTPAndCreateUser` and `verifyOTPAndLoginUser`) fails
in this order: not-found when no challenge has the `otpId`; otherwise missing-code
when `otpCode` is absent or empty; otherwise incorrect-code when it differs from the
stored code; otherwise expired when `now > expiresAt`, so also for the correct code;
each of these failures returns the store unchanged (OTP store and user store
included), and the four messages are pairwise different. -/
theorem otp_verification_failures (st : Store) (env : Env) (otpId : String) :
    (OTP.findOne st.otps otpId = none → ∀ otpCode,
      verifyOTPAndCreateUser st env otpId otpCode = (.error msgOtpInvalid, st) ∧
      verifyOTPAndLoginUser st env otpId otpCode = (.error msgOtpInvalid, st)) ∧
    (∀ otpObj, OTP.findOne st.otps otpId = some otpObj →
      (∀ otpCode, otpCode = none ∨ otpCode = some "" →
        verifyOTPAndCreateUser st env otpId otpCode = (.error msgOtpMissing, st) ∧
        verifyOTPAndLoginUser st env otpId otpCode = (.error msgOtpMissing, st)) ∧
      (∀ code, code ≠ "" → code ≠ otpObj.otpCode →
        verifyOTPAndCreateUser st env otpId (some code) = (.error msgOtpIncorrect, st) ∧
        verifyOTPAndLoginUser st env otpId (some code) = (.error msgOtpIncorrect, st)) ∧
      (otpObj.otpCode ≠ "" → env.now > otpObj.expiresAt →
        verifyOTPAndCreateUser st env otpId (some otpObj.otpCode) =
          (.error msgOtpExpired, st) ∧
        verifyOTPAndLoginUser st env otpId (some otpObj.otpCode) =
          (.error msgOtpExpired, st))) ∧
    [msgOtpInvalid, msgOtpMissing, msgOtpIncorrect, msgOtpExpired].Nodup := by
  refine ⟨?_, ?_, by decide⟩
  · intro hnone otpCode
    have h : checkOtp st.otps env.now otpId otpCode = .error msgOtpInvalid := by
      simp only [checkOtp, hnone]
    exact ⟨verifyOTPAndCreateUser_of_checkOtp_error h,
           verifyOTPAndLoginUser_of_checkOtp_error h⟩
  · intro otpObj hsome
    refine ⟨?_, ?_, ?_⟩
    · intro otpCode hmiss
      have h : checkOtp st.otps env.now otpId otpCode = .error msgOtpMissing := by
        rcases hmiss with rfl | rfl <;> simp [checkOtp, hsome, isMissing]
      exact ⟨verifyOTPAndCreateUser_of_checkOtp_error h,
             verifyOTPAndLoginUser_of_checkOtp_error h⟩
    · intro code hne hdiff
      have h : checkOtp st.otps env.now otpId (some code) = .error msgOtpIncorrect := by
        simp [checkOtp, hsome, isMissing, hne, Ne.symm hdiff]
      exact ⟨verifyOTPAndCreateUser_of_checkOtp_error h,
             verifyOTPAndLoginUser_of_checkOtp_error h⟩
    · intro hne hlate
      have h : checkOtp st.otps env.now otpId (some otpObj.otpCode) =
          .error msgOtpExpired := by
        simp [checkOtp, hsome, isMissing, hne, hlate]
      exact ⟨verifyOTPAndCreateUser_of_checkOtp_error h,
             verifyOTPAndLoginUser_of_checkOtp_error h⟩

/-- C6, at a concrete store: against the pending challenge `otp-1` (code `123456`,
expiry 160) an unknown id, an empty code, a wrong code and the right code at instant
161 fail with the four messages in turn. -/
theorem otp_verification_failures_witness :
    verifyOTPAndCreateUser pendingStore sampleEnv "otp-9" (some "123456") =
      (.error msgOtpInvalid, pendingStore) ∧
    verifyOTPAndLoginUser pendingStore sampleEnv "otp-1" (some "") =
      (.error msgOtpMissing, pendingStore) ∧
    verifyOTPAndLoginUser pendingStore sampleEnv "otp-1" (some "000000") =
      (.error msgOtpIncorrect, pendingStore) ∧
    verifyOTPAndCreateUser pendingStore { sampleEnv with now := 161 } "otp-1"
      (some "123456") = (.error msgOtpExpired, pendingStore) :=
  ⟨((otp_verification_failures pendingStore sampleEnv "otp-9").1 (by decide) _).1,
   (((otp_verification_failures pendingStore sampleEnv "otp-1").2.1 otpAlice
      (by decide)).1 (some "") (Or.inr rfl)).2,
   (((otp_verification_failures pendingStore sampleEnv "otp-1").2.1 otpAlice
      (by decide)).2.1 "000000" (by decide) (by decide)).2,
   (((otp_verification_failures pendingStore { sampleEnv with now := 161 } "otp-1").2.1
      otpAlice (by decide)).2.2 (by decide) (by decide)).1⟩

/-- With unique `otpId`s, deleting the challenge of an `otpId` leaves no challenge
with that `otpId`. -/
theorem OTP.findOne_deleteOne (otpId : String) :
    ∀ otps : List OTP, (otps.map (fun o => o.otpId)).Nodup →
      OTP.findOne (OTP.deleteOne otps otpId) otpId = none
  | [], _ => rfl
  | o :: rest, hnd => by
    rw [List.map_cons, List.nodup_cons] at hnd
    unfold OTP.findOne OTP.deleteOne
    by_cases h : (o.otpId == otpId) = true
    · have ho : o.otpId = otpId := by simpa using h
      rw [List.eraseP_cons_of_pos (p := fun (x : OTP) => x.otpId == otpId) h, List.find?_eq_none]
      intro x hx hxid
      apply hnd.1
      rw [ho, List.mem_map]
      exact ⟨x, hx, by simpa using hxid⟩
    · have ih := OTP.findOne_deleteOne otpId rest hnd.2
      unfold OTP.findOne OTP.deleteOne at ih
      rw [List.eraseP_cons_of_neg (p := fun (x : OTP) => x.otpId == otpId) h,
        List.find?_cons_of_neg (p := fun (x : OTP) => x.otpId == otpId) _ h]
      exact ih

/-- The schema's `unique` index on `otpId` is kept by `OTP.create`. -/
theorem OTP.create_nodup {otps created : List OTP} {doc : OTP}
    (hnd : (otps.map (fun o => o.otpId)).Nodup) (h : OTP.create otps doc = some created) :
    (created.map (fun o => o.otpId)).Nodup := by
  unfold OTP.create at h
  split at h
  · simp at h
  · split at h
    · simp at h
    · rename_i _ hany
      simp only [Option.some.injEq] at h
      subst h
      rw [List.map_append, List.nodup_append]
      refine ⟨hnd, by simp, ?_⟩
      intro a ha hb
      simp only [List.map_cons, List.map_nil, List.mem_singleton] at hb
      subst hb
      apply hany
      rw [List.any_eq_true]
      obtain ⟨x, hx, hxid⟩ := List.mem_map.mp ha
      exact ⟨x, hx, by simpa using hxid⟩

/-- A successful `verifyOTPAndCreateUser` passed the four checks on a stored challenge and
leaves the OTP store without the first challenge of that `otpId`. -/
theorem verifyOTPAndCreateUser_ok_otps {st st1 : Store} {env : Env} {otpId : String}
    {otpCode : Option String} {s : Session}
    (h : verifyOTPAndCreateUser st env otpId otpCode = (.ok s, st1)) :
    (∃ otpObj, checkOtp st.otps env.now otpId otpCode = .ok otpObj) ∧
    st1.otps = OTP.deleteOne st.otps otpId := by
  unfold verifyOTPAndCreateUser at h
  dsimp only at h
  repeat' (split at h <;> try dsimp only at h)
  all_goals first
    | (simp only [Prod.mk.injEq, reduceCtorEq, false_and] at h; done)
    | skip
  all_goals
    simp only [Prod.mk.injEq] at h
    obtain ⟨_, hst⟩ := h
    subst hst
    exact ⟨⟨_, by assumption⟩, rfl⟩

/-- A successful `verifyOTPAndLoginUser` passed the four checks on a stored challenge and
leaves the OTP store without the first challenge of that `otpId`. -/
theorem verifyOTPAndLoginUser_ok_otps {st st1 : Store} {env : Env} {otpId : String}
    {otpCode : Option String} {s : Session}
    (h : verifyOTPAndLoginUser st env otpId otpCode = (.ok s, st1)) :
    (∃ otpObj, checkOtp st.otps env.now otpId otpCode = .ok otpObj) ∧
    st1.otps = OTP.deleteOne st.otps otpId := by
  unfold verifyOTPAndLoginUser at h
  dsimp only at h
  repeat' (split at h <;> try dsimp only at h)
  all_goals first
    | (simp only [Prod.mk.injEq, reduceCtorEq, false_and] at h; done)
    | skip
  all_goals
    simp only [Prod.mk.injEq] at h
    obtain ⟨_, hst⟩ := h
    subst hst
    exact ⟨⟨_, by assumption⟩, rfl⟩

/-- The challenge that passes the four checks is the stored one, presented with its
own code no later than its expiry. -/
theorem checkOtp_ok {otps : List OTP} {now : Nat} {otpId : String}
    {otpCode : Option String} {otpObj : OTP}
    (h : checkOtp otps now otpId otpCode = .ok otpObj) :
    OTP.findOne otps otpId = some otpObj ∧ otpCode = some otpObj.otpCode ∧
      now ≤ otpObj.expiresAt := by
  unfold checkOtp at h
  cases hf : OTP.findOne otps otpId with
  | none => simp [hf] at h
  | some o =>
    simp only [hf] at h
    cases otpCode with
    | none => simp [isMissing] at h
    | some code =>
      repeat' split at h
      all_goals first
        | simp only [reduceCtorEq] at h
        | skip
      rename_i h1 h2 h3
      simp only [Except.ok.injEq] at h
      subst h
      simp only [Option.getD_some, bne_iff_ne, ne_eq, Decidable.not_not] at h2
      exact ⟨rfl, by rw [h2], Nat.not_lt.mp h3⟩

/-- C5: when a verify call (`verifyOTPAndCreateUser` or `verifyOTPAndLoginUser`)
succeeds, it was given the stored code of a stored challenge no later than its
`expiresAt`, the challenge is deleted, and every later verify call with the same
`otpId` on that OTP store fails with the not-found error, whatever code it presents
and whenever it is made. -/
theorem otp_single_use (st st1 : Store) (env : Env) (otpId : String)
    (otpCode : Option String) (s : Session)
    (hunique : (st.otps.map (fun o => o.otpId)).Nodup)
    (h : verifyOTPAndCreateUser st env otpId otpCode = (.ok s, st1) ∨
         verifyOTPAndLoginUser st env otpId otpCode = (.ok s, st1)) :
    (∃ otpObj, OTP.findOne st.otps otpId = some otpObj ∧
      otpCode = some otpObj.otpCode ∧ env.now ≤ otpObj.expiresAt) ∧
    OTP.findOne st1.otps otpId = none ∧
    ∀ (st2 : Store) (env2 : Env) (code2 : Option String), st2.otps = st1.otps →
      verifyOTPAndCreateUser st2 env2 otpId code2 = (.error msgOtpInvalid, st2) ∧
      verifyOTPAndLoginUser st2 env2 otpId code2 = (.error msgOtpInvalid, st2) := by
  have hboth : (∃ otpObj, checkOtp st.otps env.now otpId otpCode = .ok otpObj) ∧
      st1.otps = OTP.deleteOne st.otps otpId := by
    rcases h with h | h
    · exact verifyOTPAndCreateUser_ok_otps h
    · exact verifyOTPAndLoginUser_ok_otps h
  obtain ⟨⟨otpObj, hcheck⟩, hst1⟩ := hboth
  have hgone : OTP.findOne st1.otps otpId = none := by
    rw [hst1]; exact OTP.findOne_deleteOne otpId st.otps hunique
  refine ⟨⟨otpObj, checkOtp_ok hcheck⟩, hgone, ?_⟩
  intro st2 env2 code2 hst2
  have hc : checkOtp st2.otps env2.now otpId code2 = .error msgOtpInvalid := by
    simp only [checkOtp, hst2, hgone]
  exact ⟨verifyOTPAndCreateUser_of_checkOtp_error hc,
         verifyOTPAndLoginUser_of_checkOtp_error hc⟩

/-- C5, at a concrete store: the challenge `otp-1` is verified with its code at
instant 100, before its expiry 160; the store is then without it and a second
verify with the same id and code is answered not-found. -/
theorem otp_single_use_witness :
    verifyOTPAndLoginUser pendingStore sampleEnv "otp-1" (some "123456") =
      (.ok aliceSession, { sampleStore with users := [aliceLoggedIn] }) ∧
    verifyOTPAndLoginUser { sampleStore with users := [aliceLoggedIn] } sampleEnv "otp-1"
      (some "123456") =
      (.error msgOtpInvalid, { sampleStore with users := [aliceLoggedIn] }) :=
  ⟨by decide,
   ((otp_single_use pendingStore { sampleStore with users := [aliceLoggedIn] } sampleEnv
      "otp-1" (some "123456") aliceSession (by decide) (Or.inr (by decide))).2.2
      { sampleStore with users := [aliceLoggedIn] } sampleEnv (some "123456") rfl).2⟩

/-- After `deleteMany({ email })` no challenge of the email is left, and what is left
was there before. -/
theorem OTP.deleteMany_spec (otps : List OTP) (email : String) (o : OTP) :
    o ∈ OTP.deleteMany otps email ↔ o ∈ otps ∧ o.email ≠ email := by
  unfold OTP.deleteMany
  simp [List.mem_filter]

/-- A created challenge is appended to the store. -/
theorem OTP.create_eq {otps created : List OTP} {doc : OTP}
    (h : OTP.create otps doc = some created) : created = otps ++ [doc] := by
  unfold OTP.create at h
  repeat' split at h
  all_goals first
    | simp only [reduceCtorEq] at h
    | skip
  simp only [Option.some.injEq] at h
  exact h.symm

/-- The core of issuing: with unique ids and a fresh id, `deleteMany` for the email
followed by a successful `create` of a challenge for that email supersedes every
earlier challenge of the email. -/
theorem issue_supersedes_core {otps created : List OTP} {doc : OTP}
    (hunique : (otps.map (fun o => o.otpId)).Nodup)
    (hfresh : doc.otpId ∉ otps.map (fun o => o.otpId))
    (h : OTP.create (OTP.deleteMany otps doc.email) doc = some created) :
    Supersedes otps created doc.email doc.otpId := by
  have hc := OTP.create_eq h
  subst hc
  have hgone : ∀ old ∈ otps, old.email = doc.email →
      OTP.findOne (OTP.deleteMany otps doc.email ++ [doc]) old.otpId = none := by
    intro old hold hemail
    unfold OTP.findOne
    rw [List.find?_eq_none]
    intro x hx hxid
    have hxid2 : x.otpId = old.otpId := by simpa using hxid
    rcases List.mem_append.mp hx with hx | hx
    · obtain ⟨hxin, hxne⟩ := (OTP.deleteMany_spec otps doc.email x).mp hx
      have hsame : x = old :=
        List.inj_on_of_nodup_map hunique hxin hold hxid2
      exact hxne (hsame ▸ hemail)
    · have hxd : x = doc := by simpa using hx
      apply hfresh
      rw [List.mem_map]
      exact ⟨old, hold, by rw [← hxid2, hxd]⟩
  refine ⟨⟨doc, ?_, rfl⟩, ?_⟩
  · have hnone : (OTP.deleteMany otps doc.email).filter (fun o => o.email == doc.email)
        = [] := by
      rw [List.filter_eq_nil_iff]
      intro x hx
      have := ((OTP.deleteMany_spec otps doc.email x).mp hx).2
      simpa using this
    rw [List.filter_append, hnone]
    simp
  · intro old hold hemail
    refine ⟨hgone old hold hemail, ?_⟩
    intro st2 env2 code2 hst2
    have hcheck : checkOtp st2.otps env2.now old.otpId code2 = .error msgOtpInvalid := by
      simp only [checkOtp, hst2, hgone old hold hemail]
    exact ⟨verifyOTPAndCreateUser_of_checkOtp_error hcheck,
           verifyOTPAndLoginUser_of_checkOtp_error hcheck⟩

/-- When the store left by `registerUserWithOTP` holds a challenge with the fresh
`otpId`, its OTP store supersedes the earlier challenges of the email. -/
theorem registerUserWithOTP_supersedes {st : Store} {env : Env}
    {username email password query : String}
    (hunique : (st.otps.map (fun o => o.otpId)).Nodup)
    (hfresh : env.uuid ∉ st.otps.map (fun o => o.otpId))
    (hissued : ∃ o ∈ (registerUserWithOTP st env username email password query).2.otps,
      o.otpId = env.uuid) :
    Supersedes st.otps (registerUserWithOTP st env username email password query).2.otps
      email env.uuid := by
  have hstale : ∀ o ∈ OTP.deleteMany st.otps email, o.otpId ≠ env.uuid := by
    intro o ho hid
    apply hfresh
    rw [List.mem_map]
    exact ⟨o, ((OTP.deleteMany_spec st.otps email o).mp ho).1, hid⟩
  unfold registerUserWithOTP at hissued ⊢
  cases hd : Defaults.findOne st.defaults "Role" with
  | none =>
    simp only [hd] at hissued
    obtain ⟨o, ho, hid⟩ := hissued
    exact absurd (List.mem_map.mpr ⟨o, ho, hid⟩) hfresh
  | some d =>
    simp only [hd] at hissued ⊢
    cases hc : OTP.create (OTP.deleteMany st.otps email)
        { username := username, email := email, password := env.hash password,
          query := query, otpCode := otpCodeOf env, otpId := env.uuid,
          expiresAt := env.now + 60 * 1000, verified := false } with
    | none =>
      simp only [hc] at hissued
      cases hm : env.mailError <;> simp only [hm] at hissued <;>
        (obtain ⟨o, ho, hid⟩ := hissued; exact absurd hid (hstale o ho))
    | some created =>
      have hs := issue_supersedes_core hunique hfresh hc
      cases hm : env.mailError <;> simpa only [hc, hm] using hs

/-- When the store left by `loginUser` holds a challenge with the fresh `otpId`, its
OTP store supersedes the earlier challenges of the email. -/
theorem loginUser_supersedes {st : Store} {env : Env} {query email password : String}
    (hunique : (st.otps.map (fun o => o.otpId)).Nodup)
    (hfresh : env.uuid ∉ st.otps.map (fun o => o.otpId))
    (hissued : ∃ o ∈ (loginUser st env query email password).2.otps, o.otpId = env.uuid) :
    Supersedes st.otps (loginUser st env query email password).2.otps email env.uuid := by
  have hstale : ∀ o ∈ OTP.deleteMany st.otps email, o.otpId ≠ env.uuid := by
    intro o ho hid
    apply hfresh
    rw [List.mem_map]
    exact ⟨o, ((OTP.deleteMany_spec st.otps email o).mp ho).1, hid⟩
  have hold : ∀ o ∈ st.otps, o.otpId ≠ env.uuid := by
    intro o ho hid
    exact hfresh (List.mem_map.mpr ⟨o, ho, hid⟩)
  unfold loginUser at hissued ⊢
  cases hv : Visitor.findById st.visitors query with
  | none =>
    simp only [hv] at hissued
    obtain ⟨o, ho, hid⟩ := hissued
    exact absurd hid (hold o ho)
  | some visitor =>
    simp only [hv] at hissued ⊢
    cases hu : User.findByEmail st.users email with
    | none =>
      simp only [hu] at hissued
      obtain ⟨o, ho, hid⟩ := hissued
      exact absurd hid (hold o ho)
    | some user =>
      simp only [hu] at hissued ⊢
      cases hp : env.compare password user.password with
      | false =>
        simp only [hp, Bool.not_false, if_true] at hissued
        obtain ⟨o, ho, hid⟩ := hissued
        exact absurd hid (hold o ho)
      | true =>
        simp only [hp, Bool.not_true, Bool.false_eq_true, if_false] at hissued ⊢
        cases hc : OTP.create (OTP.deleteMany st.otps email)
            { username := user.username, email := email, password := user.password,
              query := query, otpCode := otpCodeOf env, otpId := env.uuid,
              expiresAt := env.now + 1 * 60 * 1000, verified := false } with
        | none =>
          simp only [hc] at hissued
          obtain ⟨o, ho, hid⟩ := hissued
          exact absurd hid (hstale o ho)
        | some created =>
          have hs := issue_supersedes_core hunique hfresh hc
          cases hm : env.mailError <;> simpa only [hc, hm] using hs

/-- A payload returned by `loginUser` carries the `otpId` drawn for the call, and the
store then holds a challenge with that id. -/
theorem loginUser_ok_issued {st : Store} {env : Env} {query email password : String}
    {payload : OtpIssued}
    (h : (loginUser st env query email password).1 = .ok payload) :
    payload.otpId = env.uuid ∧
      ∃ o ∈ (loginUser st env query email password).2.otps, o.otpId = env.uuid := by
  unfold loginUser at h ⊢
  dsimp only at h ⊢
  repeat' (split at h <;> try dsimp only at h)
  all_goals first
    | simp only [reduceCtorEq] at h
    | skip
  all_goals
    rename_i created hcreate _ _
    simp only [Except.ok.injEq] at h
    subst h
    refine ⟨rfl, ?_⟩
    rw [if_neg (by assumption)]
    have hc := OTP.create_eq hcreate
    subst hc
    exact ⟨_, List.mem_append_right _ (List.mem_singleton_self _), rfl⟩

/-- A payload returned by `registerUserWithOTP` carries the `otpId` drawn for the call. -/
theorem registerUserWithOTP_ok_otpId {st : Store} {env : Env}
    {username email password query : String} {payload : OtpIssued}
    (h : (registerUserWithOTP st env username email password query).1 = .ok payload) :
    payload.otpId = env.uuid := by
  unfold registerUserWithOTP at h
  dsimp only at h
  repeat' (split at h <;> try dsimp only at h)
  all_goals first
    | simp only [reduceCtorEq] at h
    | skip
  all_goals
    simp only [Except.ok.injEq] at h
    subst h
    rfl

/-- C7: with unique `otpId`s in the store and a fresh `otpId` drawn by `uuidv4`, after
`registerUserWithOTP` or `loginUser` has issued a challenge for an email (the store
it leaves holds a challenge with the drawn id, which for `loginUser` is the case
whenever it returns a payload), the store holds exactly one challenge for that
email, the one with the drawn id that is returned to the caller, and every `otpId`
that a challenge for the email had before is absent: verifying with it fails with
the not-found error. -/
theorem issue_supersedes (st : Store) (env : Env) (email : String)
    (hunique : (st.otps.map (fun o => o.otpId)).Nodup)
    (hfresh : env.uuid ∉ st.otps.map (fun o => o.otpId)) :
    (∀ username password query,
      (∃ o ∈ (registerUserWithOTP st env username email password query).2.otps,
        o.otpId = env.uuid) →
      Supersedes st.otps (registerUserWithOTP st env username email password query).2.otps
        email env.uuid) ∧
    (∀ query password,
      (∃ o ∈ (loginUser st env query email password).2.otps, o.otpId = env.uuid) →
      Supersedes st.otps (loginUser st env query email password).2.otps email env.uuid) ∧
    (∀ query password payload,
      (loginUser st env query email password).1 = .ok payload →
      payload.otpId = env.uuid ∧
        ∃ o ∈ (loginUser st env query email password).2.otps, o.otpId = env.uuid) ∧
    (∀ username password query payload,
      (registerUserWithOTP st env username email password query).1 = .ok payload →
      payload.otpId = env.uuid) :=
  ⟨fun _ _ _ hissued => registerUserWithOTP_supersedes hunique hfresh hissued,
   fun _ _ hissued => loginUser_supersedes hunique hfresh hissued,
   fun _ _ _ h => loginUser_ok_issued h,
   fun _ _ _ _ h => registerUserWithOTP_ok_otpId h⟩

/-- C7, at a concrete store: `alice` has the pending challenge `otp-1`; a new signup
request and a new login request for her email each leave exactly the challenge
`uuid-1` in the store, and `otp-1` is superseded. -/
theorem issue_supersedes_witness :
    (registerUserWithOTP pendingStore sampleEnv "alice" "a@x.com" "Secret1!" "v1").2.otps =
      [otpIssued] ∧
    (loginUser pendingStore sampleEnv "v1" "a@x.com" "Secret1!").2.otps = [otpIssued] ∧
    Supersedes pendingStore.otps
      (registerUserWithOTP pendingStore sampleEnv "alice" "a@x.com" "Secret1!" "v1").2.otps
      "a@x.com" "uuid-1" ∧
    Supersedes pendingStore.otps
      (loginUser pendingStore sampleEnv "v1" "a@x.com" "Secret1!").2.otps
      "a@x.com" "uuid-1" :=
  ⟨by decide, by decide,
   (issue_supersedes pendingStore sampleEnv "a@x.com" (by decide) (by decide)).1
     "alice" "Secret1!" "v1" ⟨otpIssued, by decide, rfl⟩,
   (issue_supersedes pendingStore sampleEnv "a@x.com" (by decide) (by decide)).2.1
     "v1" "Secret1!" ⟨otpIssued, by decide, rfl⟩⟩

/-! ## Refresh-token rotation -/

/-- What a successful `refreshToken` did: the token verified, it was valid for the
user of its payload, it was removed, and the newly signed token was saved. -/
theorem refreshToken_success {st st1 : Store} {env : Env} {T1 T2 accessToken : String}
    {payload : UserObj}
    (h : refreshToken st env (some T1) = (.success T2 accessToken payload, st1)) :
    ∃ id user users1, env.verifyRefresh T1 = some id ∧
      isRefreshTokenValid st.users id T1 env.now = true ∧
      User.findById st.users id = some user ∧
      T2 = env.signRefresh user._id ∧
      removeRefreshToken st.users user._id T1 = .ok users1 ∧
      saveRefreshToken users1 user._id T2 env.now = .ok st1.users := by
  unfold refreshToken at h
  dsimp only at h
  repeat' (split at h <;> try dsimp only at h)
  all_goals first
    | (simp only [invalidRefresh, Prod.mk.injEq, reduceCtorEq, false_and] at h; done)
    | skip
  all_goals
    rename_i _ _ id hverify hvalid _ user huser _ _ _ _ _ _ _ _ users1 hremove _ users2 hsave
    simp only [Prod.mk.injEq, RefreshResponse.success.injEq] at h
    obtain ⟨⟨hT2, _, _⟩, hst⟩ := h
    subst hst hT2
    simp only [Option.getD_some] at hverify hvalid hremove
    refine ⟨id, user, users1, hverify, ?_, huser, rfl, hremove, hsave⟩
    simpa using hvalid

/-- The user found after a token was pushed by `saveRefreshToken`. -/
theorem saveRefreshToken_findById {users users1 : List User} {userId : ObjectId}
    {token : String} {now : Nat} {user : User}
    (hf : User.findById users userId = some user)
    (h : saveRefreshToken users userId token now = .ok users1) :
    User.findById users1 userId = some { user with
      refreshTokens := user.refreshTokens ++
        [{ token := token, createdAt := now, expiresAt := now + recordTtl }] } := by
  unfold saveRefreshToken at h
  simp only [hf, Except.ok.injEq] at h
  subst h
  exact User.findById_save_self hf (by rfl)

/-- The user found after a token was filtered out by `removeRefreshToken`. -/
theorem removeRefreshToken_findById {users users1 : List User} {userId : ObjectId}
    {token : String} {user : User}
    (hf : User.findById users userId = some user)
    (h : removeRefreshToken users userId token = .ok users1) :
    User.findById users1 userId = some { user with
      refreshTokens := user.refreshTokens.filter (fun rt => rt.token != token) } := by
  unfold removeRefreshToken at h
  simp only [hf, Except.ok.injEq] at h
  subst h
  exact User.findById_save_self hf (by rfl)

/-- C4, as stated, fails: when the refresh happens in the second in which `T1` was
signed, the newly signed token is the string `T1` itself; the call succeeds, the
record of `T1` is removed and a record of `T1` is saved, so the presented token is
valid after the call. -/
theorem refreshToken_same_token_counterexample :
    (refreshToken sampleStore sameSecondEnv (some "T1")).1 =
      .success "T1" "A-u1" (userObj sampleStore.modules alice adminRole false) ∧
    isRefreshTokenValid sampleStore.users "u1" "T1" 100 = true ∧
    isRefreshTokenValid (refreshToken sampleStore sameSecondEnv (some "T1")).2.users
      "u1" "T1" 101 = true := by
  refine ⟨by decide, by decide, by decide⟩

/-- C4, amended: when a successful `refreshToken` call presenting `T1` returns a token
`T2` that is not the token string of any record the user already holds, then `T1`
was valid at the call, `T2` is the token signed for the user of the payload, and on
the resulting store `isRefreshTokenValid(user, T1)` is false at every instant while
`isRefreshTokenValid(user, T2)` is true exactly at the instants up to 7 days
(604800000 ms) after the call. -/
theorem refreshToken_rotation (st st1 : Store) (env : Env) (T1 T2 accessToken : String)
    (payload : UserObj)
    (hsuccess : refreshToken st env (some T1) = (.success T2 accessToken payload, st1))
    (hnew : ∀ id user, env.verifyRefresh T1 = some id →
      User.findById st.users id = some user → ∀ rt ∈ user.refreshTokens, rt.token ≠ T2) :
    ∃ id, env.verifyRefresh T1 = some id ∧
      isRefreshTokenValid st.users id T1 env.now = true ∧
      T2 = env.signRefresh id ∧
      (∀ now, isRefreshTokenValid st1.users id T1 now = false) ∧
      (∀ now, isRefreshTokenValid st1.users id T2 now = true ↔
        now ≤ env.now + 604800000) := by
  obtain ⟨id, user, users1, hverify, hvalid, huser, hT2, hremove, hsave⟩ :=
    refreshToken_success hsuccess
  have hid : user._id = id := User.findById_id huser
  rw [hid] at hremove hsave hT2
  have hfresh := hnew id user hverify huser
  have hheld : ∃ rt ∈ user.refreshTokens, rt.token = T1 := by
    unfold isRefreshTokenValid at hvalid
    rw [huser] at hvalid
    cases hr : user.refreshTokens.find? (fun rt => rt.token == T1) with
    | none => simp [hr] at hvalid
    | some rt =>
      exact ⟨rt, List.mem_of_find?_eq_some hr, by simpa using List.find?_some hr⟩
  have hne : T2 ≠ T1 := by
    obtain ⟨rt, hrt, htok⟩ := hheld
    intro heq
    exact hfresh rt hrt (by rw [htok, heq])
  have h1 := removeRefreshToken_findById huser hremove
  have h2 := saveRefreshToken_findById h1 hsave
  have hfilterT1 : (user.refreshTokens.filter (fun rt => rt.token != T1)).find?
      (fun rt => rt.token == T1) = none := by
    rw [List.find?_eq_none]
    intro rt hrt
    simpa using (List.mem_filter.mp hrt).2
  have hfilterT2 : (user.refreshTokens.filter (fun rt => rt.token != T1)).find?
      (fun rt => rt.token == T2) = none := by
    rw [List.find?_eq_none]
    intro rt hrt
    simpa using hfresh rt (List.mem_filter.mp hrt).1
  refine ⟨id, hverify, hvalid, hT2, ?_, ?_⟩
  · intro now
    unfold isRefreshTokenValid
    rw [h2]
    simp [List.find?_append, hfilterT1, hne]
  · intro now
    unfold isRefreshTokenValid
    rw [h2]
    simp [List.find?_append, hfilterT2, recordTtl, Nat.not_lt]

/-- C4 amended, at a concrete store: `alice` presents `T1` at instant 100 and receives
`R-u1`; `T1` is then invalid and `R-u1` is valid at 100 + 604800000 and invalid one
millisecond later. -/
theorem refreshToken_rotation_witness :
    isRefreshTokenValid (refreshToken sampleStore sampleEnv (some "T1")).2.users
      "u1" "T1" 100 = false ∧
    isRefreshTokenValid (refreshToken sampleStore sampleEnv (some "T1")).2.users
      "u1" "R-u1" 604800100 = true ∧
    isRefreshTokenValid (refreshToken sampleStore sampleEnv (some "T1")).2.users
      "u1" "R-u1" 604800101 = false := by
  obtain ⟨id, hid, _, _, hT1, hT2⟩ :=
    refreshToken_rotation sampleStore (refreshToken sampleStore sampleEnv (some "T1")).2
      sampleEnv "T1" "R-u1" "A-u1" (userObj sampleStore.modules alice adminRole false)
      (by decide)
      (by
        intro id user hv hf rt hrt
        have hid : id = "u1" := by
          have : sampleEnv.verifyRefresh "T1" = some "u1" := by decide
          rw [this] at hv
          exact (Option.some.inj hv).symm
        subst hid
        have hu : user = alice := by
          have : User.findById sampleStore.users "u1" = some alice := by decide
          rw [this] at hf
          exact (Option.some.inj hf).symm
        subst hu
        have : rt = { token := "T1", createdAt := 0, expiresAt := 1000 } := by
          simpa [alice] using hrt
        subst this
        decide)
  have hid1 : id = "u1" := by
    have : sampleEnv.verifyRefresh "T1" = some "u1" := by decide
    rw [this] at hid
    exact (Option.some.inj hid).symm
  subst hid1
  refine ⟨hT1 100, (hT2 604800100).mpr (by decide), ?_⟩
  have := (hT2 604800101).not.mpr (by decide)
  simpa using this

/-! ## Role lookup in the session-producing flows -/

/-- A document with the required strings, an email and a `uid` that no stored user
has, is accepted by `User.create` and appended. -/
theorem User.create_accepts {users : List User} {doc : User}
    (hname : doc.username ≠ "") (hmail : doc.email ≠ "") (hpass : doc.password ≠ "")
    (hemail : User.findByEmail users doc.email = none)
    (huid : ∀ u ∈ users, u.uid ≠ doc.uid) :
    User.create users doc = some (users ++ [doc]) := by
  unfold User.create
  have hany : users.any (fun u => u.email == doc.email || u.uid == doc.uid) = false := by
    rw [List.any_eq_false]
    intro u hu
    have h1 : ¬ (u.email == doc.email) = true :=
      (List.find?_eq_none.mp hemail) u hu
    have h2 : u.uid ≠ doc.uid := huid u hu
    simp only [Bool.or_eq_true, not_or]
    exact ⟨h1, by simpa using h2⟩
  simp [hname, hmail, hpass, hany]

/-- The role reference of a user is not touched by the login update. -/
theorem loginUpdate_role (user : User) (visitorId : ObjectId) (now : Nat) (newUid : String) :
    (loginUpdate user visitorId now newUid).role = user.role := rfl

/-- In `verifyOTPAndLoginUser`, a missing role is the role-not-found error. -/
theorem verifyOTPAndLoginUser_role_missing {st : Store} {env : Env} {otpId : String}
    {otpCode : Option String} {otpObj : OTP} {visitor : Visitor} {user : User}
    (hotp : checkOtp st.otps env.now otpId otpCode = .ok otpObj)
    (hvisitor : Visitor.findById st.visitors otpObj.query = some visitor)
    (huser : User.findByEmail st.users otpObj.email = some user)
    (hrole : Role.findById st.roles user.role = none) :
    (verifyOTPAndLoginUser st env otpId otpCode).1 = .error msgRoleNotFound := by
  simp only [verifyOTPAndLoginUser, hotp, hvisitor, huser, loginUpdate_role, hrole]

/-- In `verifyLoginUser`, a missing role is the role-not-found error. -/
theorem verifyLoginUser_role_missing {st : Store} {env : Env}
    {query email password : String} {visitor : Visitor} {user : User}
    (hvisitor : Visitor.findById st.visitors query = some visitor)
    (huser : User.findByEmail st.users email = some user)
    (hpass : env.compare password user.password = true)
    (hrole : Role.findById st.roles user.role = none) :
    (verifyLoginUser st env query email password).1 = .error msgRoleNotFound := by
  simp [verifyLoginUser, hvisitor, huser, hpass, loginUpdate_role, hrole]

/-- In `verifyOTPAndCreateUser` on an existing account, a missing role is the
role-not-found error. -/
theorem verifyOTPAndCreateUser_role_missing_existing {st : Store} {env : Env}
    {otpId : String} {otpCode : Option String} {otpObj : OTP} {defaults : Defaults}
    {visitor : Visitor} {user : User}
    (hotp : checkOtp st.otps env.now otpId otpCode = .ok otpObj)
    (hdefaults : Defaults.findOne st.defaults "Role" = some defaults)
    (hvisitor : Visitor.findById st.visitors otpObj.query = some visitor)
    (huser : User.findByEmail st.users otpObj.email = some user)
    (hrole : Role.findById st.roles user.role = none) :
    (verifyOTPAndCreateUser st env otpId otpCode).1 = .error msgRoleNotFound := by
  simp only [verifyOTPAndCreateUser, hotp, hdefaults, hvisitor, huser, hrole]

/-- In `verifyOTPAndCreateUser` on a new account, a default role reference that
matches no role is the role-not-found error. -/
theorem verifyOTPAndCreateUser_role_missing_created {st : Store} {env : Env}
    {otpId : String} {otpCode : Option String} {otpObj : OTP} {defaults : Defaults}
    {visitor : Visitor}
    (hotp : checkOtp st.otps env.now otpId otpCode = .ok otpObj)
    (hdefaults : Defaults.findOne st.defaults "Role" = some defaults)
    (hvisitor : Visitor.findById st.visitors otpObj.query = some visitor)
    (huser : User.findByEmail st.users otpObj.email = none)
    (hname : otpObj.username ≠ "") (hmail : otpObj.email ≠ "")
    (hpass : otpObj.password ≠ "") (huid : ∀ u ∈ st.users, u.uid ≠ env.defaultUid)
    (hrole : Role.findById st.roles defaults.roleId = none) :
    (verifyOTPAndCreateUser st env otpId otpCode).1 = .error msgRoleNotFound := by
  have hcreate := @User.create_accepts st.users
    { _id := env.objectId, username := otpObj.username, email := otpObj.email,
      password := otpObj.password, query := [visitor._id],
      role := defaults.roleId, uid := env.defaultUid, g_uid := none,
      profile_pic := some defaultProfilePic, timeAdded := some env.now,
      theme := true, firstLogin := true, googleAuth := false,
      subscribed := true, lastLoginAt := none,
      access := { active := true, suspend := false }, refreshTokens := [] }
    hname hmail hpass huser huid
  simp only [verifyOTPAndCreateUser, hotp, hdefaults, hvisitor, huser, hcreate,
    Option.map_some', hrole]

/-- In `googleAuth` on an existing account whose document passes the validation of
`save` (the username of the request, the stored username and the stored password
hash are non-empty), a missing role is the role-not-found error. -/
theorem googleAuth_role_missing_existing {st : Store} {env : Env} {username query : String}
    {email uid profile_pic : Option String} {visitor : Visitor} {user : User}
    (hvisitor : Visitor.findById st.visitors query = some visitor)
    (huid : isMissing uid = false) (hemail : isMissing email = false)
    (huser : User.findByEmail st.users (email.getD "") = some user)
    (hname : username ≠ "") (hstored : user.username ≠ "") (hpass : user.password ≠ "")
    (hrole : Role.findById st.roles user.role = none) :
    (googleAuth st env username email uid profile_pic query).1 = .error msgRoleNotFound := by
  have hfound : user.email = email.getD "" := by
    have := List.find?_some huser
    simpa using this
  have hmail : user.email ≠ "" := by
    rw [hfound]
    cases email with
    | none => simp [isMissing] at hemail
    | some e => simpa [isMissing] using hemail
  cases hactive : user.access.active <;>
    simp [googleAuth, hvisitor, huid, hemail, huser, hrole, hactive, hname, hstored, hmail,
      hpass]

/-- In `googleAuth` on a new account, a default role reference that matches no role
is the role-not-found error. -/
theorem googleAuth_role_missing_created {st : Store} {env : Env} {username query : String}
    {email uid profile_pic : Option String} {visitor : Visitor} {defaults : Defaults}
    (hvisitor : Visitor.findById st.visitors query = some visitor)
    (huid : isMissing uid = false) (hemail : isMissing email = false)
    (huser : User.findByEmail st.users (email.getD "") = none)
    (hdefaults : Defaults.findOne st.defaults "Role" = some defaults)
    (hname : username ≠ "") (hfresh : ∀ u ∈ st.users, u.uid ≠ env.defaultUid)
    (hrole : Role.findById st.roles defaults.roleId = none) :
    (googleAuth st env username email uid profile_pic query).1 = .error msgRoleNotFound := by
  have hmail : email.getD "" ≠ "" := by
    cases email with
    | none => simp [isMissing] at hemail
    | some e => simpa [isMissing] using hemail
  have hpass : googlePasswordHash ≠ "" := by decide
  have hcreate := @User.create_accepts st.users
    { _id := env.objectId, username := username, email := email.getD "",
      password := googlePasswordHash, query := [query],
      role := defaults.roleId, uid := env.defaultUid, g_uid := uid,
      profile_pic := profile_pic, timeAdded := some env.now,
      theme := true, firstLogin := true, googleAuth := true,
      subscribed := true, lastLoginAt := none,
      access := { active := true, suspend := false }, refreshTokens := [] }
    hname hmail hpass huser hfresh
  simp [googleAuth, hvisitor, huid, hemail, huser, hdefaults, hcreate, hrole]

/-- In `refreshToken`, for a valid token of an active user that is not suspended, a
missing role is answered 404 and nothing is written. -/
theorem refreshToken_role_missing {st : Store} {env : Env} {token : String}
    {id : ObjectId} {user : User}
    (htoken : token ≠ "") (hverify : env.verifyRefresh token = some id)
    (hvalid : isRefreshTokenValid st.users id token env.now = true)
    (huser : User.findById st.users id = some user)
    (hactive : user.access.active = true) (hsuspend : user.access.suspend = false)
    (hrole : Role.findById st.roles user.role = none) :
    refreshToken st env (some token) =
      (.fail 404 { status := false, verify := false, refresh := false,
                   message := msgRoleMissing }, st) := by
  simp [refreshToken, isMissing, htoken, hverify, hvalid, huser, hactive, hsuspend, hrole]

/-- A session returned by `verifyOTPAndCreateUser` is built from a role that the role
reference of the saved user finds in the store. -/
theorem verifyOTPAndCreateUser_ok_role {st st1 : Store} {env : Env}
    {otpId : String} {otpCode : Option String} {s : Session}
    (h : verifyOTPAndCreateUser st env otpId otpCode = (.ok s, st1)) :
    ∃ user roleData, Role.findById st.roles user.role = some roleData ∧
      s.user = userObj st.modules user roleData true ∧
      s.accessToken = env.signAccess user._id user.role ∧
      s.refreshToken = env.signRefresh user._id := by
  unfold verifyOTPAndCreateUser at h
  dsimp only at h
  repeat' (split at h <;> try dsimp only at h)
  all_goals first
    | (simp only [Prod.mk.injEq, reduceCtorEq, false_and] at h; done)
    | skip
  all_goals
    simp only [Prod.mk.injEq, Except.ok.injEq] at h
    obtain ⟨hs, _⟩ := h
    subst hs
    exact ⟨_, _, by assumption, rfl, rfl, rfl⟩

/-- A session returned by `verifyOTPAndLoginUser` is built from a role that the role
reference of the saved user finds in the store. -/
theorem verifyOTPAndLoginUser_ok_role {st st1 : Store} {env : Env}
    {otpId : String} {otpCode : Option String} {s : Session}
    (h : verifyOTPAndLoginUser st env otpId otpCode = (.ok s, st1)) :
    ∃ user roleData, Role.findById st.roles user.role = some roleData ∧
      s.user = userObj st.modules user roleData true ∧
      s.accessToken = env.signAccess user._id user.role ∧
      s.refreshToken = env.signRefresh user._id := by
  unfold verifyOTPAndLoginUser at h
  dsimp only at h
  repeat' (split at h <;> try dsimp only at h)
  all_goals first
    | (simp only [Prod.mk.injEq, reduceCtorEq, false_and] at h; done)
    | skip
  all_goals
    simp only [Prod.mk.injEq, Except.ok.injEq] at h
    obtain ⟨hs, _⟩ := h
    subst hs
    exact ⟨_, _, by assumption, rfl, rfl, rfl⟩

/-- A session returned by `googleAuth` is built from a role that the role
reference of the saved user finds in the store. -/
theorem googleAuth_ok_role {st st1 : Store} {env : Env}
    {username query : String} {email uid profile_pic : Option String} {s : Session}
    (h : googleAuth st env username email uid profile_pic query = (.ok s, st1)) :
    ∃ user roleData, Role.findById st.roles user.role = some roleData ∧
      s.user = userObj st.modules user roleData true ∧
      s.accessToken = env.signAccess user._id user.role ∧
      s.refreshToken = env.signRefresh user._id := by
  unfold googleAuth at h
  dsimp only at h
  repeat' (split at h <;> try dsimp only at h)
  all_goals first
    | (simp only [Prod.mk.injEq, reduceCtorEq, false_and] at h; done)
    | skip
  all_goals
    simp only [Prod.mk.injEq, Except.ok.injEq] at h
    obtain ⟨hs, _⟩ := h
    subst hs
    exact ⟨_, _, by assumption, rfl, rfl, rfl⟩

/-- A session returned by `verifyLoginUser` is built from a role that the role
reference of the saved user finds in the store. -/
theorem verifyLoginUser_ok_role {st st1 : Store} {env : Env}
    {query email password : String} {s : Session}
    (h : verifyLoginUser st env query email password = (.ok s, st1)) :
    ∃ user roleData, Role.findById st.roles user.role = some roleData ∧
      s.user = userObj st.modules user roleData true ∧
      s.accessToken = env.signAccess user._id user.role ∧
      s.refreshToken = env.signRefresh user._id := by
  unfold verifyLoginUser at h
  dsimp only at h
  repeat' (split at h <;> try dsimp only at h)
  all_goals first
    | (simp only [Prod.mk.injEq, reduceCtorEq, false_and] at h; done)
    | skip
  all_goals
    simp only [Prod.mk.injEq, Except.ok.injEq] at h
    obtain ⟨hs, _⟩ := h
    subst hs
    exact ⟨_, _, by assumption, rfl, rfl, rfl⟩

/-- A payload sent by `refreshToken` is built from a role that the role reference of
the owning user finds in the store. -/
theorem refreshToken_ok_role {st st1 : Store} {env : Env} {cookie : Option String}
    {newCookie accessToken : String} {payload : UserObj}
    (h : refreshToken st env cookie = (.success newCookie accessToken payload, st1)) :
    ∃ user roleData, Role.findById st.roles user.role = some roleData ∧
      payload = userObj st.modules user roleData false ∧
      accessToken = env.signAccess user._id user.role ∧
      newCookie = env.signRefresh user._id := by
  unfold refreshToken at h
  dsimp only at h
  repeat' (split at h <;> try dsimp only at h)
  all_goals first
    | (simp only [invalidRefresh, Prod.mk.injEq, reduceCtorEq, false_and] at h; done)
    | skip
  all_goals
    simp only [Prod.mk.injEq, RefreshResponse.success.injEq] at h
    obtain ⟨⟨h1, h2, h3⟩, _⟩ := h
    subst h1 h2 h3
    exact ⟨_, _, by assumption, rfl, rfl, rfl⟩

/-- No session from `verifyOTPAndCreateUser` for a stored user of the challenge's
email whose role reference matches no role. -/
theorem verifyOTPAndCreateUser_no_session_existing {st : Store} {env : Env}
    {otpId : String} {otpCode : Option String} {otpObj : OTP} {user : User}
    (hfound : OTP.findOne st.otps otpId = some otpObj)
    (huser : User.findByEmail st.users otpObj.email = some user)
    (hrole : Role.findById st.roles user.role = none) :
    ∃ msg, (verifyOTPAndCreateUser st env otpId otpCode).1 = .error msg := by
  cases hotp : checkOtp st.otps env.now otpId otpCode with
  | error msg => exact ⟨msg, by simp only [verifyOTPAndCreateUser, hotp]⟩
  | ok o =>
    have ho : o = otpObj := by
      have h1 := (checkOtp_ok hotp).1
      rw [hfound] at h1
      exact (Option.some.inj h1).symm
    subst ho
    cases hd : Defaults.findOne st.defaults "Role" with
    | none => exact ⟨_, by simp only [verifyOTPAndCreateUser, hotp, hd]; rfl⟩
    | some defaults =>
      cases hv : Visitor.findById st.visitors o.query with
      | none => exact ⟨_, by simp only [verifyOTPAndCreateUser, hotp, hd, hv]; rfl⟩
      | some visitor =>
        exact ⟨msgRoleNotFound,
          by simp only [verifyOTPAndCreateUser, hotp, hd, hv, huser, hrole]⟩

/-- No session from `verifyOTPAndCreateUser` for a new account when the role
reference of the Defaults record matches no role. -/
theorem verifyOTPAndCreateUser_no_session_created {st : Store} {env : Env}
    {otpId : String} {otpCode : Option String} {otpObj : OTP} {defaults : Defaults}
    (hfound : OTP.findOne st.otps otpId = some otpObj)
    (huser : User.findByEmail st.users otpObj.email = none)
    (hdefaults : Defaults.findOne st.defaults "Role" = some defaults)
    (hrole : Role.findById st.roles defaults.roleId = none) :
    ∃ msg, (verifyOTPAndCreateUser st env otpId otpCode).1 = .error msg := by
  cases hotp : checkOtp st.otps env.now otpId otpCode with
  | error msg => exact ⟨msg, by simp only [verifyOTPAndCreateUser, hotp]⟩
  | ok o =>
    have ho : o = otpObj := by
      have h1 := (checkOtp_ok hotp).1
      rw [hfound] at h1
      exact (Option.some.inj h1).symm
    subst ho
    cases hv : Visitor.findById st.visitors o.query with
    | none => exact ⟨_, by simp only [verifyOTPAndCreateUser, hotp, hdefaults, hv]; rfl⟩
    | some visitor =>
      cases hc : User.create st.users
          { _id := env.objectId, username := o.username, email := o.email,
            password := o.password, query := [visitor._id],
            role := defaults.roleId, uid := env.defaultUid, g_uid := none,
            profile_pic := some defaultProfilePic, timeAdded := some env.now,
            theme := true, firstLogin := true, googleAuth := false,
            subscribed := true, lastLoginAt := none,
            access := { active := true, suspend := false }, refreshTokens := [] } with
      | none =>
        exact ⟨msgStoreRefused, by
          simp only [verifyOTPAndCreateUser, hotp, hdefaults, hv, huser, hc,
            Option.map_none']⟩
      | some created =>
        exact ⟨msgRoleNotFound, by
          simp only [verifyOTPAndCreateUser, hotp, hdefaults, hv, huser, hc,
            Option.map_some', hrole]⟩

/-- No session from `verifyOTPAndLoginUser` for a stored user of the challenge's
email whose role reference matches no role. -/
theorem verifyOTPAndLoginUser_no_session {st : Store} {env : Env}
    {otpId : String} {otpCode : Option String} {otpObj : OTP} {user : User}
    (hfound : OTP.findOne st.otps otpId = some otpObj)
    (huser : User.findByEmail st.users otpObj.email = some user)
    (hrole : Role.findById st.roles user.role = none) :
    ∃ msg, (verifyOTPAndLoginUser st env otpId otpCode).1 = .error msg := by
  cases hotp : checkOtp st.otps env.now otpId otpCode with
  | error msg => exact ⟨msg, by simp only [verifyOTPAndLoginUser, hotp]⟩
  | ok o =>
    have ho : o = otpObj := by
      have h1 := (checkOtp_ok hotp).1
      rw [hfound] at h1
      exact (Option.some.inj h1).symm
    subst ho
    cases hv : Visitor.findById st.visitors o.query with
    | none => exact ⟨_, by simp only [verifyOTPAndLoginUser, hotp, hv]; rfl⟩
    | some visitor =>
      exact ⟨msgRoleNotFound,
        by simp only [verifyOTPAndLoginUser, hotp, hv, huser, loginUpdate_role, hrole]⟩

/-- No session from `googleAuth` for a stored user of the request's email whose role
reference matches no role. -/
theorem googleAuth_no_session_existing {st : Store} {env : Env} {username query : String}
    {email uid profile_pic : Option String} {user : User}
    (huser : User.findByEmail st.users (email.getD "") = some user)
    (hrole : Role.findById st.roles user.role = none) :
    ∃ msg, (googleAuth st env username email uid profile_pic query).1 = .error msg := by
  cases hv : Visitor.findById st.visitors query with
  | none => exact ⟨_, by simp only [googleAuth, hv]; rfl⟩
  | some visitor =>
    cases hm : (isMissing uid || isMissing email) with
    | true => exact ⟨_, by simp only [googleAuth, hv, hm, if_true]; rfl⟩
    | false =>
      by_cases hval : (if !user.access.active then username else user.username) = "" ∨
          user.email = "" ∨ user.password = ""
      · exact ⟨msgStoreRefused, by
          simp only [googleAuth, hv, hm, huser, hval, Bool.false_eq_true, if_false,
            if_true]⟩
      · exact ⟨msgRoleNotFound, by
          simp only [googleAuth, hv, hm, huser, hval, Bool.false_eq_true, if_false,
            hrole]⟩

/-- No session from `googleAuth` for a new account when the role reference of the
Defaults record matches no role. -/
theorem googleAuth_no_session_created {st : Store} {env : Env} {username query : String}
    {email uid profile_pic : Option String} {defaults : Defaults}
    (huser : User.findByEmail st.users (email.getD "") = none)
    (hdefaults : Defaults.findOne st.defaults "Role" = some defaults)
    (hrole : Role.findById st.roles defaults.roleId = none) :
    ∃ msg, (googleAuth st env username email uid profile_pic query).1 = .error msg := by
  cases hv : Visitor.findById st.visitors query with
  | none => exact ⟨_, by simp only [googleAuth, hv]; rfl⟩
  | some visitor =>
    cases hm : (isMissing uid || isMissing email) with
    | true => exact ⟨_, by simp only [googleAuth, hv, hm, if_true]; rfl⟩
    | false =>
      cases hc : User.create st.users
          { _id := env.objectId, username := username, email := email.getD "",
            password := googlePasswordHash, query := [query],
            role := defaults.roleId, uid := env.defaultUid, g_uid := uid,
            profile_pic := profile_pic, timeAdded := some env.now,
            theme := true, firstLogin := true, googleAuth := true,
            subscribed := true, lastLoginAt := none,
            access := { active := true, suspend := false }, refreshTokens := [] } with
      | none =>
        exact ⟨msgStoreRefused, by
          simp only [googleAuth, hv, hm, huser, hdefaults, hc, Bool.false_eq_true,
            if_false]⟩
      | some created =>
        exact ⟨msgRoleNotFound, by
          simp only [googleAuth, hv, hm, huser, hdefaults, hc, Bool.false_eq_true,
            if_false, hrole]⟩

/-- No session from `verifyLoginUser` for a stored user of the request's email whose
role reference matches no role. -/
theorem verifyLoginUser_no_session {st : Store} {env : Env}
    {query email password : String} {user : User}
    (huser : User.findByEmail st.users email = some user)
    (hrole : Role.findById st.roles user.role = none) :
    ∃ msg, (verifyLoginUser st env query email password).1 = .error msg := by
  cases hv : Visitor.findById st.visitors query with
  | none => exact ⟨_, by simp only [verifyLoginUser, hv]; rfl⟩
  | some visitor =>
    cases hcmp : env.compare password user.password with
    | false =>
      exact ⟨msgWrongPassword, by
        simp only [verifyLoginUser, hv, huser, hcmp, Bool.not_false, if_true]⟩
    | true =>
      exact ⟨msgRoleNotFound, by
        simp only [verifyLoginUser, hv, huser, hcmp, Bool.not_true, Bool.false_eq_true,
          if_false, loginUpdate_role, hrole]⟩

/-- No new tokens from `refreshToken` for the user of the token's payload when the
role reference of that user matches no role: the answer is an error response and
nothing is written. -/
theorem refreshToken_no_session {st : Store} {env : Env} {token : String}
    {id : ObjectId} {user : User}
    (hverify : env.verifyRefresh token = some id)
    (huser : User.findById st.users id = some user)
    (hrole : Role.findById st.roles user.role = none) :
    ∃ code body, refreshToken st env (some token) = (.fail code body, st) := by
  unfold refreshToken
  simp only [Option.getD_some, hverify, huser, hrole]
  repeat' split
  all_goals exact ⟨_, _, rfl⟩

/-- C11: in every session-producing flow, a user whose role reference matches no
role gets no session. For the user that the flow looks up (by the email of the
challenge or of the request, by the id of the token's payload; for a new account
the role reference is that of the Defaults record), the flow ends in an error,
which carries no access token, no refresh token and no role, whatever the other
inputs are; `refreshToken` answers with an error response and writes nothing. Once
the steps before the role lookup have passed (for `googleAuth` on a stored user
this includes the validation of `save`: the username of the request and the stored
required strings are non-empty), the error is the role-not-found error, answered
404 in `refreshToken`. -/
theorem role_not_found_fails (st : Store) (env : Env) :
    (∀ otpId otpCode otpObj defaults visitor user,
      checkOtp st.otps env.now otpId otpCode = .ok otpObj →
      Defaults.findOne st.defaults "Role" = some defaults →
      Visitor.findById st.visitors otpObj.query = some visitor →
      User.findByEmail st.users otpObj.email = some user →
      Role.findById st.roles user.role = none →
      (verifyOTPAndCreateUser st env otpId otpCode).1 = .error msgRoleNotFound) ∧
    (∀ otpId otpCode otpObj defaults visitor,
      checkOtp st.otps env.now otpId otpCode = .ok otpObj →
      Defaults.findOne st.defaults "Role" = some defaults →
      Visitor.findById st.visitors otpObj.query = some visitor →
      User.findByEmail st.users otpObj.email = none →
      otpObj.username ≠ "" → otpObj.email ≠ "" → otpObj.password ≠ "" →
      (∀ u ∈ st.users, u.uid ≠ env.defaultUid) →
      Role.findById st.roles defaults.roleId = none →
      (verifyOTPAndCreateUser st env otpId otpCode).1 = .error msgRoleNotFound) ∧
    (∀ otpId otpCode otpObj visitor user,
      checkOtp st.otps env.now otpId otpCode = .ok otpObj →
      Visitor.findById st.visitors otpObj.query = some visitor →
      User.findByEmail st.users otpObj.email = some user →
      Role.findById st.roles user.role = none →
      (verifyOTPAndLoginUser st env otpId otpCode).1 = .error msgRoleNotFound) ∧
    (∀ username email uid profile_pic query visitor user,
      Visitor.findById st.visitors query = some visitor →
      isMissing uid = false → isMissing email = false →
      User.findByEmail st.users (email.getD "") = some user →
      username ≠ "" → user.username ≠ "" → user.password ≠ "" →
      Role.findById st.roles user.role = none →
      (googleAuth st env username email uid profile_pic query).1 =
        .error msgRoleNotFound) ∧
    (∀ username email uid profile_pic query visitor defaults,
      Visitor.findById st.visitors query = some visitor →
      isMissing uid = false → isMissing email = false →
      User.findByEmail st.users (email.getD "") = none →
      Defaults.findOne st.defaults "Role" = some defaults →
      username ≠ "" → (∀ u ∈ st.users, u.uid ≠ env.defaultUid) →
      Role.findById st.roles defaults.roleId = none →
      (googleAuth st env username email uid profile_pic query).1 =
        .error msgRoleNotFound) ∧
    (∀ query email password visitor user,
      Visitor.findById st.visitors query = some visitor →
      User.findByEmail st.users email = some user →
      env.compare password user.password = true →
      Role.findById st.roles user.role = none →
      (verifyLoginUser st env query email password).1 = .error msgRoleNotFound) ∧
    (∀ token id user, token ≠ "" → env.verifyRefresh token = some id →
      isRefreshTokenValid st.users id token env.now = true →
      User.findById st.users id = some user →
      user.access.active = true → user.access.suspend = false →
      Role.findById st.roles user.role = none →
      refreshToken st env (some token) =
        (.fail 404 { status := false, verify := false, refresh := false,
                     message := msgRoleMissing }, st)) ∧
    (∀ otpId otpCode otpObj user,
      OTP.findOne st.otps otpId = some otpObj →
      User.findByEmail st.users otpObj.email = some user →
      Role.findById st.roles user.role = none →
      (∃ msg, (verifyOTPAndCreateUser st env otpId otpCode).1 = .error msg) ∧
      (∃ msg, (verifyOTPAndLoginUser st env otpId otpCode).1 = .error msg)) ∧
    (∀ otpId otpCode otpObj defaults,
      OTP.findOne st.otps otpId = some otpObj →
      User.findByEmail st.users otpObj.email = none →
      Defaults.findOne st.defaults "Role" = some defaults →
      Role.findById st.roles defaults.roleId = none →
      ∃ msg, (verifyOTPAndCreateUser st env otpId otpCode).1 = .error msg) ∧
    (∀ username email uid profile_pic query user,
      User.findByEmail st.users (email.getD "") = some user →
      Role.findById st.roles user.role = none →
      ∃ msg, (googleAuth st env username email uid profile_pic query).1 = .error msg) ∧
    (∀ username email uid profile_pic query defaults,
      User.findByEmail st.users (email.getD "") = none →
      Defaults.findOne st.defaults "Role" = some defaults →
      Role.findById st.roles defaults.roleId = none →
      ∃ msg, (googleAuth st env username email uid profile_pic query).1 = .error msg) ∧
    (∀ query email password user,
      User.findByEmail st.users email = some user →
      Role.findById st.roles user.role = none →
      ∃ msg, (verifyLoginUser st env query email password).1 = .error msg) ∧
    (∀ token id user, env.verifyRefresh token = some id →
      User.findById st.users id = some user →
      Role.findById st.roles user.role = none →
      ∃ code body, refreshToken st env (some token) = (.fail code body, st)) := by
  refine ⟨?_, ?_, ?_, ?_, ?_, ?_, ?_, ?_, ?_, ?_, ?_, ?_, ?_⟩
  · intro _ _ _ _ _ _ h1 h2 h3 h4 h5
    exact verifyOTPAndCreateUser_role_missing_existing h1 h2 h3 h4 h5
  · intro _ _ _ _ _ h1 h2 h3 h4 h5 h6 h7 h8 h9
    exact verifyOTPAndCreateUser_role_missing_created h1 h2 h3 h4 h5 h6 h7 h8 h9
  · intro _ _ _ _ _ h1 h2 h3 h4
    exact verifyOTPAndLoginUser_role_missing h1 h2 h3 h4
  · intro _ _ _ _ _ _ _ h1 h2 h3 h4 h5 h6 h7 h8
    exact googleAuth_role_missing_existing h1 h2 h3 h4 h5 h6 h7 h8
  · intro _ _ _ _ _ _ _ h1 h2 h3 h4 h5 h6 h7 h8
    exact googleAuth_role_missing_created h1 h2 h3 h4 h5 h6 h7 h8
  · intro _ _ _ _ _ h1 h2 h3 h4
    exact verifyLoginUser_role_missing h1 h2 h3 h4
  · intro _ _ _ h1 h2 h3 h4 h5 h6 h7
    exact refreshToken_role_missing h1 h2 h3 h4 h5 h6 h7
  · intro _ _ _ _ h1 h2 h3
    exact ⟨verifyOTPAndCreateUser_no_session_existing h1 h2 h3,
      verifyOTPAndLoginUser_no_session h1 h2 h3⟩
  · intro _ _ _ _ h1 h2 h3 h4
    exact verifyOTPAndCreateUser_no_session_created h1 h2 h3 h4
  · intro _ _ _ _ _ _ h1 h2
    exact googleAuth_no_session_existing h1 h2
  · intro _ _ _ _ _ _ h1 h2 h3
    exact googleAuth_no_session_created h1 h2 h3
  · intro _ _ _ _ h1 h2
    exact verifyLoginUser_no_session h1 h2
  · intro _ _ _ h1 h2 h3
    exact refreshToken_no_session h1 h2 h3

/-- The validation of `save` in `googleAuth`: a Google sign-in without a username for
the deleted account of `alice` is refused before the role lookup and nothing is
written, whether or not her role exists. -/
theorem googleAuth_empty_username_refused :
    googleAuth deletedStore sampleEnv "" (some "a@x.com") (some "g-1") none "v1" =
      (.error msgStoreRefused, deletedStore) ∧
    googleAuth { deletedStore with roles := [] } sampleEnv "" (some "a@x.com")
        (some "g-1") none "v1" =
      (.error msgStoreRefused, { deletedStore with roles := [] }) := by
  refine ⟨by decide, by decide⟩

/-- C11, at a concrete store: with no role in the store, the login verification of
`alice` with the right code throws the role-not-found error, her valid refresh
token is answered 404 with the store unchanged, and her Google sign-in returns no
session. -/
theorem role_not_found_fails_witness :
    (verifyOTPAndLoginUser rolelessStore sampleEnv "otp-1" (some "123456")).1 =
      .error msgRoleNotFound ∧
    (verifyLoginUser rolelessStore sampleEnv "v1" "a@x.com" "Secret1!").1 =
      .error msgRoleNotFound ∧
    refreshToken rolelessStore sampleEnv (some "T1") =
      (.fail 404 { status := false, verify := false, refresh := false,
                   message := msgRoleMissing }, rolelessStore) ∧
    (googleAuth rolelessStore sampleEnv "alice" (some "a@x.com") (some "g-1") none
        "v1").1 = .error msgRoleNotFound ∧
    ∃ msg, (googleAuth rolelessStore sampleEnv "" (some "a@x.com") (some "g-1") none
        "v1").1 = .error msg :=
  ⟨(role_not_found_fails rolelessStore sampleEnv).2.2.1 "otp-1" (some "123456") otpAlice
     visitorOne alice (by decide) (by decide) (by decide) (by decide),
   (role_not_found_fails rolelessStore sampleEnv).2.2.2.2.2.1 "v1" "a@x.com" "Secret1!"
     visitorOne alice (by decide) (by decide) (by decide) (by decide),
   (role_not_found_fails rolelessStore sampleEnv).2.2.2.2.2.2.1 "T1" "u1" alice
     (by decide) (by decide) (by decide) (by decide) (by decide) (by decide) (by decide),
   (role_not_found_fails rolelessStore sampleEnv).2.2.2.1 "alice" (some "a@x.com")
     (some "g-1") none "v1" visitorOne alice (by decide) (by decide) (by decide)
     (by decide) (by decide) (by decide) (by decide) (by decide),
   (role_not_found_fails rolelessStore sampleEnv).2.2.2.2.2.2.2.2.2.1 ""
     (some "a@x.com") (some "g-1") none "v1" alice (by decide) (by decide)⟩

/-! ## The uid after a verification -/

/-- After `user.save()` of a document that keeps the `_id` and the email of the
document found by that email, the lookup by the email finds the saved document. -/
theorem User.findByEmail_save {email : String} {user : User} :
    ∀ {users : List User} {before : User},
      User.findByEmail users email = some before → user._id = before._id →
      user.email = email →
      User.findByEmail (User.save users user) email = some user
  | [], _, h, _, _ => by simp [User.findByEmail] at h
  | v :: rest, before, h, hid, hmail => by
    have hfound : (user.email == email) = true := by simp [hmail]
    have ih : User.findByEmail rest email = some before →
        User.findByEmail (User.save rest user) email = some user :=
      fun h1 => User.findByEmail_save h1 hid hmail
    unfold User.findByEmail User.save at *
    rw [List.map_cons]
    by_cases hv : (v.email == email) = true
    · have hvb : v = before := by simpa [List.find?_cons, hv] using h
      have hsame : (v._id == user._id) = true := by simp [hvb, hid]
      simp [List.find?_cons, hsame, hfound]
    · have hrest : List.find? (fun u => u.email == email) rest = some before := by
        simpa [List.find?_cons, hv] using h
      by_cases hsame : (v._id == user._id) = true
      · simp [List.find?_cons, hsame, hfound]
      · simp only [Bool.not_eq_true] at hv hsame
        simp only [hsame, List.find?_cons, Bool.false_eq_true, if_false, hv]
        exact ih hrest

/-- A document appended to a store that has no document of its email is the one
found by that email. -/
theorem User.findByEmail_append {users : List User} {doc : User}
    (h : User.findByEmail users doc.email = none) :
    User.findByEmail (users ++ [doc]) doc.email = some doc := by
  unfold User.findByEmail at *
  rw [List.find?_append, h]
  simp

/-- The document found by an email has that email. -/
theorem User.findByEmail_email {users : List User} {email : String} {user : User}
    (h : User.findByEmail users email = some user) : user.email = email := by
  have := List.find?_some h
  simpa using this

/-- The user of a session returned by `verifyOTPAndCreateUser`: either the stored
user of the challenge's email, saved with the `uid` drawn in the call, or a new
document with the schema's default `uid`, appended to the store. -/
theorem verifyOTPAndCreateUser_ok_user {st st1 : Store} {env : Env} {otpId : String}
    {otpCode : Option String} {s : Session}
    (h : verifyOTPAndCreateUser st env otpId otpCode = (.ok s, st1)) :
    ∃ otpObj user roleData,
      checkOtp st.otps env.now otpId otpCode = .ok otpObj ∧
      s.user = userObj st.modules user roleData true ∧
      user.email = otpObj.email ∧
      ((∃ before, User.findByEmail st.users otpObj.email = some before ∧
          user._id = before._id ∧ user.uid = env.uuid ∧
          st1.users = User.save st.users user) ∨
       (User.findByEmail st.users otpObj.email = none ∧ user.uid = env.defaultUid ∧
          st1.users = st.users ++ [user])) := by
  unfold verifyOTPAndCreateUser at h
  dsimp only at h
  repeat' (split at h <;> try dsimp only at h)
  all_goals first
    | (simp only [Prod.mk.injEq, reduceCtorEq, false_and] at h; done)
    | skip
  rename_i _ otpObj hotp _ defaults _ _ visitor _ _ user users hsaved _ roleData _ _ _
  simp only [Prod.mk.injEq, Except.ok.injEq] at h
  obtain ⟨hs, hst⟩ := h
  subst hs hst
  refine ⟨otpObj, user, roleData, hotp, rfl, ?_⟩
  cases hu : User.findByEmail st.users otpObj.email with
  | none =>
    simp only [hu] at hsaved
    unfold User.create at hsaved
    repeat' split at hsaved
    all_goals first
      | simp only [Option.map_none', reduceCtorEq] at hsaved
      | skip
    simp only [Option.map_some', Option.some.injEq, Prod.mk.injEq] at hsaved
    obtain ⟨hdoc, husers⟩ := hsaved
    subst hdoc husers
    exact ⟨rfl, Or.inr ⟨rfl, rfl, rfl⟩⟩
  | some before =>
    simp only [hu, Option.some.injEq, Prod.mk.injEq] at hsaved
    obtain ⟨hdoc, husers⟩ := hsaved
    subst hdoc
    have he : before.email = otpObj.email := User.findByEmail_email hu
    exact ⟨he, Or.inl ⟨before, rfl, rfl, rfl, husers.symm⟩⟩

/-- The user of a session returned by `verifyOTPAndLoginUser`: the stored user of
the challenge's email, saved with the `uid` drawn in the call. -/
theorem verifyOTPAndLoginUser_ok_user {st st1 : Store} {env : Env} {otpId : String}
    {otpCode : Option String} {s : Session}
    (h : verifyOTPAndLoginUser st env otpId otpCode = (.ok s, st1)) :
    ∃ otpObj user roleData,
      checkOtp st.otps env.now otpId otpCode = .ok otpObj ∧
      s.user = userObj st.modules user roleData true ∧
      user.email = otpObj.email ∧
      ((∃ before, User.findByEmail st.users otpObj.email = some before ∧
          user._id = before._id ∧ user.uid = env.uuid ∧
          st1.users = User.save st.users user) ∨
       (User.findByEmail st.users otpObj.email = none ∧ user.uid = env.defaultUid ∧
          st1.users = st.users ++ [user])) := by
  unfold verifyOTPAndLoginUser at h
  dsimp only at h
  repeat' (split at h <;> try dsimp only at h)
  all_goals first
    | (simp only [Prod.mk.injEq, reduceCtorEq, false_and] at h; done)
    | skip
  rename_i _ otpObj hotp _ visitor _ _ before hbefore _ roleData _ _ _
  simp only [Prod.mk.injEq, Except.ok.injEq] at h
  obtain ⟨hs, hst⟩ := h
  subst hs hst
  have he : before.email = otpObj.email := User.findByEmail_email hbefore
  exact ⟨otpObj, _, roleData, hotp, rfl, he, Or.inl ⟨before, hbefore, rfl, rfl, rfl⟩⟩

/-- C12: after a successful OTP verification (`verifyOTPAndCreateUser` or
`verifyOTPAndLoginUser`), with the drawn `uuidv4` value in use by no stored user, the
stored `uid` of the user is an identifier generated in the call (the drawn
value, or for a created account the schema's default `uuidv4`); it is the `uid` of
the session payload and the one in `redirectRoute`, and when the user existed before
the call it differs from the `uid` stored before. -/
theorem otp_verification_renews_uid (st st1 : Store) (env : Env) (otpId : String)
    (otpCode : Option String) (s : Session)
    (hfresh : ∀ u ∈ st.users, u.uid ≠ env.uuid)
    (h : verifyOTPAndCreateUser st env otpId otpCode = (.ok s, st1) ∨
         verifyOTPAndLoginUser st env otpId otpCode = (.ok s, st1)) :
    ∃ stored, User.findByEmail st1.users s.user.email = some stored ∧
      stored.uid = s.user.uid ∧
      s.user.redirectRoute = "/" ++ s.user.role.name ++ "/" ++ stored.uid ∧
      (stored.uid = env.uuid ∨ stored.uid = env.defaultUid) ∧
      ∀ before, User.findByEmail st.users s.user.email = some before →
        stored.uid = env.uuid ∧ before.uid ≠ stored.uid := by
  have hshape : ∃ otpObj user roleData,
      checkOtp st.otps env.now otpId otpCode = .ok otpObj ∧
      s.user = userObj st.modules user roleData true ∧
      user.email = otpObj.email ∧
      ((∃ before, User.findByEmail st.users otpObj.email = some before ∧
          user._id = before._id ∧ user.uid = env.uuid ∧
          st1.users = User.save st.users user) ∨
       (User.findByEmail st.users otpObj.email = none ∧ user.uid = env.defaultUid ∧
          st1.users = st.users ++ [user])) := by
    rcases h with h | h
    · exact verifyOTPAndCreateUser_ok_user h
    · exact verifyOTPAndLoginUser_ok_user h
  obtain ⟨otpObj, user, roleData, _, hs, hmail, hcase⟩ := hshape
  have hsmail : s.user.email = otpObj.email := by rw [hs]; exact hmail
  have hsuid : user.uid = s.user.uid := by rw [hs]; rfl
  have hroute : s.user.redirectRoute = "/" ++ s.user.role.name ++ "/" ++ user.uid := by
    rw [hs]; rfl
  rw [hsmail]
  rcases hcase with ⟨before, hbefore, hid, huid, husers⟩ | ⟨hnone, huid, husers⟩
  · refine ⟨user, ?_, hsuid, hroute, Or.inl huid, ?_⟩
    · rw [husers]; exact User.findByEmail_save hbefore hid hmail
    · intro b hb
      rw [hbefore] at hb
      have hbb : before = b := Option.some.inj hb
      subst hbb
      refine ⟨huid, ?_⟩
      rw [huid]
      exact hfresh before (List.mem_of_find?_eq_some hbefore)
  · refine ⟨user, ?_, hsuid, hroute, Or.inr huid, ?_⟩
    · rw [husers, ← hmail]
      exact User.findByEmail_append (by rw [hmail]; exact hnone)
    · intro b hb
      rw [hnone] at hb
      exact absurd hb (by simp)

/-- C12, at a concrete store: `alice` has the uid `uid-0`; she verifies the challenge
`otp-1` and is stored with the drawn uid `uuid-1`, which the payload and its
`redirectRoute` carry. -/
theorem otp_verification_renews_uid_witness :
    User.findByEmail pendingStore.users "a@x.com" = some alice ∧ alice.uid = "uid-0" ∧
    ∃ stored, User.findByEmail [aliceLoggedIn] aliceSession.user.email = some stored ∧
      stored.uid = aliceSession.user.uid ∧
      aliceSession.user.redirectRoute = "/admin/uuid-1" ∧
      stored.uid = "uuid-1" := by
  obtain ⟨stored, h1, h2, h3, _, h5⟩ :=
    otp_verification_renews_uid pendingStore { sampleStore with users := [aliceLoggedIn] }
      sampleEnv "otp-1" (some "123456") aliceSession (by decide) (Or.inr (by decide))
  exact ⟨by decide, by decide, stored, h1, h2, by decide, (h5 alice (by decide)).1⟩

/-- For every successful `googleAuth` call on an existing user, the user is saved
with the `uid` it had: the stored `uid` after the call, which is also the `uid` of
the payload, equals the `uid` stored before the call. -/
theorem googleAuth_existing_uid_unchanged {st st1 : Store} {env : Env}
    {username query : String} {email uid profile_pic : Option String} {s : Session}
    {before : User}
    (hbefore : User.findByEmail st.users (email.getD "") = some before)
    (h : googleAuth st env username email uid profile_pic query = (.ok s, st1)) :
    ∃ stored, User.findByEmail st1.users (email.getD "") = some stored ∧
      stored.uid = before.uid ∧ s.user.uid = before.uid := by
  have he : before.email = email.getD "" := User.findByEmail_email hbefore
  cases hv : Visitor.findById st.visitors query with
  | none => simp [googleAuth, hv] at h
  | some visitor =>
    cases hm : (isMissing uid || isMissing email) with
    | true => simp [googleAuth, hv, hm] at h
    | false =>
      by_cases hval : (if !before.access.active then username else before.username) = "" ∨
          before.email = "" ∨ before.password = ""
      · simp only [googleAuth, hv, hm, hbefore, hval, Bool.false_eq_true, if_false, if_true,
          Prod.mk.injEq, reduceCtorEq, false_and] at h
      · cases hr : Role.findById st.roles before.role with
        | none =>
          simp only [googleAuth, hv, hm, hbefore, hval, hr, Bool.false_eq_true, if_false,
            Prod.mk.injEq, reduceCtorEq, false_and] at h
        | some roleData =>
          cases hmail : env.mailError with
          | some err =>
            simp only [googleAuth, hv, hm, hbefore, hval, hr, hmail, Bool.false_eq_true,
              if_false, Prod.mk.injEq, reduceCtorEq, false_and] at h
          | none =>
            simp only [googleAuth, hv, hm, hbefore, hval, hr, hmail, Bool.false_eq_true,
              if_false, Prod.mk.injEq, Except.ok.injEq] at h
            obtain ⟨hs, hst⟩ := h
            subst hs hst
            exact ⟨_, User.findByEmail_save hbefore rfl he, rfl, rfl⟩

/-- C13, evaluated on the code: `alice`, stored with the uid `uid-0`, signs in with
Google; the call succeeds, and both the payload and the stored user still carry
`uid-0`, although the environment drew the fresh value `uuid-1`. -/
theorem googleAuth_keeps_uid :
    (User.findByEmail sampleStore.users "a@x.com").map (fun u => u.uid) = some "uid-0" ∧
    (googleAuth sampleStore sampleEnv "alice" (some "a@x.com") (some "g-1")
        (some "pic.png") "v1").1.map (fun s => s.user.uid) = .ok "uid-0" ∧
    (User.findByEmail
        (googleAuth sampleStore sampleEnv "alice" (some "a@x.com") (some "g-1")
          (some "pic.png") "v1").2.users "a@x.com").map (fun u => u.uid) =
      some "uid-0" := by
  refine ⟨by decide, by decide, by decide⟩

/-! ## Password change -/

/-- The class `[a-z]` is what `hasLower` looks for. -/
theorem hasLower_iff (s : String) :
    hasLower s = true ↔ ∃ c ∈ s.data, 'a' ≤ c ∧ c ≤ 'z' := by
  unfold hasLower
  rw [List.any_eq_true]
  constructor
  · rintro ⟨c, hc, h⟩
    simp only [Char.isLower, Bool.and_eq_true, decide_eq_true_eq, ge_iff_le] at h
    exact ⟨c, hc, h⟩
  · rintro ⟨c, hc, h⟩
    refine ⟨c, hc, ?_⟩
    simp only [Char.isLower, Bool.and_eq_true, decide_eq_true_eq, ge_iff_le]
    exact h

/-- The class `[A-Z]` is what `hasUpper` looks for. -/
theorem hasUpper_iff (s : String) :
    hasUpper s = true ↔ ∃ c ∈ s.data, 'A' ≤ c ∧ c ≤ 'Z' := by
  unfold hasUpper
  rw [List.any_eq_true]
  constructor
  · rintro ⟨c, hc, h⟩
    simp only [Char.isUpper, Bool.and_eq_true, decide_eq_true_eq, ge_iff_le] at h
    exact ⟨c, hc, h⟩
  · rintro ⟨c, hc, h⟩
    refine ⟨c, hc, ?_⟩
    simp only [Char.isUpper, Bool.and_eq_true, decide_eq_true_eq, ge_iff_le]
    exact h

/-- The class `\d` is what `hasDigit` looks for. -/
theorem hasDigit_iff (s : String) :
    hasDigit s = true ↔ ∃ c ∈ s.data, '0' ≤ c ∧ c ≤ '9' := by
  unfold hasDigit
  rw [List.any_eq_true]
  constructor
  · rintro ⟨c, hc, h⟩
    simp only [Char.isDigit, Bool.and_eq_true, decide_eq_true_eq, ge_iff_le] at h
    exact ⟨c, hc, h⟩
  · rintro ⟨c, hc, h⟩
    refine ⟨c, hc, ?_⟩
    simp only [Char.isDigit, Bool.and_eq_true, decide_eq_true_eq, ge_iff_le]
    exact h

/-- The class `[@$!%*?&]` is what `hasSpecial` looks for. -/
theorem hasSpecial_iff (s : String) :
    hasSpecial s = true ↔ ∃ c ∈ s.data, c ∈ ['@', '$', '!', '%', '*', '?', '&'] := by
  have hlist : specialChars = ['@', '$', '!', '%', '*', '?', '&'] := by decide
  unfold hasSpecial
  rw [List.any_eq_true, hlist]
  constructor
  · rintro ⟨c, hc, h⟩
    exact ⟨c, hc, by simpa using h⟩
  · rintro ⟨c, hc, h⟩
    exact ⟨c, hc, by simpa using h⟩

/-- The five tests of `changePassword` all pass exactly when the policy of the
specification is not violated. -/
theorem policy_tests_iff (password : String) :
    PolicyViolated password ↔
      (hasLower password = false ∨ hasUpper password = false ∨
       hasDigit password = false ∨ hasSpecial password = false ∨
       jsLength password < 7) := by
  have h1 : hasLower password = false ↔ ∀ c ∈ password.data, ¬ ('a' ≤ c ∧ c ≤ 'z') := by
    rw [← Bool.not_eq_true, hasLower_iff]; simp
  have h2 : hasUpper password = false ↔ ∀ c ∈ password.data, ¬ ('A' ≤ c ∧ c ≤ 'Z') := by
    rw [← Bool.not_eq_true, hasUpper_iff]; simp
  have h3 : hasDigit password = false ↔ ∀ c ∈ password.data, ¬ ('0' ≤ c ∧ c ≤ '9') := by
    rw [← Bool.not_eq_true, hasDigit_iff]; simp
  have h4 : hasSpecial password = false ↔
      ∀ c ∈ password.data, c ∉ ['@', '$', '!', '%', '*', '?', '&'] := by
    rw [← Bool.not_eq_true, hasSpecial_iff]
    constructor
    · intro h c hc hmem
      exact h ⟨c, hc, hmem⟩
    · rintro h ⟨c, hc, hmem⟩
      exact h c hc hmem
  unfold PolicyViolated
  rw [h1, h2, h3, h4]
  tauto

/-- The outcome of `changePassword` on a non-empty uid and password: the first failed
test of the policy decides, and a password that passes all five reaches the lookup
of the user. -/
theorem changePassword_eq (st : Store) (env : Env) (uid password : String)
    (huid : uid ≠ "") (hpw : password ≠ "") :
    changePassword st env (some uid) (some password) =
      if hasLower password = false then (.error msgNeedLower, st)
      else if hasUpper password = false then (.error msgNeedUpper, st)
      else if hasDigit password = false then (.error msgNeedNumber, st)
      else if hasSpecial password = false then (.error msgNeedSpecial, st)
      else if jsLength password < 7 then (.error msgTooShort, st)
      else
        match User.findByUid st.users uid with
        | none => (.error msgNoUserFound, st)
        | some user =>
          ((match env.mailError with
            | some err => .error err
            | none => .ok { message := msgPasswordUpdated }),
           { st with
             users := (User.save st.users
               { user with password := env.hash password, uid := env.uuid }) }) := by
  have hm1 : isMissing (some uid) = false := by simp [isMissing, huid]
  have hm2 : isMissing (some password) = false := by simp [isMissing, hpw]
  unfold changePassword
  simp only [hm1, hm2, Bool.or_self, Bool.false_eq_true, if_false, Option.getD_some]
  cases hasLower password <;> cases hasUpper password <;> cases hasDigit password <;>
    cases hasSpecial password <;>
    simp only [Bool.not_false, Bool.not_true, Bool.false_eq_true, if_true, if_false,
      Bool.true_eq_false]
  split
  · rfl
  · cases User.findByUid st.users uid with
    | none => rfl
    | some user => cases env.mailError <;> rfl

/-- C14: for every non-empty uid and password, `changePassword` rejects with a
password-policy error if and only if the password has fewer than 7 characters
(JavaScript's `length`), or contains no lower-case letter `a-z`, or no upper-case
letter `A-Z`, or no digit, or none of the symbols `@ $ ! % * ? &`; and whenever the
policy is violated the store is returned unchanged, so no user record is modified.
The mail transport's error text is taken not to be one of the five policy messages. -/
theorem changePassword_policy (st : Store) (env : Env) (uid password : String)
    (huid : uid ≠ "") (hpw : password ≠ "")
    (hmail : ∀ msg ∈ policyErrors, env.mailError ≠ some msg) :
    ((∃ msg ∈ policyErrors,
        (changePassword st env (some uid) (some password)).1 = .error msg) ↔
      PolicyViolated password) ∧
    (PolicyViolated password →
      (changePassword st env (some uid) (some password)).2 = st) := by
  rw [policy_tests_iff, changePassword_eq st env uid password huid hpw]
  cases h1 : hasLower password
  · rw [if_pos rfl]
    exact ⟨⟨fun _ => Or.inl rfl, fun _ => ⟨msgNeedLower, by decide, rfl⟩⟩, fun _ => rfl⟩
  rw [if_neg (by decide)]
  cases h2 : hasUpper password
  · rw [if_pos rfl]
    exact ⟨⟨fun _ => Or.inr (Or.inl rfl), fun _ => ⟨msgNeedUpper, by decide, rfl⟩⟩,
      fun _ => rfl⟩
  rw [if_neg (by decide)]
  cases h3 : hasDigit password
  · rw [if_pos rfl]
    exact ⟨⟨fun _ => Or.inr (Or.inr (Or.inl rfl)),
      fun _ => ⟨msgNeedNumber, by decide, rfl⟩⟩, fun _ => rfl⟩
  rw [if_neg (by decide)]
  cases h4 : hasSpecial password
  · rw [if_pos rfl]
    exact ⟨⟨fun _ => Or.inr (Or.inr (Or.inr (Or.inl rfl))),
      fun _ => ⟨msgNeedSpecial, by decide, rfl⟩⟩, fun _ => rfl⟩
  rw [if_neg (by decide)]
  by_cases h5 : jsLength password < 7
  · rw [if_pos h5]
    exact ⟨⟨fun _ => Or.inr (Or.inr (Or.inr (Or.inr h5))),
      fun _ => ⟨msgTooShort, by decide, rfl⟩⟩, fun _ => rfl⟩
  rw [if_neg h5]
  have hnot : ¬ (true = false ∨ true = false ∨ true = false ∨ true = false ∨
      jsLength password < 7) := by
    simp [h5]
  refine ⟨⟨?_, fun h => absurd h hnot⟩, fun h => absurd h hnot⟩
  rintro ⟨msg, hmsg, hres⟩
  exfalso
  cases hu : User.findByUid st.users uid with
  | none =>
    simp only [hu, Except.error.injEq] at hres
    rw [← hres] at hmsg
    revert hmsg
    decide
  | some user =>
    simp only [hu] at hres
    cases hm : env.mailError with
    | none => simp [hm] at hres
    | some err =>
      simp only [hm, Except.error.injEq] at hres
      exact hmail msg hmsg (by rw [hm, hres])

/-- C14, at concrete passwords: `abc` has no upper-case letter, is rejected with the
upper-case message and leaves the sample store as it was; `Secret1!` satisfies the
policy and is not rejected by it. -/
theorem changePassword_policy_witness :
    (changePassword sampleStore sampleEnv (some "uid-0") (some "abc")).1 =
      .error msgNeedUpper ∧
    PolicyViolated "abc" ∧
    (changePassword sampleStore sampleEnv (some "uid-0") (some "abc")).2 = sampleStore ∧
    ¬ PolicyViolated "Secret1!" ∧
    (changePassword sampleStore sampleEnv (some "uid-0") (some "Secret1!")).1 =
      .ok { message := msgPasswordUpdated } :=
  ⟨by decide,
   (changePassword_policy sampleStore sampleEnv "uid-0" "abc" (by decide) (by decide)
      (by decide)).1.mp ⟨msgNeedUpper, by decide, by decide⟩,
   (changePassword_policy sampleStore sampleEnv "uid-0" "abc" (by decide) (by decide)
      (by decide)).2
     ((changePassword_policy sampleStore sampleEnv "uid-0" "abc" (by decide) (by decide)
        (by decide)).1.mp ⟨msgNeedUpper, by decide, by decide⟩),
   fun hv =>
     absurd
       ((changePassword_policy sampleStore sampleEnv "uid-0" "Secret1!" (by decide)
          (by decide) (by decide)).1.mpr hv)
       (by decide),
   by decide⟩

/-- What a successful `changePassword` did: the uid and the password were present,
the password satisfied the policy, the user of the uid was found and saved with the
hash of the password and the `uid` drawn in the call. -/
theorem changePassword_ok {st st1 : Store} {env : Env} {uid password : String}
    {r : Confirmation}
    (h : changePassword st env (some uid) (some password) = (.ok r, st1)) :
    uid ≠ "" ∧ password ≠ "" ∧ ¬ PolicyViolated password ∧
    ∃ user, User.findByUid st.users uid = some user ∧
      st1 = { st with
              users := (User.save st.users
                { user with password := env.hash password, uid := env.uuid }) } := by
  have huid : uid ≠ "" := by
    intro hu
    simp [changePassword, isMissing, hu] at h
  have hpw : password ≠ "" := by
    intro hp
    simp [changePassword, isMissing, hp] at h
  rw [changePassword_eq st env uid password huid hpw] at h
  refine ⟨huid, hpw, ?_, ?_⟩
  · rw [policy_tests_iff]
    rintro (hv | hv | hv | hv | hv)
    all_goals
      repeat' split at h
      all_goals simp only [Prod.mk.injEq, reduceCtorEq, false_and] at h
  · repeat' split at h
    all_goals first
      | (simp only [Prod.mk.injEq, reduceCtorEq, false_and] at h; done)
      | skip
    all_goals
      simp only [Prod.mk.injEq] at h
      exact ⟨_, by assumption, h.2.symm⟩

/-- With pairwise different keys, looking a document up by its own key finds it. -/
theorem find?_own_key {α : Type} (f : α → String) :
    ∀ {l : List α} {x : α}, (l.map f).Nodup → x ∈ l →
      l.find? (fun y => f y == f x) = some x
  | [], _, _, hx => by simp at hx
  | y :: rest, x, hnd, hx => by
    rw [List.map_cons, List.nodup_cons] at hnd
    rcases List.mem_cons.mp hx with hxy | hxr
    · subst hxy
      simp [List.find?_cons]
    · have hne : (f y == f x) = false := by
        rw [beq_eq_false_iff_ne]
        intro heq
        exact hnd.1 (heq ▸ List.mem_map_of_mem f hxr)
      simp only [List.find?_cons, hne]
      exact find?_own_key f hnd.2 hxr

/-- With pairwise different uids, after the user of a uid is saved with another uid,
the old uid finds no user. -/
theorem User.findByUid_save_none {users : List User} {uid : String} {user stored : User}
    (hunique : (users.map (fun u => u.uid)).Nodup)
    (huser : User.findByUid users uid = some user)
    (hid : stored._id = user._id) (hnew : stored.uid ≠ uid) :
    User.findByUid (User.save users stored) uid = none := by
  have hmem : user ∈ users := List.mem_of_find?_eq_some huser
  have huid : user.uid = uid := by simpa using List.find?_some huser
  unfold User.findByUid User.save
  rw [List.find?_eq_none]
  intro v hv hvuid
  have hvuid2 : v.uid = uid := by simpa using hvuid
  obtain ⟨w, hw, hwv⟩ := List.mem_map.mp hv
  by_cases hsame : (w._id == stored._id) = true
  · simp only [hsame, if_true] at hwv
    exact hnew (hwv ▸ hvuid2)
  · simp only [Bool.not_eq_true] at hsame
    simp only [hsame, Bool.false_eq_true, if_false] at hwv
    subst hwv
    have hwu : w = user :=
      List.inj_on_of_nodup_map hunique hw hmem (by rw [hvuid2, huid])
    rw [← Bool.not_eq_true] at hsame
    apply hsame
    simp [hwu, hid]

/-- The outcome of `loginUser` for a known visitor and a stored user whose password
hash matches, when the challenge document is accepted and the mail is sent: the
payload carries the drawn `otpId` and the store holds the challenge. -/
theorem loginUser_issues {st : Store} {env : Env} {query email password : String}
    {visitor : Visitor} {user : User}
    (hvisitor : Visitor.findById st.visitors query = some visitor)
    (huser : User.findByEmail st.users email = some user)
    (hpass : env.compare password user.password = true)
    (hcreate : (OTP.create (OTP.deleteMany st.otps email)
      (loginChallenge user env email query)).isSome = true)
    (hmail : env.mailError = none) :
    (loginUser st env query email password).1 =
      .ok { message := msgLoginOtpSent, username := user.username, email := user.email,
            otpId := env.uuid } ∧
    loginChallenge user env email query ∈ (loginUser st env query email password).2.otps := by
  obtain ⟨created, hc⟩ := Option.isSome_iff_exists.mp hcreate
  have hc2 := hc
  unfold loginChallenge at hc2
  have hmem : loginChallenge user env email query ∈ created := by
    rw [OTP.create_eq hc]
    exact List.mem_append_right _ (List.mem_singleton_self _)
  simp only [loginUser, hvisitor, huser, hpass, Bool.not_true, Bool.false_eq_true,
    if_false, hc2, hmail]
  constructor
  all_goals trivial

/-- C15: after a successful `changePassword(uid, p)` on a store with pairwise
different uids and emails, where the drawn `uuidv4` value differs from the old uid:
`p` satisfied the policy; the old uid finds no user, so every later `changePassword`
with it fails and leaves the store as it is, with the no-user-found error when the
new password passes the policy; and `loginUser` with the user's email and `p`, for a
known visitor and a `bcrypt.compare` that accepts `p` against the hash made of it,
passes the password check: it returns the payload with the drawn `otpId` and the
store holds the challenge, when the challenge document is accepted by the schema
and the mail is sent. -/
theorem changePassword_round_trip (st st1 : Store) (env : Env) (uid p : String)
    (r : Confirmation) (user : User)
    (huser : User.findByUid st.users uid = some user)
    (hchange : changePassword st env (some uid) (some p) = (.ok r, st1))
    (huids : (st.users.map (fun u => u.uid)).Nodup)
    (hemails : (st.users.map (fun u => u.email)).Nodup)
    (hfresh : env.uuid ≠ uid) :
    ¬ PolicyViolated p ∧
    User.findByUid st1.users uid = none ∧
    (∀ env3 p3, ∃ msg, changePassword st1 env3 (some uid) p3 = (.error msg, st1)) ∧
    (∀ env3 p3, p3 ≠ "" → ¬ PolicyViolated p3 →
      changePassword st1 env3 (some uid) (some p3) = (.error msgNoUserFound, st1)) ∧
    (∀ env2 query visitor,
      Visitor.findById st1.visitors query = some visitor →
      env2.compare p (env.hash p) = true →
      (OTP.create (OTP.deleteMany st1.otps user.email)
        (loginChallenge { user with password := env.hash p, uid := env.uuid } env2
          user.email query)).isSome = true →
      env2.mailError = none →
      (loginUser st1 env2 query user.email p).1 =
        .ok { message := msgLoginOtpSent, username := user.username,
              email := user.email, otpId := env2.uuid } ∧
      loginChallenge { user with password := env.hash p, uid := env.uuid } env2
          user.email query ∈ (loginUser st1 env2 query user.email p).2.otps) := by
  obtain ⟨huid, _, hpolicy, user2, huser2, hst1⟩ := changePassword_ok hchange
  rw [huser] at huser2
  have hsame : user = user2 := Option.some.inj huser2
  subst hsame
  have hmem : user ∈ st.users := List.mem_of_find?_eq_some huser
  have hgone : User.findByUid st1.users uid = none := by
    rw [hst1]
    exact User.findByUid_save_none huids huser rfl hfresh
  have hbyEmail : User.findByEmail st.users user.email = some user :=
    find?_own_key (fun (u : User) => u.email) hemails hmem
  have hstored : User.findByEmail st1.users user.email =
      some { user with password := env.hash p, uid := env.uuid } := by
    rw [hst1]
    exact User.findByEmail_save hbyEmail rfl rfl
  refine ⟨hpolicy, hgone, ?_, ?_, ?_⟩
  · intro env3 p3
    unfold changePassword
    simp only [Option.getD_some, hgone]
    repeat' split
    all_goals exact ⟨_, rfl⟩
  · intro env3 p3 hp3 hvalid
    rw [policy_tests_iff] at hvalid
    rw [changePassword_eq st1 env3 uid p3 huid hp3, hgone]
    simp only [not_or, Bool.not_eq_false] at hvalid
    obtain ⟨h1, h2, h3, h4, h5⟩ := hvalid
    simp [h1, h2, h3, h4, h5]
  · intro env2 query visitor hvisitor hbcrypt hcreate hmail
    exact loginUser_issues hvisitor hstored hbcrypt hcreate hmail

/-- C15, at a concrete store: `alice` changes her password with the uid `uid-0`; then
`uid-0` finds no user, a second change with it fails with the no-user-found error,
and a login with her email and the new password is given the challenge `uuid-1`. -/
theorem changePassword_round_trip_witness :
    changePassword sampleStore sampleEnv (some "uid-0") (some "Newpass1!") =
      (.ok { message := msgPasswordUpdated }, changedStore) ∧
    User.findByUid changedStore.users "uid-0" = none ∧
    changePassword changedStore sampleEnv (some "uid-0") (some "Other2?x") =
      (.error msgNoUserFound, changedStore) ∧
    (loginUser changedStore sampleEnv "v1" "a@x.com" "Newpass1!").1 =
      .ok { message := msgLoginOtpSent, username := "alice", email := "a@x.com",
            otpId := "uuid-1" } :=
  ⟨by decide,
   (changePassword_round_trip sampleStore changedStore sampleEnv "uid-0" "Newpass1!"
      { message := msgPasswordUpdated } alice (by decide) (by decide) (by decide)
      (by decide) (by decide)).2.1,
   (changePassword_round_trip sampleStore changedStore sampleEnv "uid-0" "Newpass1!"
      { message := msgPasswordUpdated } alice (by decide) (by decide) (by decide)
      (by decide) (by decide)).2.2.2.1 sampleEnv "Other2?x" (by decide)
      (fun hv =>
        absurd ((policy_tests_iff "Other2?x").mp hv) (by decide)),
   ((changePassword_round_trip sampleStore changedStore sampleEnv "uid-0" "Newpass1!"
      { message := msgPasswordUpdated } alice (by decide) (by decide) (by decide)
      (by decide) (by decide)).2.2.2.2 sampleEnv "v1" visitorOne (by decide) (by decide)
      (by decide) (by decide)).1⟩

/-! ## Rejections of the refresh endpoint -/

/-- C16: for every presented refresh token whose signature verifies but for which
`isRefreshTokenValid` is false, `refreshToken` answers 401 with `status: false`; the
answer carries no access token and sets no cookie, and the store, with every user's
refresh-token records, is returned unchanged. -/
theorem refreshToken_invalid_record (st : Store) (env : Env) (token : String)
    (id : ObjectId) (hverify : env.verifyRefresh token = some id)
    (hinvalid : isRefreshTokenValid st.users id token env.now = false) :
    ∃ message, refreshToken st env (some token) =
      (.fail 401 { status := false, verify := false, refresh := false,
                   message := message }, st) := by
  by_cases htoken : token = ""
  · exact ⟨msgNoRefreshToken, by simp [refreshToken, isMissing, htoken]⟩
  · exact ⟨msgInvalidRefreshToken, by
      simp [refreshToken, isMissing, htoken, hverify, hinvalid, invalidRefresh]⟩

/-- C16, at a concrete store: at instant 2000 the record of `T1` (expiry 1000) is
expired, and a token that verifies but was never stored has no record; both are
answered 401 and the store is unchanged. -/
theorem refreshToken_invalid_record_witness :
    isRefreshTokenValid sampleStore.users "u1" "T1" lateEnv.now = false ∧
    (∃ message, refreshToken sampleStore lateEnv (some "T1") =
      (.fail 401 { status := false, verify := false, refresh := false,
                   message := message }, sampleStore)) ∧
    (∃ message, refreshToken sampleStore sampleEnv (some "R-u1") =
      (.fail 401 { status := false, verify := false, refresh := false,
                   message := message }, sampleStore)) :=
  ⟨by decide,
   refreshToken_invalid_record sampleStore lateEnv "T1" "u1" (by decide) (by decide),
   refreshToken_invalid_record sampleStore sampleEnv "R-u1" "u1" (by decide) (by decide)⟩

/-- The account-status checks of `refreshToken` for a valid token: a 403 exactly when
the owning user is not (active and not suspended), with nothing written. -/
theorem refreshToken_403_iff {st : Store} {env : Env} {token : String} {id : ObjectId}
    {user : User} (htoken : token ≠ "") (hverify : env.verifyRefresh token = some id)
    (hvalid : isRefreshTokenValid st.users id token env.now = true)
    (huser : User.findById st.users id = some user) :
    ((∃ body, (refreshToken st env (some token)).1 = .fail 403 body) ↔
      ¬ (user.access.active = true ∧ user.access.suspend = false)) ∧
    ((∃ body, (refreshToken st env (some token)).1 = .fail 403 body) →
      (refreshToken st env (some token)).2 = st) := by
  have hm : isMissing (some token) = false := by simp [isMissing, htoken]
  simp only [refreshToken, hm, Bool.false_eq_true, if_false, Option.getD_some, hverify,
    hvalid, Bool.not_true, huser]
  cases ha : user.access.active <;> cases hs : user.access.suspend
  · simp
  · simp
  · simp only [Bool.and_false, Bool.false_eq_true, if_false, Bool.not_true,
      Bool.not_false, Bool.and_true, and_self, not_true_eq_false, iff_false, not_exists]
    have hno : ∀ body, ¬ (match Role.findById st.roles user.role with
        | none =>
          (RefreshResponse.fail 404 { status := false, verify := false, refresh := false,
                                      message := msgRoleMissing }, st)
        | some roleData =>
          match removeRefreshToken st.users user._id token with
          | .error _ => (invalidRefresh, st)
          | .ok users1 =>
            match saveRefreshToken users1 user._id (env.signRefresh user._id) env.now with
            | .error _ => (invalidRefresh, { st with users := users1 })
            | .ok users2 =>
              (.success (env.signRefresh user._id) (env.signAccess user._id user.role)
                 (userObj st.modules user roleData false),
               { st with users := users2 })).1 = .fail 403 body := by
      intro body h
      repeat' split at h
      all_goals simp [invalidRefresh] at h
    exact ⟨hno, fun ⟨body, hb⟩ => absurd hb (hno body)⟩
  · simp

/-- The decision of `checkAccess` on a found user: a 403 exactly when the user is not
(active and not suspended), and `next` exactly when it is. -/
theorem checkAccess_403_iff {users : List User} {email : String} {user : User}
    (hemail : email ≠ "") (hfound : User.findByEmail users email = some user) :
    ((∃ body, checkAccess users (some email) = .respond 403 body) ↔
      ¬ (user.access.active = true ∧ user.access.suspend = false)) ∧
    (checkAccess users (some email) = .next ↔
      (user.access.active = true ∧ user.access.suspend = false)) := by
  have hm : isMissing (some email) = false := by simp [isMissing, hemail]
  simp only [checkAccess, hm, Bool.false_eq_true, if_false, Option.getD_some, hfound]
  cases user.access.active <;> cases user.access.suspend <;> simp

/-- C17: for a valid presented token, whatever the pair `(active, suspend)` of the
owning user, the account-status checks of `refreshToken` decide as `checkAccess`
decides on a user with the same pair: both answer 403 exactly for `(true, true)`,
`(false, false)` and `(false, true)`, and both proceed exactly for `(true, false)`;
and whenever `refreshToken` answers 403 the store is returned unchanged, so the
presented token is not revoked and no new token is persisted. -/
theorem refreshToken_checks_as_checkAccess (st : Store) (env : Env) (token : String)
    (id : ObjectId) (user : User)
    (htoken : token ≠ "") (hverify : env.verifyRefresh token = some id)
    (hvalid : isRefreshTokenValid st.users id token env.now = true)
    (huser : User.findById st.users id = some user) :
    ((∃ body, (refreshToken st env (some token)).1 = .fail 403 body) ↔
      ((user.access.active, user.access.suspend) = (true, true) ∨
       (user.access.active, user.access.suspend) = (false, false) ∨
       (user.access.active, user.access.suspend) = (false, true))) ∧
    ((¬ ∃ body, (refreshToken st env (some token)).1 = .fail 403 body) ↔
      (user.access.active, user.access.suspend) = (true, false)) ∧
    (∀ users2 email user2, email ≠ "" → User.findByEmail users2 email = some user2 →
      user2.access = user.access →
      ((∃ body, checkAccess users2 (some email) = .respond 403 body) ↔
        ∃ body, (refreshToken st env (some token)).1 = .fail 403 body) ∧
      (checkAccess users2 (some email) = .next ↔
        ¬ ∃ body, (refreshToken st env (some token)).1 = .fail 403 body)) ∧
    ((∃ body, (refreshToken st env (some token)).1 = .fail 403 body) →
      (refreshToken st env (some token)).2 = st) := by
  obtain ⟨hiff, hkeep⟩ := refreshToken_403_iff htoken hverify hvalid huser
  refine ⟨?_, ?_, ?_, hkeep⟩
  · rw [hiff]
    cases user.access.active <;> cases user.access.suspend <;> simp
  · rw [hiff]
    cases user.access.active <;> cases user.access.suspend <;> simp
  · intro users2 email user2 hemail hfound haccess
    obtain ⟨h403, hnext⟩ := checkAccess_403_iff hemail hfound
    rw [h403, hnext, hiff, haccess]
    exact ⟨Iff.rfl, by simp⟩

/-- C17, at concrete stores: the valid token `T1` of a suspended `alice` is answered
403 and her records are untouched, as `checkAccess` answers 403 for her email; for
the active `alice` neither answers 403. -/
theorem refreshToken_checks_as_checkAccess_witness :
    (∃ body, (refreshToken suspendedStore sampleEnv (some "T1")).1 = .fail 403 body) ∧
    (∃ body, checkAccess suspendedStore.users (some "a@x.com") = .respond 403 body) ∧
    (refreshToken suspendedStore sampleEnv (some "T1")).2 = suspendedStore ∧
    checkAccess sampleStore.users (some "a@x.com") = .next ∧
    ¬ ∃ body, (refreshToken sampleStore sampleEnv (some "T1")).1 = .fail 403 body :=
  ⟨(refreshToken_checks_as_checkAccess suspendedStore sampleEnv "T1" "u1"
      { alice with access := { active := true, suspend := true } }
      (by decide) (by decide) (by decide) (by decide)).1.mpr (Or.inl rfl),
   ((refreshToken_checks_as_checkAccess suspendedStore sampleEnv "T1" "u1"
      { alice with access := { active := true, suspend := true } }
      (by decide) (by decide) (by decide) (by decide)).2.2.1 suspendedStore.users
      "a@x.com" { alice with access := { active := true, suspend := true } }
      (by decide) (by decide) rfl).1.mpr
     ((refreshToken_checks_as_checkAccess suspendedStore sampleEnv "T1" "u1"
        { alice with access := { active := true, suspend := true } }
        (by decide) (by decide) (by decide) (by decide)).1.mpr (Or.inl rfl)),
   (refreshToken_checks_as_checkAccess suspendedStore sampleEnv "T1" "u1"
      { alice with access := { active := true, suspend := true } }
      (by decide) (by decide) (by decide) (by decide)).2.2.2
     ((refreshToken_checks_as_checkAccess suspendedStore sampleEnv "T1" "u1"
        { alice with access := { active := true, suspend := true } }
        (by decide) (by decide) (by decide) (by decide)).1.mpr (Or.inl rfl)),
   by decide,
   (refreshToken_checks_as_checkAccess sampleStore sampleEnv "T1" "u1" alice
      (by decide) (by decide) (by decide) (by decide)).2.1.mpr rfl⟩

/-! ## Logout -/

/-- After the pull of a token, the user found by the `_id` is the user found before
with the records of that token filtered out. -/
theorem User.findById_pullRefreshToken (id : ObjectId) (token : String) :
    ∀ users : List User,
      User.findById (User.pullRefreshToken users id token) id =
        (User.findById users id).map (fun u =>
          { u with refreshTokens := u.refreshTokens.filter (fun rt => rt.token != token) })
  | [] => rfl
  | u :: rest => by
    have ih := User.findById_pullRefreshToken id token rest
    unfold User.findById at ih ⊢
    unfold User.pullRefreshToken
    by_cases h : (u._id == id) = true
    · simp [h, List.find?_cons]
    · simp only [Bool.not_eq_true] at h
      simp only [h, Bool.false_eq_true, if_false, List.find?_cons]
      exact ih

/-- After the pull of a token from the records of a user, the token is not valid
for that user at any instant. -/
theorem pullRefreshToken_invalid (users : List User) (id : ObjectId) (token : String)
    (now : Nat) :
    isRefreshTokenValid (User.pullRefreshToken users id token) id token now = false := by
  unfold isRefreshTokenValid
  rw [User.findById_pullRefreshToken]
  cases User.findById users id with
  | none => rfl
  | some user =>
    have hnone : (user.refreshTokens.filter (fun rt => rt.token != token)).find?
        (fun rt => rt.token == token) = none := by
      rw [List.find?_eq_none]
      intro rt hrt
      simpa using (List.mem_filter.mp hrt).2
    simp only [Option.map_some', hnone]

/-- C18, as stated, fails: a logout request whose cookie fails the signature
verification is answered 500 by the `catch` block, and `clearCookie` is not called. -/
theorem logout_unverified_counterexample :
    sampleEnv.verifyRefresh "tampered" = none ∧
    logout sampleStore sampleEnv (some "tampered") =
      ({ code := 500, clearedCookie := false,
         body := { status := false, verify := false, refresh := false,
                   message := msgLogoutFailed } }, sampleStore) := by
  refine ⟨by decide, by decide⟩

/-- C18, amended: a logout request with no `refreshToken` cookie, or with a cookie
whose signature verifies, clears the cookie and reports success with status 200; in
the second case the records of that token are pulled from the user of the payload,
for whom the token is then invalid at every instant. A request whose cookie fails
the verification is not tolerated: it is answered 500 with `status: false`, the
cookie is not cleared and nothing is written. -/
theorem logout_outcome (st : Store) (env : Env) :
    (∀ cookie, isMissing cookie = true →
      logout st env cookie =
        ({ code := 200, clearedCookie := true,
           body := { status := true, verify := false, refresh := false,
                     message := msgLoggedOut } }, st)) ∧
    (∀ token id, token ≠ "" → env.verifyRefresh token = some id →
      logout st env (some token) =
        ({ code := 200, clearedCookie := true,
           body := { status := true, verify := false, refresh := false,
                     message := msgLoggedOut } },
         { st with users := User.pullRefreshToken st.users id token }) ∧
      ∀ now, isRefreshTokenValid (logout st env (some token)).2.users id token now
        = false) ∧
    (∀ token, token ≠ "" → env.verifyRefresh token = none →
      logout st env (some token) =
        ({ code := 500, clearedCookie := false,
           body := { status := false, verify := false, refresh := false,
                     message := msgLogoutFailed } }, st)) := by
  refine ⟨?_, ?_, ?_⟩
  · intro cookie hmissing
    simp [logout, hmissing]
  · intro token id htoken hverify
    have hm : isMissing (some token) = false := by simp [isMissing, htoken]
    have heq : logout st env (some token) =
        ({ code := 200, clearedCookie := true,
           body := { status := true, verify := false, refresh := false,
                     message := msgLoggedOut } },
         { st with users := User.pullRefreshToken st.users id token }) := by
      simp [logout, hm, hverify]
    refine ⟨heq, ?_⟩
    intro now
    rw [heq]
    exact pullRefreshToken_invalid st.users id token now
  · intro token htoken hverify
    have hm : isMissing (some token) = false := by simp [isMissing, htoken]
    simp [logout, hm, hverify]

/-- C18 amended, at a concrete store: without a cookie and with the verifying cookie
`T1` the answer is 200 and the cookie is cleared; `T1` is then no longer valid. -/
theorem logout_outcome_witness :
    (logout sampleStore sampleEnv none).1.code = 200 ∧
    (logout sampleStore sampleEnv none).1.clearedCookie = true ∧
    (logout sampleStore sampleEnv (some "T1")).1.code = 200 ∧
    (logout sampleStore sampleEnv (some "T1")).1.clearedCookie = true ∧
    isRefreshTokenValid sampleStore.users "u1" "T1" 100 = true ∧
    isRefreshTokenValid (logout sampleStore sampleEnv (some "T1")).2.users "u1" "T1" 100
      = false :=
  ⟨by rw [(logout_outcome sampleStore sampleEnv).1 none rfl],
   by rw [(logout_outcome sampleStore sampleEnv).1 none rfl],
   by rw [((logout_outcome sampleStore sampleEnv).2.1 "T1" "u1" (by decide)
      (by decide)).1],
   by rw [((logout_outcome sampleStore sampleEnv).2.1 "T1" "u1" (by decide)
      (by decide)).1],
   by decide,
   ((logout_outcome sampleStore sampleEnv).2.1 "T1" "u1" (by decide) (by decide)).2 100⟩

/-! ## Status codes of the controllers -/

/-- The controller `login` answers 200 or 400. -/
theorem AuthController.login_code (st : Store) (env : Env) (query email password : String) :
    (AuthController.login st env query email password).1.code = 200 ∨
    (AuthController.login st env query email password).1.code = 400 := by
  unfold AuthController.login
  split
  · exact Or.inl rfl
  · exact Or.inr rfl

/-- The success branch of the verify controllers answers 200 or 400. -/
theorem sendSession_code (st : Store) (env : Env) (result : Session) :
    (sendSession st env result).1.code = 200 ∨ (sendSession st env result).1.code = 400 := by
  unfold sendSession
  split
  · exact Or.inr rfl
  · exact Or.inl rfl

/-- The controller `VerifyOTPForSignup` answers 200 or 400. -/
theorem AuthController.VerifyOTPForSignup_code (st : Store) (env : Env) (otpId : String)
    (otpCode : Option String) :
    (AuthController.VerifyOTPForSignup st env otpId otpCode).1.code = 200 ∨
    (AuthController.VerifyOTPForSignup st env otpId otpCode).1.code = 400 := by
  unfold AuthController.VerifyOTPForSignup
  split
  · exact sendSession_code _ _ _
  · exact Or.inr rfl

/-- The controller `VerifyOTPForSignin` answers 200 or 400. -/
theorem AuthController.VerifyOTPForSignin_code (st : Store) (env : Env) (otpId : String)
    (otpCode : Option String) :
    (AuthController.VerifyOTPForSignin st env otpId otpCode).1.code = 200 ∨
    (AuthController.VerifyOTPForSignin st env otpId otpCode).1.code = 400 := by
  unfold AuthController.VerifyOTPForSignin
  split
  · exact sendSession_code _ _ _
  · exact Or.inr rfl

/-- C19, as stated, fails: a login request of `alice` with a wrong password, a
verification with a wrong code, and a verification with the right code after the
expiry are each answered with status 400, not 401. -/
theorem unauthorized_is_400_counterexample :
    AuthController.login sampleStore sampleEnv "v1" "a@x.com" "wrong" =
      (.failed 400 msgWrongPassword, sampleStore) ∧
    AuthController.VerifyOTPForSignup pendingStore sampleEnv "otp-1" (some "000000") =
      (.failed 400 msgOtpIncorrect, pendingStore) ∧
    AuthController.VerifyOTPForSignin pendingStore lateEnv "otp-1" (some "123456") =
      (.failed 400 msgOtpExpired, pendingStore) := by
  refine ⟨by decide, by decide, by decide⟩

/-- C19, amended: at the HTTP boundary these failures are answered with status 400
and the message of the service: a login request with a wrong password, and an OTP
verification (signup or signin) with a wrong code or with the right code after
`expiresAt`; the store is left as it was. None of the three controllers answers
with another status than 200 or 400, so none answers 401. -/
theorem unauthorized_is_400 (st : Store) (env : Env) :
    (∀ query email password visitor user,
      Visitor.findById st.visitors query = some visitor →
      User.findByEmail st.users email = some user →
      env.compare password user.password = false →
      AuthController.login st env query email password =
        (.failed 400 msgWrongPassword, st)) ∧
    (∀ otpId otpObj code, OTP.findOne st.otps otpId = some otpObj →
      code ≠ "" → code ≠ otpObj.otpCode →
      AuthController.VerifyOTPForSignup st env otpId (some code) =
        (.failed 400 msgOtpIncorrect, st) ∧
      AuthController.VerifyOTPForSignin st env otpId (some code) =
        (.failed 400 msgOtpIncorrect, st)) ∧
    (∀ otpId otpObj, OTP.findOne st.otps otpId = some otpObj →
      otpObj.otpCode ≠ "" → env.now > otpObj.expiresAt →
      AuthController.VerifyOTPForSignup st env otpId (some otpObj.otpCode) =
        (.failed 400 msgOtpExpired, st) ∧
      AuthController.VerifyOTPForSignin st env otpId (some otpObj.otpCode) =
        (.failed 400 msgOtpExpired, st)) ∧
    (∀ query email password otpId otpCode,
      (AuthController.login st env query email password).1.code ≠ 401 ∧
      (AuthController.VerifyOTPForSignup st env otpId otpCode).1.code ≠ 401 ∧
      (AuthController.VerifyOTPForSignin st env otpId otpCode).1.code ≠ 401) := by
  refine ⟨?_, ?_, ?_, ?_⟩
  · intro query email password visitor user hvisitor huser hpass
    simp [AuthController.login, loginUser, hvisitor, huser, hpass]
  · intro otpId otpObj code hfound hne hdiff
    have h : checkOtp st.otps env.now otpId (some code) = .error msgOtpIncorrect := by
      simp [checkOtp, hfound, isMissing, hne, Ne.symm hdiff]
    constructor
    · simp only [AuthController.VerifyOTPForSignup,
        verifyOTPAndCreateUser_of_checkOtp_error h]
    · simp only [AuthController.VerifyOTPForSignin,
        verifyOTPAndLoginUser_of_checkOtp_error h]
  · intro otpId otpObj hfound hne hlate
    have h : checkOtp st.otps env.now otpId (some otpObj.otpCode) =
        .error msgOtpExpired := by
      simp [checkOtp, hfound, isMissing, hne, hlate]
    constructor
    · simp only [AuthController.VerifyOTPForSignup,
        verifyOTPAndCreateUser_of_checkOtp_error h]
    · simp only [AuthController.VerifyOTPForSignin,
        verifyOTPAndLoginUser_of_checkOtp_error h]
  · intro query email password otpId otpCode
    refine ⟨?_, ?_, ?_⟩
    · rcases AuthController.login_code st env query email password with h | h <;>
        rw [h] <;> decide
    · rcases AuthController.VerifyOTPForSignup_code st env otpId otpCode with h | h <;>
        rw [h] <;> decide
    · rcases AuthController.VerifyOTPForSignin_code st env otpId otpCode with h | h <;>
        rw [h] <;> decide

/-- C19 amended, at a concrete store: the wrong password of `alice` is answered 400
with the service's message. -/
theorem unauthorized_is_400_witness :
    AuthController.login sampleStore sampleEnv "v1" "a@x.com" "wrong" =
      (.failed 400 msgWrongPassword, sampleStore) ∧
    (AuthController.login sampleStore sampleEnv "v1" "a@x.com" "wrong").1.code ≠ 401 :=
  ⟨(unauthorized_is_400 sampleStore sampleEnv).1 "v1" "a@x.com" "wrong" visitorOne alice
     (by decide) (by decide) (by decide),
   ((unauthorized_is_400 sampleStore sampleEnv).2.2.2 "v1" "a@x.com" "wrong" "otp-1"
     none).1⟩

/-! ## Forgot-password response -/

/-- C20: for every existing user and any two visitor references `q1`, present in the
user's `query` set, and `q2`, absent from it, `ForgotPasswordEmail` in the same
environment returns the same result (the same payload, or the same thrown mail
error) and the controller answers with the same reply and status for both; what
differs is only the mail handed to the transport, the reset request for `q1` and
the notice of a suspicious attempt for `q2`. -/
theorem forgotPassword_same_response (st : Store) (env : Env) (email : String)
    (user : User) (q1 q2 : String)
    (hemail : email ≠ "") (huser : User.findByEmail st.users email = some user)
    (h1 : q1 ∈ user.query) (h2 : q2 ∉ user.query) :
    (ForgotPasswordEmail st env (some email) q1).1 =
      (ForgotPasswordEmail st env (some email) q2).1 ∧
    AuthController.ForgotPasswordEmail st env (some email) q1 =
      AuthController.ForgotPasswordEmail st env (some email) q2 ∧
    (AuthController.ForgotPasswordEmail st env (some email) q1).code =
      (AuthController.ForgotPasswordEmail st env (some email) q2).code ∧
    (env.mailError = none →
      (ForgotPasswordEmail st env (some email) q1).1 =
        .ok { message := msgResetLinkSent, username := user.username,
              email := user.email, uid := user.uid }) ∧
    (ForgotPasswordEmail st env (some email) q1).2 = some .request ∧
    (ForgotPasswordEmail st env (some email) q2).2 =
      some (.suspicious (suspiciousInfo (Visitor.findById st.visitors q2))) := by
  have hm : isMissing (some email) = false := by simp [isMissing, hemail]
  have hc1 : user.query.contains q1 = true := by simpa using h1
  have hc2 : user.query.contains q2 = false := by simpa using h2
  have hresult : (ForgotPasswordEmail st env (some email) q1).1 =
      (ForgotPasswordEmail st env (some email) q2).1 := by
    simp only [ForgotPasswordEmail, hm, Bool.false_eq_true, if_false, Option.getD_some,
      huser, hc1, hc2, if_true]
    cases env.mailError <;> rfl
  have hreply : AuthController.ForgotPasswordEmail st env (some email) q1 =
      AuthController.ForgotPasswordEmail st env (some email) q2 := by
    unfold AuthController.ForgotPasswordEmail
    rw [hresult]
  refine ⟨hresult, hreply, by rw [hreply], ?_, ?_, ?_⟩
  · intro hmail
    simp only [ForgotPasswordEmail, hm, Bool.false_eq_true, if_false, Option.getD_some,
      huser, hc1, if_true, hmail]
  · simp only [ForgotPasswordEmail, hm, Bool.false_eq_true, if_false, Option.getD_some,
      huser, hc1, if_true]
    cases env.mailError <;> rfl
  · simp only [ForgotPasswordEmail, hm, Bool.false_eq_true, if_false, Option.getD_some,
      huser, hc2]
    cases env.mailError <;> rfl

/-- C20, at a concrete store: for `alice`, the known visitor `v1` and the foreign
visitor `v2` receive the same payload and the status 200, while the mails differ. -/
theorem forgotPassword_same_response_witness :
    AuthController.ForgotPasswordEmail twoVisitorStore sampleEnv (some "a@x.com") "v1" =
      .sent 200 none { message := msgResetLinkSent, username := "alice",
                       email := "a@x.com", uid := "uid-0" } ∧
    AuthController.ForgotPasswordEmail twoVisitorStore sampleEnv (some "a@x.com") "v1" =
      AuthController.ForgotPasswordEmail twoVisitorStore sampleEnv (some "a@x.com") "v2" ∧
    (ForgotPasswordEmail twoVisitorStore sampleEnv (some "a@x.com") "v1").2 ≠
      (ForgotPasswordEmail twoVisitorStore sampleEnv (some "a@x.com") "v2").2 :=
  ⟨by decide,
   (forgotPassword_same_response twoVisitorStore sampleEnv "a@x.com" alice "v1" "v2"
      (by decide) (by decide) (by decide) (by decide)).2.1,
   by decide⟩

/-! ## Which operations add users -/

/-- With pairwise different `_id`s, saving a document that keeps the `_id` and the
email of a stored document leaves the list of emails as it was. -/
theorem User.save_emails {users : List User} {old user : User}
    (hids : (users.map (fun u => u._id)).Nodup) (hold : old ∈ users)
    (hid : user._id = old._id) (hmail : user.email = old.email) :
    (User.save users user).map (fun u => u.email) = users.map (fun u => u.email) := by
  unfold User.save
  rw [List.map_map]
  apply List.map_congr_left
  intro v hv
  simp only [Function.comp]
  by_cases h : (v._id == user._id) = true
  · have hv2 : v._id = old._id := by
      have : v._id = user._id := by simpa using h
      rw [this, hid]
    have hvo : v = old := List.inj_on_of_nodup_map hids hv hold hv2
    simp only [h, if_true]
    rw [hvo, hmail]
  · simp only [Bool.not_eq_true] at h
    simp only [h, Bool.false_eq_true, if_false]

/-- The document found by an email is a document of the store. -/
theorem User.findByEmail_mem {users : List User} {email : String} {user : User}
    (h : User.findByEmail users email = some user) : user ∈ users :=
  List.mem_of_find?_eq_some h

/-- The document found by a uid is a document of the store. -/
theorem User.findByUid_mem {users : List User} {uid : String} {user : User}
    (h : User.findByUid users uid = some user) : user ∈ users :=
  List.mem_of_find?_eq_some h

/-- The emails of the store are untouched by `registerUserWithOTP`. -/
theorem registerUserWithOTP_emails (st : Store) (env : Env)
    (username email password query : String) :
    (registerUserWithOTP st env username email password query).2.users = st.users := by
  unfold registerUserWithOTP
  dsimp only
  repeat' split
  all_goals rfl

/-- The emails of the store are untouched by `loginUser`. -/
theorem loginUser_emails (st : Store) (env : Env) (query email password : String)
    (hids : (st.users.map (fun u => u._id)).Nodup) :
    (loginUser st env query email password).2.users.map (fun u => u.email) =
      st.users.map (fun u => u.email) := by
  unfold loginUser
  dsimp only
  repeat' split
  all_goals first
    | rfl
    | (dsimp only
       exact @User.save_emails st.users ‹User› _ hids
         (User.findByEmail_mem (by assumption)) rfl rfl)

/-- The emails of the store are untouched by `verifyOTPAndLoginUser`. -/
theorem verifyOTPAndLoginUser_emails (st : Store) (env : Env) (otpId : String)
    (otpCode : Option String) (hids : (st.users.map (fun u => u._id)).Nodup) :
    (verifyOTPAndLoginUser st env otpId otpCode).2.users.map (fun u => u.email) =
      st.users.map (fun u => u.email) := by
  unfold verifyOTPAndLoginUser
  dsimp only
  repeat' split
  all_goals first
    | rfl
    | (dsimp only
       exact @User.save_emails st.users ‹User› _ hids
         (User.findByEmail_mem (by assumption)) rfl rfl)

/-- The emails of the store are untouched by `verifyLoginUser`. -/
theorem verifyLoginUser_emails (st : Store) (env : Env) (query email password : String)
    (hids : (st.users.map (fun u => u._id)).Nodup) :
    (verifyLoginUser st env query email password).2.users.map (fun u => u.email) =
      st.users.map (fun u => u.email) := by
  unfold verifyLoginUser
  dsimp only
  repeat' split
  all_goals first
    | rfl
    | (dsimp only
       exact @User.save_emails st.users ‹User› _ hids
         (User.findByEmail_mem (by assumption)) rfl rfl)

/-- The emails of the store are untouched by `changePassword`. -/
theorem changePassword_emails (st : Store) (env : Env) (uid password : Option String)
    (hids : (st.users.map (fun u => u._id)).Nodup) :
    (changePassword st env uid password).2.users.map (fun u => u.email) =
      st.users.map (fun u => u.email) := by
  unfold changePassword
  dsimp only
  repeat' split
  all_goals first
    | rfl
    | (dsimp only
       exact @User.save_emails st.users ‹User› _ hids
         (User.findByUid_mem (by assumption)) rfl rfl)

/-- A created document is appended to the store. -/
theorem User.create_appends {users created : List User} {doc : User}
    (h : User.create users doc = some created) : created = users ++ [doc] := by
  unfold User.create at h
  repeat' split at h
  all_goals first
    | simp only [reduceCtorEq] at h
    | skip
  simp only [Option.some.injEq] at h
  exact h.symm

/-- The users left by `verifyOTPAndCreateUser`, whatever its outcome: the emails of
the store are as they were, or the email of the challenge, which no stored user
had, is added at the end. -/
theorem verifyOTPAndCreateUser_emails (st : Store) (env : Env) (otpId : String)
    (otpCode : Option String) (hids : (st.users.map (fun u => u._id)).Nodup) :
    (verifyOTPAndCreateUser st env otpId otpCode).2.users.map (fun u => u.email) =
        st.users.map (fun u => u.email) ∨
    ∃ otpObj, OTP.findOne st.otps otpId = some otpObj ∧
      User.findByEmail st.users otpObj.email = none ∧
      (verifyOTPAndCreateUser st env otpId otpCode).2.users.map (fun u => u.email) =
        st.users.map (fun u => u.email) ++ [otpObj.email] := by
  cases hotp : checkOtp st.otps env.now otpId otpCode with
  | error msg => left; simp only [verifyOTPAndCreateUser, hotp]
  | ok otpObj =>
    cases hd : Defaults.findOne st.defaults "Role" with
    | none => left; simp only [verifyOTPAndCreateUser, hotp, hd]
    | some defaults =>
      cases hv : Visitor.findById st.visitors otpObj.query with
      | none => left; simp only [verifyOTPAndCreateUser, hotp, hd, hv]
      | some visitor =>
        cases hu : User.findByEmail st.users otpObj.email with
        | some user =>
          left
          have hsave := @User.save_emails st.users user
            { user with
              username := otpObj.username, password := otpObj.password,
              access := { active := true, suspend := false },
              subscribed := true, firstLogin := false,
              lastLoginAt := some env.now, uid := env.uuid }
            hids (User.findByEmail_mem hu) rfl rfl
          simp only [verifyOTPAndCreateUser, hotp, hd, hv, hu]
          repeat' split
          all_goals exact hsave
        | none =>
          cases hc : User.create st.users
              { _id := env.objectId, username := otpObj.username, email := otpObj.email,
                password := otpObj.password, query := [visitor._id],
                role := defaults.roleId, uid := env.defaultUid, g_uid := none,
                profile_pic := some defaultProfilePic, timeAdded := some env.now,
                theme := true, firstLogin := true, googleAuth := false,
                subscribed := true, lastLoginAt := none,
                access := { active := true, suspend := false }, refreshTokens := [] } with
          | none =>
            left
            simp only [verifyOTPAndCreateUser, hotp, hd, hv, hu, hc, Option.map_none']
          | some created =>
            right
            have hce := User.create_appends hc
            subst hce
            refine ⟨otpObj, (checkOtp_ok hotp).1, hu, ?_⟩
            simp only [verifyOTPAndCreateUser, hotp, hd, hv, hu, hc, Option.map_some']
            repeat' split
            all_goals simp

/-- The users left by `googleAuth`, whatever its outcome: the emails of the store are
as they were, or the email of the request, which no stored user had, is added at the
end. -/
theorem googleAuth_emails (st : Store) (env : Env) (username : String)
    (email uid profile_pic : Option String) (query : String)
    (hids : (st.users.map (fun u => u._id)).Nodup) :
    (googleAuth st env username email uid profile_pic query).2.users.map
        (fun u => u.email) = st.users.map (fun u => u.email) ∨
    (User.findByEmail st.users (email.getD "") = none ∧
      (googleAuth st env username email uid profile_pic query).2.users.map
        (fun u => u.email) = st.users.map (fun u => u.email) ++ [email.getD ""]) := by
  cases hv : Visitor.findById st.visitors query with
  | none => left; simp only [googleAuth, hv]
  | some visitor =>
    cases hm : (isMissing uid || isMissing email) with
    | true => left; simp only [googleAuth, hv, hm, if_true]
    | false =>
      cases hu : User.findByEmail st.users (email.getD "") with
      | some user =>
        left
        by_cases hval : (if !user.access.active then username else user.username) = "" ∨
            user.email = "" ∨ user.password = ""
        · simp only [googleAuth, hv, hm, hu, Bool.false_eq_true, if_false, hval, if_true]
        · simp only [googleAuth, hv, hm, hu, Bool.false_eq_true, if_false, hval]
          repeat' split
          all_goals
            exact @User.save_emails st.users user _ hids (User.findByEmail_mem hu) rfl rfl
      | none =>
        cases hd : Defaults.findOne st.defaults "Role" with
        | none =>
          left
          simp only [googleAuth, hv, hm, hu, hd, Bool.false_eq_true, if_false]
        | some defaults =>
          cases hc : User.create st.users
              { _id := env.objectId, username := username, email := email.getD "",
                password := googlePasswordHash, query := [query],
                role := defaults.roleId, uid := env.defaultUid, g_uid := uid,
                profile_pic := profile_pic, timeAdded := some env.now,
                theme := true, firstLogin := true, googleAuth := true,
                subscribed := true, lastLoginAt := none,
                access := { active := true, suspend := false }, refreshTokens := [] } with
          | none =>
            left
            simp only [googleAuth, hv, hm, hu, hd, hc, Bool.false_eq_true, if_false]
          | some created =>
            right
            have hce := User.create_appends hc
            subst hce
            refine ⟨rfl, ?_⟩
            simp only [googleAuth, hv, hm, hu, hd, hc, Bool.false_eq_true, if_false]
            repeat' split
            all_goals simp

/-- C21, as stated, fails: `googleAuth` is not an operation that leaves the user
emails unchanged. In the sample store, which has no user with the email `new@x.com`,
a Google sign-in with that email succeeds and leaves a store with a second user,
who carries that email and the constant password hash of Google accounts. -/
theorem googleAuth_adds_user_counterexample :
    ¬ (∀ (st : Store) (env : Env) (username : String)
        (email uid profile_pic : Option String) (query : String),
        (st.users.map (fun u => u._id)).Nodup →
        (googleAuth st env username email uid profile_pic query).2.users.map
          (fun u => u.email) = st.users.map (fun u => u.email)) ∧
    sampleStore.users.map (fun u => u.email) = ["a@x.com"] ∧
    (googleAuth sampleStore sampleEnv "newbie" (some "new@x.com") (some "g-1") none
        "v1").1.map (fun s => s.user.email) = .ok "new@x.com" ∧
    (googleAuth sampleStore sampleEnv "newbie" (some "new@x.com") (some "g-1") none
        "v1").2.users.map (fun u => (u.email, u.password)) =
      [("a@x.com", "hash:Secret1!"), ("new@x.com", googlePasswordHash)] := by
  refine ⟨?_, by decide, by decide, by decide⟩
  intro h
  have h1 := h sampleStore sampleEnv "newbie" (some "new@x.com") (some "g-1") none "v1"
    (by decide)
  revert h1
  decide

/-- C21, amended: among the operations of the auth service, `verifyOTPAndCreateUser`
and `googleAuth` are the only ones that can add a user record to the user store.
In a store whose users have pairwise different `_id`s, and whatever the outcome of
the call: `registerUserWithOTP`, `loginUser`, `verifyOTPAndLoginUser`,
`changePassword` and `verifyLoginUser` leave the list of user emails as it was
(`ForgotPasswordEmail` writes nothing at all and returns no store);
`verifyOTPAndCreateUser` and `googleAuth` leave it as it was or add, at the end,
one email that no stored user had: the email of the challenge, respectively of the
request. -/
theorem only_verification_and_google_add_users (st : Store) (env : Env)
    (hids : (st.users.map (fun u => u._id)).Nodup) :
    (∀ username email password query,
      (registerUserWithOTP st env username email password query).2.users.map
        (fun u => u.email) = st.users.map (fun u => u.email)) ∧
    (∀ query email password,
      (loginUser st env query email password).2.users.map (fun u => u.email) =
        st.users.map (fun u => u.email)) ∧
    (∀ otpId otpCode,
      (verifyOTPAndLoginUser st env otpId otpCode).2.users.map (fun u => u.email) =
        st.users.map (fun u => u.email)) ∧
    (∀ uid password,
      (changePassword st env uid password).2.users.map (fun u => u.email) =
        st.users.map (fun u => u.email)) ∧
    (∀ query email password,
      (verifyLoginUser st env query email password).2.users.map (fun u => u.email) =
        st.users.map (fun u => u.email)) ∧
    (∀ otpId otpCode,
      (verifyOTPAndCreateUser st env otpId otpCode).2.users.map (fun u => u.email) =
          st.users.map (fun u => u.email) ∨
      ∃ otpObj, OTP.findOne st.otps otpId = some otpObj ∧
        User.findByEmail st.users otpObj.email = none ∧
        (verifyOTPAndCreateUser st env otpId otpCode).2.users.map (fun u => u.email) =
          st.users.map (fun u => u.email) ++ [otpObj.email]) ∧
    (∀ username email uid profile_pic query,
      (googleAuth st env username email uid profile_pic query).2.users.map
          (fun u => u.email) = st.users.map (fun u => u.email) ∨
      (User.findByEmail st.users (email.getD "") = none ∧
        (googleAuth st env username email uid profile_pic query).2.users.map
          (fun u => u.email) = st.users.map (fun u => u.email) ++ [email.getD ""])) := by
  refine ⟨?_, ?_, ?_, ?_, ?_, ?_, ?_⟩
  · intro username email password query
    rw [registerUserWithOTP_emails]
  · intro query email password
    exact loginUser_emails st env query email password hids
  · intro otpId otpCode
    exact verifyOTPAndLoginUser_emails st env otpId otpCode hids
  · intro uid password
    exact changePassword_emails st env uid password hids
  · intro query email password
    exact verifyLoginUser_emails st env query email password hids
  · intro otpId otpCode
    exact verifyOTPAndCreateUser_emails st env otpId otpCode hids
  · intro username email uid profile_pic query
    exact googleAuth_emails st env username email uid profile_pic query hids

/-- C21 amended, at the sample store: the login of `alice` leaves the emails as they
were, and the Google sign-in of `new@x.com` adds that email. -/
theorem only_verification_and_google_add_users_witness :
    (sampleStore.users.map (fun u => u._id)).Nodup ∧
    (loginUser sampleStore sampleEnv "v1" "a@x.com" "Secret1!").2.users.map
        (fun u => u.email) = ["a@x.com"] ∧
    ((googleAuth sampleStore sampleEnv "newbie" (some "new@x.com") (some "g-1") none
          "v1").2.users.map (fun u => u.email) = ["a@x.com"] ∨
      (User.findByEmail sampleStore.users "new@x.com" = none ∧
        (googleAuth sampleStore sampleEnv "newbie" (some "new@x.com") (some "g-1") none
          "v1").2.users.map (fun u => u.email) = ["a@x.com"] ++ ["new@x.com"])) :=
  ⟨by decide,
   (only_verification_and_google_add_users sampleStore sampleEnv (by decide)).2.1
     "v1" "a@x.com" "Secret1!",
   (only_verification_and_google_add_users sampleStore sampleEnv (by decide)).2.2.2.2.2.2
     "newbie" (some "new@x.com") (some "g-1") none "v1"⟩

/-! ## The response of the issuing operations -/

/-- The digits of a number, pushed on a non-empty accumulator, are not empty. -/
theorem toDigitsCore_ne_nil (b : Nat) : ∀ (fuel n : Nat) (ds : List Char), ds ≠ [] →
    Nat.toDigitsCore b fuel n ds ≠ []
  | 0, _, ds, h => by simpa [Nat.toDigitsCore] using h
  | fuel + 1, n, ds, _ => by
    unfold Nat.toDigitsCore
    dsimp only
    split
    · exact List.cons_ne_nil _ _
    · exact toDigitsCore_ne_nil b fuel _ _ (List.cons_ne_nil _ _)

/-- The drawn code is never the empty string. -/
theorem otpCodeOf_ne_empty (env : Env) : otpCodeOf env ≠ "" := by
  show Nat.repr (100000 + env.random) ≠ ""
  unfold Nat.repr Nat.toDigits
  intro h
  have h2 := congrArg String.data h
  simp only [List.asString] at h2
  unfold Nat.toDigitsCore at h2
  dsimp only at h2
  split at h2
  · exact List.cons_ne_nil _ _ h2
  · exact toDigitsCore_ne_nil 10 _ _ _ (List.cons_ne_nil _ _) h2

/-- Whether `OTP.create` accepts a document does not depend on which non-empty code
the document carries. -/
theorem OTP.create_code_irrelevant (otps : List OTP) (doc : OTP) (c1 c2 : String)
    (h1 : c1 ≠ "") (h2 : c2 ≠ "") :
    (OTP.create otps { doc with otpCode := c1 }).isSome =
      (OTP.create otps { doc with otpCode := c2 }).isSome := by
  unfold OTP.create
  simp only [h1, h2, false_or]
  repeat' split
  all_goals rfl

/-- C22: the value returned to the caller by `registerUserWithOTP` and by `loginUser`
never contains the OTP code. For two runs that differ only in the code drawn (the
value of `Math.random`), the results returned or thrown are identical, and a returned
payload is made of the message, the username, the email and the `otpId` only. -/
theorem issued_payload_hides_code (st : Store) (env : Env) (random2 : Nat)
    (username email password query : String) :
    (registerUserWithOTP st { env with random := random2 } username email password
        query).1 = (registerUserWithOTP st env username email password query).1 ∧
    (loginUser st { env with random := random2 } query email password).1 =
      (loginUser st env query email password).1 ∧
    (∀ payload, (registerUserWithOTP st env username email password query).1 =
        .ok payload →
      payload = { message := msgOtpSent, username := username, email := email,
                  otpId := env.uuid }) ∧
    (∀ payload, (loginUser st env query email password).1 = .ok payload →
      ∃ user, User.findByEmail st.users email = some user ∧
        payload = { message := msgLoginOtpSent, username := user.username,
                    email := user.email, otpId := env.uuid }) := by
  refine ⟨?_, ?_, ?_, ?_⟩
  · unfold registerUserWithOTP
    dsimp only
    repeat' split
    all_goals rfl
  · cases hv : Visitor.findById st.visitors query with
    | none => simp only [loginUser, hv]
    | some visitor =>
      cases hu : User.findByEmail st.users email with
      | none => simp only [loginUser, hv, hu]
      | some user =>
        cases hcmp : env.compare password user.password with
        | false => simp only [loginUser, hv, hu, hcmp, Bool.not_false, if_true]
        | true =>
          have hsome := OTP.create_code_irrelevant (OTP.deleteMany st.otps email)
            { username := user.username, email := email, password := user.password,
              query := query, otpCode := "", otpId := env.uuid,
              expiresAt := env.now + 1 * 60 * 1000, verified := false }
            (otpCodeOf { env with random := random2 }) (otpCodeOf env)
            (otpCodeOf_ne_empty _) (otpCodeOf_ne_empty _)
          dsimp only at hsome
          simp only [loginUser, hv, hu, hcmp, Bool.not_true, Bool.false_eq_true, if_false]
          cases hc1 : OTP.create (OTP.deleteMany st.otps email)
              { username := user.username, email := email, password := user.password,
                query := query, otpCode := otpCodeOf { env with random := random2 },
                otpId := env.uuid, expiresAt := env.now + 1 * 60 * 1000,
                verified := false } <;>
            cases hc2 : OTP.create (OTP.deleteMany st.otps email)
              { username := user.username, email := email, password := user.password,
                query := query, otpCode := otpCodeOf env,
                otpId := env.uuid, expiresAt := env.now + 1 * 60 * 1000,
                verified := false } <;>
            rw [hc1, hc2] at hsome <;>
            simp only [Option.isSome_none, Option.isSome_some, reduceCtorEq] at hsome
          dsimp only
          split <;> rfl
  · intro payload h
    unfold registerUserWithOTP at h
    dsimp only at h
    repeat' (split at h <;> try dsimp only at h)
    all_goals first
      | simp only [reduceCtorEq] at h
      | (simp only [Except.ok.injEq] at h
         exact h.symm)
  · intro payload h
    unfold loginUser at h
    dsimp only at h
    repeat' (split at h <;> try dsimp only at h)
    all_goals first
      | simp only [reduceCtorEq] at h
      | (simp only [Except.ok.injEq] at h
         exact ⟨‹User›, by assumption, h.symm⟩)

/-! ## Removal of one refresh token -/

/-- C23: `removeRefreshToken(userId, t)` removes exactly the matching records. For
an existing user the call succeeds; the stored documents are, position by position,
the documents of before, with the document of `userId` replaced by the user with
the filtered record list; that list is the original one without the records whose
token equals `t`: a record is in it exactly when it was a record of the user with a
different token, and the kept records stand in their original order (a sublist);
every other field of the user is as before, and a lookup by any other `_id` finds
what it found before. For a non-existent user the call fails with the error of the
token service and returns no store. -/
theorem removeRefreshToken_exact (users : List User) (userId : ObjectId) (t : String) :
    (∀ user, User.findById users userId = some user →
      ∃ users1 user1, removeRefreshToken users userId t = .ok users1 ∧
        User.findById users1 userId = some user1 ∧
        user1 = { user with
          refreshTokens := user.refreshTokens.filter (fun rt => rt.token != t) } ∧
        (∀ rt, rt ∈ user1.refreshTokens ↔ rt ∈ user.refreshTokens ∧ rt.token ≠ t) ∧
        user1.refreshTokens.Sublist user.refreshTokens ∧
        users1 = users.map (fun v => if v._id == userId then user1 else v) ∧
        (∀ id, id ≠ userId → User.findById users1 id = User.findById users id) ∧
        (∀ v ∈ users, v._id ≠ userId → v ∈ users1)) ∧
    (User.findById users userId = none →
      removeRefreshToken users userId t = .error msgNoAccount) := by
  constructor
  · intro user hf
    have hid : user._id = userId := User.findById_id hf
    have hok : removeRefreshToken users userId t =
        .ok (User.save users { user with
          refreshTokens := user.refreshTokens.filter (fun rt => rt.token != t) }) := by
      simp only [removeRefreshToken, hf]
    refine ⟨_, _, hok, User.findById_save_self hf (by rfl), rfl, ?_, ?_, ?_, ?_, ?_⟩
    · intro rt
      simp [List.mem_filter]
    · exact List.filter_sublist _
    · unfold User.save
      dsimp only
      rw [hid]
    · intro id hne
      rw [User.findById_save]
      cases hfi : User.findById users id with
      | none => rfl
      | some v =>
        have hv : v._id = id := User.findById_id hfi
        have hne2 : v._id ≠ user._id := by
          rw [hv, hid]
          exact hne
        simp [hne2]
    · intro v hv hne
      unfold User.save
      rw [List.mem_map]
      refine ⟨v, hv, ?_⟩
      have hne2 : v._id ≠ user._id := by
        rw [hid]
        exact hne
      simp [hne2]
  · intro hf
    simp only [removeRefreshToken, hf]

/-- C23, at a concrete store: of the two records of `alice` only the one with the
token `T1` is removed, and the second user is found as before. -/
theorem removeRefreshToken_exact_witness :
    removeRefreshToken
        [{ alice with refreshTokens :=
            [{ token := "T1", createdAt := 0, expiresAt := 1000 },
             { token := "T2", createdAt := 1, expiresAt := 2000 }] },
         { twice with _id := "u9" }] "u1" "T1" =
      .ok [{ alice with refreshTokens :=
              [{ token := "T2", createdAt := 1, expiresAt := 2000 }] },
           { twice with _id := "u9" }] ∧
    removeRefreshToken [alice] "u7" "T1" = .error msgNoAccount :=
  ⟨by decide, (removeRefreshToken_exact [alice] "u7" "T1").2 (by decide)⟩

/-! ## The challenge behind a returned `otpId` -/

/-- When the document of `registerUserWithOTP` passes the schema (no required string
is empty, the drawn `otpId` is not taken), a returned payload is backed by the
stored challenge: it holds the pending username, the password hash and the visitor
reference, and expires 60 seconds after the call. -/
theorem registerUserWithOTP_ok_stored {st : Store} {env : Env}
    {username email password query : String} {payload : OtpIssued}
    (husername : username ≠ "") (hemail : email ≠ "") (hhash : env.hash password ≠ "")
    (hquery : query ≠ "") (huuid : env.uuid ≠ "")
    (hfresh : ∀ o ∈ st.otps, o.otpId ≠ env.uuid)
    (h : (registerUserWithOTP st env username email password query).1 = .ok payload) :
    ({ username := username, email := email, password := env.hash password,
       query := query, otpCode := otpCodeOf env, otpId := payload.otpId,
       expiresAt := env.now + 60 * 1000, verified := false } : OTP) ∈
      (registerUserWithOTP st env username email password query).2.otps := by
  have hid := registerUserWithOTP_ok_otpId h
  rw [hid]
  have hnone : (OTP.deleteMany st.otps email).any (fun o => o.otpId == env.uuid) = false := by
    rw [List.any_eq_false]
    intro o ho
    have hmem : o ∈ st.otps := (List.mem_filter.mp ho).1
    simpa using hfresh o hmem
  have hcreate : OTP.create (OTP.deleteMany st.otps email)
      { username := username, email := email, password := env.hash password,
        query := query, otpCode := otpCodeOf env, otpId := env.uuid,
        expiresAt := env.now + 60 * 1000, verified := false } =
      some (OTP.deleteMany st.otps email ++
        [{ username := username, email := email, password := env.hash password,
           query := query, otpCode := otpCodeOf env, otpId := env.uuid,
           expiresAt := env.now + 60 * 1000, verified := false }]) := by
    unfold OTP.create
    simp only [husername, hemail, hhash, hquery, huuid, otpCodeOf_ne_empty env, or_self,
      if_false, hnone, Bool.false_eq_true]
  cases hd : Defaults.findOne st.defaults "Role" with
  | none => simp [registerUserWithOTP, hd] at h
  | some defaults =>
    simp only [registerUserWithOTP, hd, hcreate]
    split <;> exact List.mem_append_right _ (List.mem_singleton_self _)

/-- C24, evaluated on the code: `registerUserWithOTP` returns an `otpId` for which no
challenge was stored. A signup request with an empty username is refused by the
schema of the OTP store (`username` is required); the refusal is caught and logged,
and the call still returns the payload with the id `uuid-1`, while the store holds
no challenge with that id. When the drawn id is already taken by the challenge of
another email, the payload is returned as well and the challenge with that id holds
the data of the other request. In the same situation the sibling `loginUser`, which
has no such catch, fails with the error of the store. -/
theorem registerUserWithOTP_returns_unstored_otpId :
    registerUserWithOTP sampleStore sampleEnv "" "b@x.com" "Secret1!" "v1" =
      (.ok { message := msgOtpSent, username := "", email := "b@x.com",
             otpId := "uuid-1" }, sampleStore) ∧
    OTP.findOne sampleStore.otps "uuid-1" = none ∧
    registerUserWithOTP clashStore sampleEnv "bob" "b@x.com" "Secret1!" "v1" =
      (.ok { message := msgOtpSent, username := "bob", email := "b@x.com",
             otpId := "uuid-1" }, clashStore) ∧
    (OTP.findOne clashStore.otps "uuid-1").map (fun o => (o.username, o.email)) =
      some ("alice", "z@x.com") ∧
    (loginUser clashStore sampleEnv "v1" "a@x.com" "Secret1!").1 =
      .error msgStoreRefused := by
  refine ⟨by decide, by decide, by decide, by decide, by decide⟩

/-! ## Account status at the verification of a login -/

/-- C25, as stated, fails: `alice` is suspended (the gate `checkAccess` of the login
route answers 403 for her) and her challenge `otp-1` is pending; the verification
with the correct code before the expiry returns an access token and a refresh
token. -/
theorem verifyOTPAndLoginUser_suspended_counterexample :
    (User.findByEmail suspendedPendingStore.users "a@x.com").map (fun u => u.access) =
      some { active := true, suspend := true } ∧
    checkAccess suspendedPendingStore.users (some "a@x.com") =
      .respond 403 { status := false, verify := true, refresh := false,
                     message := msgSuspended } ∧
    (verifyOTPAndLoginUser suspendedPendingStore sampleEnv "otp-1"
        (some "123456")).1.map (fun s => (s.accessToken, s.refreshToken)) =
      .ok ("A-u1", "R-u1") := by
  refine ⟨by decide, by decide, by decide⟩

/-- C25, amended: `verifyOTPAndLoginUser` issues an access token and a refresh token
for the account of the challenge whatever the access flags of that account are at
verification time. When the four checks of the challenge pass (correct code, not
expired), the visitor of the challenge is known, the user of its email exists, the
role of the user exists and the mail is accepted, the call returns the two tokens
signed for the user, and the stored user keeps the access flags it had. The flags
are read by the gate `checkAccess` when the challenge is requested, not here. -/
theorem verifyOTPAndLoginUser_ignores_access (st : Store) (env : Env) (otpId : String)
    (otpCode : Option String) (otpObj : OTP) (visitor : Visitor) (user : User)
    (roleData : Role)
    (hotp : checkOtp st.otps env.now otpId otpCode = .ok otpObj)
    (hvisitor : Visitor.findById st.visitors otpObj.query = some visitor)
    (huser : User.findByEmail st.users otpObj.email = some user)
    (hrole : Role.findById st.roles user.role = some roleData)
    (hmail : env.mailError = none) :
    ∃ s st1, verifyOTPAndLoginUser st env otpId otpCode = (.ok s, st1) ∧
      s.accessToken = env.signAccess user._id user.role ∧
      s.refreshToken = env.signRefresh user._id ∧
      ∃ stored, User.findByEmail st1.users otpObj.email = some stored ∧
        stored.access = user.access := by
  have hrole2 : Role.findById st.roles
      (loginUpdate user visitor._id env.now env.uuid).role = some roleData := by
    rw [loginUpdate_role]
    exact hrole
  have heq : verifyOTPAndLoginUser st env otpId otpCode =
      (.ok { message := some msgVerified,
             user := userObj st.modules (loginUpdate user visitor._id env.now env.uuid)
               roleData true,
             accessToken := env.signAccess user._id user.role,
             refreshToken := env.signRefresh user._id },
       { st with
         users := User.save st.users (loginUpdate user visitor._id env.now env.uuid),
         otps := OTP.deleteOne st.otps otpId }) := by
    simp only [verifyOTPAndLoginUser, hotp, hvisitor, huser, hrole2, hmail]
    rfl
  refine ⟨_, _, heq, rfl, rfl, loginUpdate user visitor._id env.now env.uuid, ?_, rfl⟩
  have hemail : user.email = otpObj.email := User.findByEmail_email huser
  exact User.findByEmail_save huser rfl hemail

/-- C25 amended, at the store in which `alice` is suspended: the verification of her
pending challenge returns the tokens signed for her. -/
theorem verifyOTPAndLoginUser_ignores_access_witness :
    ∃ s st1, verifyOTPAndLoginUser suspendedPendingStore sampleEnv "otp-1"
        (some "123456") = (.ok s, st1) ∧
      s.accessToken = "A-u1" ∧ s.refreshToken = "R-u1" ∧
      ∃ stored, User.findByEmail st1.users "a@x.com" = some stored ∧
        stored.access = { active := true, suspend := true } :=
  verifyOTPAndLoginUser_ignores_access suspendedPendingStore sampleEnv "otp-1"
    (some "123456") otpAlice visitorOne
    { alice with access := { active := true, suspend := true } } adminRole
    (by decide) (by decide) (by decide) (by decide) (by decide)

/-! ## Permission check -/

/-- The search finds `perm` exactly when `perm` is the first permission whose module
has the slug and is active, every permission before it referencing an existing
module. -/
theorem findPermission_found_iff (modules : List Module) (moduleSlug : String) :
    ∀ (permissions : List Permission) (perm : Permission),
      findPermission modules moduleSlug permissions = .found perm ↔
        FirstPermission modules moduleSlug permissions perm
  | [], perm => by
    constructor
    · intro h
      simp [findPermission] at h
    · rintro ⟨pre, post, h, _⟩
      simp at h
  | p :: rest, perm => by
    have ih := findPermission_found_iff modules moduleSlug rest perm
    unfold findPermission
    cases hm : Module.findById modules p.module with
    | none =>
      dsimp only
      constructor
      · intro h
        cases h
      · rintro ⟨pre, post, hsplit, hpre, m, hm2, _⟩
        cases pre with
        | nil =>
          simp only [List.nil_append, List.cons.injEq] at hsplit
          rw [← hsplit.1, hm] at hm2
          cases hm2
        | cons q pre2 =>
          simp only [List.cons_append, List.cons.injEq] at hsplit
          obtain ⟨m2, h2, _⟩ := hpre q (List.mem_cons_self _ _)
          rw [← hsplit.1, hm] at h2
          cases h2
    | some m =>
      dsimp only
      by_cases hc : (m.slug == moduleSlug && m.status.active == true) = true
      · simp only [hc, if_true]
        have hc2 : m.slug = moduleSlug ∧ m.status.active = true := by simpa using hc
        constructor
        · intro h
          have hp : p = perm := by
            injection h
          subst hp
          exact ⟨[], rest, rfl, by simp, m, hm, hc2.1, hc2.2⟩
        · rintro ⟨pre, post, hsplit, hpre, _⟩
          cases pre with
          | nil =>
            simp only [List.nil_append, List.cons.injEq] at hsplit
            rw [hsplit.1]
          | cons q pre2 =>
            simp only [List.cons_append, List.cons.injEq] at hsplit
            obtain ⟨m2, h2, hn⟩ := hpre q (List.mem_cons_self _ _)
            rw [← hsplit.1, hm] at h2
            simp only [Option.some.injEq] at h2
            subst h2
            exact absurd hc2 hn
      · have hc2 : ¬ (m.slug = moduleSlug ∧ m.status.active = true) := by
          simpa using hc
        simp only [hc, if_false, Bool.false_eq_true]
        rw [ih]
        constructor
        · rintro ⟨pre, post, hsplit, hpre, hmatch⟩
          refine ⟨p :: pre, post, by rw [hsplit]; rfl, ?_, hmatch⟩
          intro q hq
          rcases List.mem_cons.mp hq with hq | hq
          · subst hq
            exact ⟨m, hm, hc2⟩
          · exact hpre q hq
        · rintro ⟨pre, post, hsplit, hpre, m2, hm2, hs, ha⟩
          cases pre with
          | nil =>
            simp only [List.nil_append, List.cons.injEq] at hsplit
            rw [← hsplit.1, hm] at hm2
            simp only [Option.some.injEq] at hm2
            subst hm2
            exact absurd ⟨hs, ha⟩ hc2
          | cons q pre2 =>
            simp only [List.cons_append, List.cons.injEq] at hsplit
            exact ⟨pre2, post, hsplit.2,
              fun r hr => hpre r (List.mem_cons_of_mem _ hr), m2, hm2, hs, ha⟩

/-- The search does not throw when every permission references an existing module. -/
theorem findPermission_ne_threw (modules : List Module) (moduleSlug : String) :
    ∀ (permissions : List Permission),
      (∀ q ∈ permissions, (Module.findById modules q.module).isSome = true) →
      findPermission modules moduleSlug permissions ≠ .threw
  | [], _ => by simp [findPermission]
  | p :: rest, h => by
    have ih := findPermission_ne_threw modules moduleSlug rest
      (fun q hq => h q (List.mem_cons_of_mem _ hq))
    have hp := h p (List.mem_cons_self _ _)
    unfold findPermission
    cases hm : Module.findById modules p.module with
    | none => simp [hm] at hp
    | some m =>
      dsimp only
      split
      · simp
      · exact ih

/-- The first matching permission is a permission of the list. -/
theorem FirstPermission.mem {modules : List Module} {moduleSlug : String}
    {permissions : List Permission} {perm : Permission}
    (h : FirstPermission modules moduleSlug permissions perm) : perm ∈ permissions := by
  obtain ⟨pre, post, hsplit, _⟩ := h
  rw [hsplit]
  simp

/-- The middleware on a request whose `uid` identifies a user with an existing role:
the answer is decided by the search among the permissions of the role. -/
theorem checkPermission_of_role {st : Store} {moduleSlug action : String}
    {uid : Option String} {user : User} {role : Role}
    (huid : isMissing uid = false)
    (huser : User.findByUid st.users (uid.getD "") = some user)
    (hrole : Role.findById st.roles user.role = some role) :
    checkPermission st moduleSlug action uid =
      match findPermission st.modules moduleSlug role.permissions with
      | .threw =>
        .respond 500 { status := false, verify := false, refresh := false,
                       message := msgInternal }
      | .absent =>
        .respond 403 { status := false, verify := false, refresh := false,
                       message := msgNoModulePermission moduleSlug }
      | .found permission =>
        if !actionAllowed permission.actions action then
          .respond 403 { status := false, verify := false, refresh := false,
                         message := msgNoActionPermission action }
        else .next := by
  simp only [checkPermission, huid, huser, hrole, Bool.false_eq_true, if_false]

/-- C26, as stated, fails: the role of `alice` holds two permissions on the active
module `_users_`, the first without and the second with the action `get`. A
permission as the claim asks for exists, yet the middleware, which reads only the
first permission of the module, answers 403. -/
theorem checkPermission_first_match_counterexample :
    checkPermission doubleStore "_users_" "get" (some "uid-0") =
      .respond 403 { status := false, verify := false, refresh := false,
                     message := msgNoActionPermission "get" } ∧
    ∃ user role perm m,
      User.findByUid doubleStore.users "uid-0" = some user ∧
      Role.findById doubleStore.roles user.role = some role ∧
      perm ∈ role.permissions ∧
      Module.findById doubleStore.modules perm.module = some m ∧
      m.slug = "_users_" ∧ m.status.active = true ∧
      actionAllowed perm.actions "get" = true :=
  ⟨by decide, alice, doubleRole, { module := "m1", actions := readOnly }, moduleUsers,
   by decide, by decide, by decide, by decide, by decide, by decide, by decide⟩

/-- The middleware where a permission of the role references a module that is not in
the store: the permission on `_reports_` of the sample role stands behind one whose
module was deleted, and the request is answered 500. -/
theorem checkPermission_deleted_module :
    checkPermission sampleStore "_reports_" "get" (some "uid-0") =
      .respond 500 { status := false, verify := false, refresh := false,
                     message := msgInternal } := by
  decide

/-- C26, amended: `checkPermission(moduleSlug, action)` on the `uid` header.
Whenever it calls `next`, the `uid` identifies a user whose role contains a
permission referencing an existing module with that slug and `status.active = true`
whose `actions[action]` is true, so access is never granted through an inactive
module. Without a `uid` it answers 401; for an unknown `uid` or a user whose role
does not exist it answers 403. For a user with an existing role all of whose
permissions reference existing modules, it calls `next` if and only if the first
permission of the role, in order, whose module has the slug and is active has
`actions[action]` true, and in every other case it answers 403. -/
theorem checkPermission_decision (st : Store) (moduleSlug action : String)
    (uid : Option String) :
    (checkPermission st moduleSlug action uid = .next →
      ∃ user role perm m, isMissing uid = false ∧
        User.findByUid st.users (uid.getD "") = some user ∧
        Role.findById st.roles user.role = some role ∧
        perm ∈ role.permissions ∧
        Module.findById st.modules perm.module = some m ∧
        m.slug = moduleSlug ∧ m.status.active = true ∧
        actionAllowed perm.actions action = true) ∧
    (isMissing uid = true →
      checkPermission st moduleSlug action uid =
        .respond 401 { status := false, verify := false, refresh := false,
                       message := msgNoUid }) ∧
    (isMissing uid = false → User.findByUid st.users (uid.getD "") = none →
      checkPermission st moduleSlug action uid =
        .respond 403 { status := false, verify := false, refresh := false,
                       message := msgUserNotFound }) ∧
    (∀ user, isMissing uid = false →
      User.findByUid st.users (uid.getD "") = some user →
      Role.findById st.roles user.role = none →
      checkPermission st moduleSlug action uid =
        .respond 403 { status := false, verify := false, refresh := false,
                       message := msgRoleNotFoundShort }) ∧
    (∀ user role, isMissing uid = false →
      User.findByUid st.users (uid.getD "") = some user →
      Role.findById st.roles user.role = some role →
      (∀ q ∈ role.permissions, (Module.findById st.modules q.module).isSome = true) →
      (checkPermission st moduleSlug action uid = .next ↔
        ∃ perm, FirstPermission st.modules moduleSlug role.permissions perm ∧
          actionAllowed perm.actions action = true) ∧
      (checkPermission st moduleSlug action uid ≠ .next →
        ∃ body, checkPermission st moduleSlug action uid = .respond 403 body)) := by
  refine ⟨?_, ?_, ?_, ?_, ?_⟩
  · intro h
    cases huid : isMissing uid with
    | true => simp [checkPermission, huid] at h
    | false =>
      cases huser : User.findByUid st.users (uid.getD "") with
      | none => simp [checkPermission, huid, huser] at h
      | some user =>
        cases hrole : Role.findById st.roles user.role with
        | none => simp [checkPermission, huid, huser, hrole] at h
        | some role =>
          rw [checkPermission_of_role huid huser hrole] at h
          cases hfp : findPermission st.modules moduleSlug role.permissions with
          | threw => simp [hfp] at h
          | absent => simp [hfp] at h
          | found perm =>
            have hfirst := (findPermission_found_iff _ _ _ _).mp hfp
            have hmem := hfirst.mem
            obtain ⟨_, _, _, _, m, hm, hs, ha⟩ := hfirst
            have hact : actionAllowed perm.actions action = true := by
              cases hact : actionAllowed perm.actions action with
              | true => rfl
              | false => simp [hfp, hact] at h
            exact ⟨user, role, perm, m, rfl, rfl, hrole, hmem, hm, hs, ha, hact⟩
  · intro huid
    simp only [checkPermission, huid, if_true]
  · intro huid huser
    simp only [checkPermission, huid, huser, Bool.false_eq_true, if_false]
  · intro user huid huser hrole
    simp only [checkPermission, huid, huser, hrole, Bool.false_eq_true, if_false]
  · intro user role huid huser hrole hexist
    have hcp := @checkPermission_of_role st moduleSlug action uid user role huid huser
      hrole
    have hthrew := findPermission_ne_threw st.modules moduleSlug role.permissions hexist
    cases hfp : findPermission st.modules moduleSlug role.permissions with
    | threw => exact absurd hfp hthrew
    | absent =>
      rw [hfp] at hcp
      dsimp only at hcp
      rw [hcp]
      refine ⟨⟨fun h => (by cases h), ?_⟩, fun _ => ⟨_, rfl⟩⟩
      rintro ⟨perm, hfirst, _⟩
      rw [← findPermission_found_iff, hfp] at hfirst
      cases hfirst
    | found perm =>
      rw [hfp] at hcp
      dsimp only at hcp
      cases hact : actionAllowed perm.actions action with
      | false =>
        simp only [hact, Bool.not_false, if_true] at hcp
        rw [hcp]
        refine ⟨⟨fun h => (by cases h), ?_⟩, fun _ => ⟨_, rfl⟩⟩
        rintro ⟨perm2, hfirst, hact2⟩
        rw [← findPermission_found_iff, hfp] at hfirst
        injection hfirst with hsame
        rw [← hsame, hact] at hact2
        cases hact2
      | true =>
        simp only [hact, Bool.not_true, Bool.false_eq_true, if_false] at hcp
        rw [hcp]
        exact ⟨⟨fun _ => ⟨perm, (findPermission_found_iff _ _ _ _).mp hfp, hact⟩,
          fun _ => rfl⟩, fun h => absurd rfl h⟩

/-- C26 amended, at the sample store: `alice`, whose role may `get` the active module
`_users_`, passes for `get`; a request without `uid` is answered 401. -/
theorem checkPermission_decision_witness :
    checkPermission sampleStore "_users_" "get" (some "uid-0") = .next ∧
    (∃ user role perm m, isMissing (some "uid-0") = false ∧
      User.findByUid sampleStore.users ((some "uid-0").getD "") = some user ∧
      Role.findById sampleStore.roles user.role = some role ∧
      perm ∈ role.permissions ∧
      Module.findById sampleStore.modules perm.module = some m ∧
      m.slug = "_users_" ∧ m.status.active = true ∧
      actionAllowed perm.actions "get" = true) ∧
    checkPermission sampleStore "_users_" "get" none =
      .respond 401 { status := false, verify := false, refresh := false,
                     message := msgNoUid } :=
  ⟨by decide,
   (checkPermission_decision sampleStore "_users_" "get" (some "uid-0")).1 (by decide),
   (checkPermission_decision sampleStore "_users_" "get" none).2.1 (by decide)⟩

/-! ## The user committed by a signup verification -/

/-- A lookup by another `_id` than that of the saved document finds what it found
before the save. -/
theorem User.findById_save_other (users : List User) (user : User) (id : ObjectId)
    (hne : id ≠ user._id) :
    User.findById (User.save users user) id = User.findById users id := by
  rw [User.findById_save]
  cases hf : User.findById users id with
  | none => rfl
  | some v =>
    have hv : v._id = id := User.findById_id hf
    have hne2 : v._id ≠ user._id := by
      rw [hv]
      exact hne
    simp [hne2]

/-- C27: on a successful `verifyOTPAndCreateUser`, with the challenge `otpObj` found
by the `otpId` and the Defaults record of category `Role`: if a user with the email
of the challenge exists, the documents of the store are as before except that the
documents with the `_id` of that user are replaced by the user with the username and
the password hash of the challenge, `access = {active: true, suspend: false}` and
`firstLogin = false`, and a lookup by any other `_id` finds what it found before;
if none exists, the store is the one of before with exactly one document added,
which has the username, email and password hash of the challenge and the role of
the Defaults record. -/
theorem verifyOTPAndCreateUser_commit (st st1 : Store) (env : Env) (otpId : String)
    (otpCode : Option String) (s : Session)
    (h : verifyOTPAndCreateUser st env otpId otpCode = (.ok s, st1)) :
    ∃ otpObj defaults, OTP.findOne st.otps otpId = some otpObj ∧
      Defaults.findOne st.defaults "Role" = some defaults ∧
      ((∃ before after, User.findByEmail st.users otpObj.email = some before ∧
          User.findByEmail st1.users otpObj.email = some after ∧
          after.username = otpObj.username ∧ after.password = otpObj.password ∧
          after.access = { active := true, suspend := false } ∧
          after.firstLogin = false ∧
          after._id = before._id ∧ after.email = before.email ∧
          st1.users = st.users.map (fun v => if v._id == before._id then after else v) ∧
          (∀ id, id ≠ before._id →
            User.findById st1.users id = User.findById st.users id)) ∨
       (User.findByEmail st.users otpObj.email = none ∧
         ∃ created, st1.users = st.users ++ [created] ∧
           created.username = otpObj.username ∧ created.email = otpObj.email ∧
           created.password = otpObj.password ∧ created.role = defaults.roleId)) := by
  cases hotp : checkOtp st.otps env.now otpId otpCode with
  | error msg => simp [verifyOTPAndCreateUser, hotp] at h
  | ok otpObj =>
    cases hd : Defaults.findOne st.defaults "Role" with
    | none => simp [verifyOTPAndCreateUser, hotp, hd] at h
    | some defaults =>
      cases hv : Visitor.findById st.visitors otpObj.query with
      | none => simp [verifyOTPAndCreateUser, hotp, hd, hv] at h
      | some visitor =>
        refine ⟨otpObj, defaults, (checkOtp_ok hotp).1, rfl, ?_⟩
        cases hu : User.findByEmail st.users otpObj.email with
        | some user =>
          left
          have hemail : user.email = otpObj.email := User.findByEmail_email hu
          have husers : st1.users = User.save st.users
              { user with
                username := otpObj.username, password := otpObj.password,
                access := { active := true, suspend := false },
                subscribed := true, firstLogin := false,
                lastLoginAt := some env.now, uid := env.uuid } := by
            simp only [verifyOTPAndCreateUser, hotp, hd, hv, hu] at h
            repeat' (split at h <;> try dsimp only at h)
            all_goals first
              | (simp only [Prod.mk.injEq, reduceCtorEq, false_and] at h; done)
              | (simp only [Prod.mk.injEq] at h
                 rw [← h.2])
          refine ⟨user,
            { user with
              username := otpObj.username, password := otpObj.password,
              access := { active := true, suspend := false },
              subscribed := true, firstLogin := false,
              lastLoginAt := some env.now, uid := env.uuid },
            rfl, ?_, rfl, rfl, rfl, rfl, rfl, rfl, ?_, ?_⟩
          · rw [husers]
            exact User.findByEmail_save hu rfl hemail
          · rw [husers]
            rfl
          · intro id hne
            rw [husers]
            exact User.findById_save_other _ _ _ hne
        | none =>
          right
          refine ⟨rfl, ?_⟩
          cases hc : User.create st.users
              { _id := env.objectId, username := otpObj.username, email := otpObj.email,
                password := otpObj.password, query := [visitor._id],
                role := defaults.roleId, uid := env.defaultUid, g_uid := none,
                profile_pic := some defaultProfilePic, timeAdded := some env.now,
                theme := true, firstLogin := true, googleAuth := false,
                subscribed := true, lastLoginAt := none,
                access := { active := true, suspend := false }, refreshTokens := [] } with
          | none =>
            simp [verifyOTPAndCreateUser, hotp, hd, hv, hu, hc] at h
          | some created =>
            have hce := User.create_appends hc
            subst hce
            refine ⟨
              { _id := env.objectId, username := otpObj.username, email := otpObj.email,
                password := otpObj.password, query := [visitor._id],
                role := defaults.roleId, uid := env.defaultUid, g_uid := none,
                profile_pic := some defaultProfilePic, timeAdded := some env.now,
                theme := true, firstLogin := true, googleAuth := false,
                subscribed := true, lastLoginAt := none,
                access := { active := true, suspend := false }, refreshTokens := [] },
              ?_, rfl, rfl, rfl, rfl⟩
            simp only [verifyOTPAndCreateUser, hotp, hd, hv, hu, hc, Option.map_some'] at h
            repeat' (split at h <;> try dsimp only at h)
            all_goals first
              | (simp only [Prod.mk.injEq, reduceCtorEq, false_and] at h; done)
              | (simp only [Prod.mk.injEq] at h
                 rw [← h.2])

/-- C27, at a concrete store: the challenge for the email of `alice` carries the
username `alicia` and another password hash; after the verification the store holds
`alice` under her `_id` with these two values, and no other document. -/
theorem verifyOTPAndCreateUser_commit_witness :
    ∃ otpObj defaults, OTP.findOne renameStore.otps "otp-1" = some otpObj ∧
      Defaults.findOne renameStore.defaults "Role" = some defaults ∧
      ((∃ before after, User.findByEmail renameStore.users otpObj.email = some before ∧
          User.findByEmail [aliceRenamed] otpObj.email = some after ∧
          after.username = otpObj.username ∧ after.password = otpObj.password ∧
          after.access = { active := true, suspend := false } ∧
          after.firstLogin = false ∧
          after._id = before._id ∧ after.email = before.email ∧
          [aliceRenamed] =
            renameStore.users.map (fun v => if v._id == before._id then after else v) ∧
          (∀ id, id ≠ before._id →
            User.findById [aliceRenamed] id = User.findById renameStore.users id)) ∨
       (User.findByEmail renameStore.users otpObj.email = none ∧
         ∃ created, [aliceRenamed] = renameStore.users ++ [created] ∧
           created.username = otpObj.username ∧ created.email = otpObj.email ∧
           created.password = otpObj.password ∧ created.role = defaults.roleId)) :=
  verifyOTPAndCreateUser_commit renameStore
    { renameStore with users := [aliceRenamed], otps := [] } sampleEnv "otp-1"
    (some "123456")
    { message := some msgVerified,
      user := userObj sampleStore.modules aliceRenamed adminRole true,
      accessToken := "A-u1", refreshToken := "R-u1" }
    (by decide)

/-! ## Sweep of expired refresh tokens -/

/-- One pull of the sweep keeps, document by document, every record that expires
later than `now`. -/
theorem User.pullExpired_keeps (now : Nat) (id : ObjectId) :
    ∀ {users stored : List User},
      List.Forall₂ (fun (u v : User) => v._id = u._id ∧
        ∀ t ∈ u.refreshTokens, now < t.expiresAt → t ∈ v.refreshTokens) users stored →
      List.Forall₂ (fun (u v : User) => v._id = u._id ∧
        ∀ t ∈ u.refreshTokens, now < t.expiresAt → t ∈ v.refreshTokens) users
        (User.pullExpired stored id now)
  | _, _, .nil => by
    unfold User.pullExpired
    exact .nil
  | _, _, .cons (a := u) (b := v) huv hrest => by
    unfold User.pullExpired
    split
    · refine .cons ⟨huv.1, ?_⟩ hrest
      intro t ht hlate
      refine List.mem_filter.mpr ⟨huv.2 t ht hlate, ?_⟩
      simpa using hlate
    · exact .cons huv (User.pullExpired_keeps now id hrest)

/-- The pulls of the sweep, made for any list of loaded users, keep every record that
expires later than `now`. -/
theorem sweep_fold_keeps (now : Nat) (users : List User) :
    ∀ (found stored : List User),
      List.Forall₂ (fun (u v : User) => v._id = u._id ∧
        ∀ t ∈ u.refreshTokens, now < t.expiresAt → t ∈ v.refreshTokens) users stored →
      List.Forall₂ (fun (u v : User) => v._id = u._id ∧
        ∀ t ∈ u.refreshTokens, now < t.expiresAt → t ∈ v.refreshTokens) users
        (found.foldl
          (fun (stored : List User) (user : User) =>
            if (user.refreshTokens.filter (fun t => t.expiresAt ≤ now)).length = 0
            then stored
            else User.pullExpired stored user._id now)
          stored)
  | [], _, h => h
  | user :: rest, stored, h => by
    rw [List.foldl_cons]
    apply sweep_fold_keeps now users rest
    split
    · exact h
    · exact User.pullExpired_keeps now user._id h

/-- The sweep keeps every record that expires later than `now`: the documents after
the sweep stand, position by position, for the documents of before, and each holds
every record of its document whose `expiresAt` is later than `now`. -/
theorem sweepExpiredTokens_keeps (users : List User) (now : Nat) :
    List.Forall₂ (fun (u v : User) => v._id = u._id ∧
      ∀ t ∈ u.refreshTokens, now < t.expiresAt → t ∈ v.refreshTokens) users
      (sweepExpiredTokens users now) := by
  unfold sweepExpiredTokens
  dsimp only
  apply sweep_fold_keeps
  rw [List.forall₂_same]
  intro u _
  exact ⟨rfl, fun t ht _ => ht⟩

/-- C28, evaluated on the code: the record `T1` of `alice` has `expiresAt = 1000`. At
the instant 1000 the validity check, which rejects only `now > expiresAt`, still
accepts the token, and the sweep at that same instant, which pulls the records with
`expiresAt <= now`, removes the record; after the sweep the token is rejected. -/
theorem sweepExpiredTokens_removes_valid_record :
    isRefreshTokenValid [alice] "u1" "T1" 1000 = true ∧
    sweepExpiredTokens [alice] 1000 = [{ alice with refreshTokens := [] }] ∧
    isRefreshTokenValid (sweepExpiredTokens [alice] 1000) "u1" "T1" 1000 = false := by
  refine ⟨by decide, by decide, by decide⟩

/-! ## What a password change leaves as it was -/

/-- C29: a successful `changePassword`, in a store whose users have pairwise
different `_id`s, changes only the password hash and the `uid` of the user found by
the uid: the store after the call is the store of before with that document
replaced by the user with the new hash and the drawn uid, so the refresh-token
records, the access flags, the role and the visitor references of the user are as
before; `isRefreshTokenValid` answers afterwards what it answered before, for every
user, token and instant, so every refresh token that was valid is still accepted;
and a lookup by any other `_id` finds what it found before. -/
theorem changePassword_frame (st st1 : Store) (env : Env) (uid password : String)
    (r : Confirmation)
    (hids : (st.users.map (fun u => u._id)).Nodup)
    (h : changePassword st env (some uid) (some password) = (.ok r, st1)) :
    ∃ user after, User.findByUid st.users uid = some user ∧
      User.findById st.users user._id = some user ∧
      after = { user with password := env.hash password, uid := env.uuid } ∧
      User.findById st1.users user._id = some after ∧
      after.refreshTokens = user.refreshTokens ∧ after.access = user.access ∧
      after.role = user.role ∧ after.query = user.query ∧
      st1 = { st with
              users := st.users.map (fun v => if v._id == user._id then after else v) } ∧
      (∀ id t now,
        isRefreshTokenValid st1.users id t now = isRefreshTokenValid st.users id t now) ∧
      (∀ id, id ≠ user._id → User.findById st1.users id = User.findById st.users id) := by
  obtain ⟨_, _, _, user, huser, hst1⟩ := changePassword_ok h
  have hmem : user ∈ st.users := User.findByUid_mem huser
  have hfound : User.findById st.users user._id = some user :=
    find?_own_key (fun (u : User) => u._id) hids hmem
  have husers : st1.users = User.save st.users
      { user with password := env.hash password, uid := env.uuid } := by
    rw [hst1]
  refine ⟨user, _, huser, hfound, rfl, ?_, rfl, rfl, rfl, rfl, hst1, ?_, ?_⟩
  · rw [husers]
    exact User.findById_save_self hfound rfl
  · intro id t now
    unfold isRefreshTokenValid
    rw [husers, User.findById_save]
    cases hf : User.findById st.users id with
    | none => rfl
    | some v =>
      by_cases hv : v._id = user._id
      · have hvu : v = user :=
          List.inj_on_of_nodup_map hids (List.mem_of_find?_eq_some hf) hmem hv
        subst hvu
        simp
      · simp [hv]
  · intro id hne
    rw [husers]
    exact User.findById_save_other _ _ _ hne

/-- C29, at the sample store: `alice` changes her password at instant 100; her token
`T1` is accepted after the change as it was before. -/
theorem changePassword_frame_witness :
    (sampleStore.users.map (fun u => u._id)).Nodup ∧
    changePassword sampleStore sampleEnv (some "uid-0") (some "Newpass1!") =
      (.ok { message := msgPasswordUpdated }, changedStore) ∧
    isRefreshTokenValid sampleStore.users "u1" "T1" 100 = true ∧
    ∃ user after, User.findByUid sampleStore.users "uid-0" = some user ∧
      User.findById sampleStore.users user._id = some user ∧
      after = { user with password := sampleEnv.hash "Newpass1!",
                          uid := sampleEnv.uuid } ∧
      User.findById changedStore.users user._id = some after ∧
      after.refreshTokens = user.refreshTokens ∧ after.access = user.access ∧
      after.role = user.role ∧ after.query = user.query ∧
      changedStore = { sampleStore with
        users := sampleStore.users.map
          (fun v => if v._id == user._id then after else v) } ∧
      (∀ id t now, isRefreshTokenValid changedStore.users id t now =
        isRefreshTokenValid sampleStore.users id t now) ∧
      (∀ id, id ≠ user._id →
        User.findById changedStore.users id = User.findById sampleStore.users id) :=
  ⟨by decide, by decide, by decide,
   changePassword_frame sampleStore changedStore sampleEnv "uid-0" "Newpass1!"
     { message := msgPasswordUpdated } (by decide) (by decide)⟩

/-! ## A challenge verified by the other flow -/

/-- A created challenge is the one found by its `otpId`. -/
theorem OTP.findOne_create {otps created : List OTP} {doc : OTP}
    (h : OTP.create otps doc = some created) : OTP.findOne created doc.otpId = some doc := by
  unfold OTP.create at h
  split at h
  · cases h
  · split at h
    · cases h
    · rename_i hany
      simp only [Option.some.injEq] at h
      subst h
      have hnone : otps.find? (fun o => o.otpId == doc.otpId) = none := by
        rw [List.find?_eq_none]
        intro o ho hoid
        exact hany (List.any_eq_true.mpr ⟨o, ho, hoid⟩)
      unfold OTP.findOne
      rw [List.find?_append, hnone]
      simp

/-- The document of an accepted challenge has no empty required string. -/
theorem OTP.create_fields {otps created : List OTP} {doc : OTP}
    (h : OTP.create otps doc = some created) :
    doc.username ≠ "" ∧ doc.email ≠ "" ∧ doc.password ≠ "" ∧ doc.query ≠ "" ∧
      doc.otpCode ≠ "" ∧ doc.otpId ≠ "" ∧
      otps.any (fun o => o.otpId == doc.otpId) = false := by
  unfold OTP.create at h
  split at h
  · cases h
  · rename_i hfields
    split at h
    · cases h
    · rename_i hany
      simp only [not_or] at hfields
      obtain ⟨h1, h2, h3, h4, h5, h6⟩ := hfields
      exact ⟨h1, h2, h3, h4, h5, h6, by simpa using hany⟩

/-- The challenge found by its id passes the four checks with its own code up to its
expiry. -/
theorem checkOtp_own_code {otps : List OTP} {otpId : String} {otpObj : OTP} {now : Nat}
    (hfound : OTP.findOne otps otpId = some otpObj) (hcode : otpObj.otpCode ≠ "")
    (hnow : now ≤ otpObj.expiresAt) :
    checkOtp otps now otpId (some otpObj.otpCode) = .ok otpObj := by
  have hm : isMissing (some otpObj.otpCode) = false := by simp [isMissing, hcode]
  have hexp : ¬ otpObj.expiresAt < now := Nat.not_lt.mpr hnow
  simp [checkOtp, hfound, hm, hexp]

/-- The verification `verifyOTPAndCreateUser` of any stored challenge whose email
belongs to a stored user, whichever flow stored it: when the four checks pass, the
Defaults record and the visitor of the challenge exist, the role of the user exists
and the mail is accepted, the call succeeds and the user is stored, under the same
`_id`, with `access = {active: true, suspend: false}`. -/
theorem verifyOTPAndCreateUser_existing {st : Store} {env : Env} {otpId : String}
    {otpCode : Option String} {otpObj : OTP} {defaults : Defaults} {visitor : Visitor}
    {user : User} {roleData : Role}
    (hotp : checkOtp st.otps env.now otpId otpCode = .ok otpObj)
    (hdefaults : Defaults.findOne st.defaults "Role" = some defaults)
    (hvisitor : Visitor.findById st.visitors otpObj.query = some visitor)
    (huser : User.findByEmail st.users otpObj.email = some user)
    (hrole : Role.findById st.roles user.role = some roleData)
    (hmail : env.mailError = none) :
    ∃ s st1, verifyOTPAndCreateUser st env otpId otpCode = (.ok s, st1) ∧
      ∃ stored, User.findByEmail st1.users otpObj.email = some stored ∧
        stored._id = user._id ∧
        stored.access = { active := true, suspend := false } := by
  have hemail : user.email = otpObj.email := User.findByEmail_email huser
  have heq : verifyOTPAndCreateUser st env otpId otpCode =
      (.ok { message := some msgVerified,
             user := userObj st.modules
               { user with
                 username := otpObj.username, password := otpObj.password,
                 access := { active := true, suspend := false },
                 subscribed := true, firstLogin := false,
                 lastLoginAt := some env.now, uid := env.uuid } roleData true,
             accessToken := env.signAccess user._id user.role,
             refreshToken := env.signRefresh user._id },
       { st with
         users := User.save st.users
           { user with
             username := otpObj.username, password := otpObj.password,
             access := { active := true, suspend := false },
             subscribed := true, firstLogin := false,
             lastLoginAt := some env.now, uid := env.uuid },
         otps := OTP.deleteOne st.otps otpId }) := by
    simp only [verifyOTPAndCreateUser, hotp, hdefaults, hvisitor, huser, hrole, hmail]
  refine ⟨_, _, heq,
    { user with
      username := otpObj.username, password := otpObj.password,
      access := { active := true, suspend := false },
      subscribed := true, firstLogin := false,
      lastLoginAt := some env.now, uid := env.uuid }, ?_, rfl, rfl⟩
  exact User.findByEmail_save huser rfl hemail

/-- What a successful `loginUser` did: the visitor and the user were found, the
challenge was accepted by the store and the mail was sent; the payload carries the
drawn `otpId`, and the store differs from the one of before in the challenges and,
when the visitor was new to the user, in the visitor references of the user. -/
theorem loginUser_ok {st st1 : Store} {env : Env} {query email password : String}
    {payload : OtpIssued}
    (h : loginUser st env query email password = (.ok payload, st1)) :
    ∃ visitor user created, Visitor.findById st.visitors query = some visitor ∧
      User.findByEmail st.users email = some user ∧
      OTP.create (OTP.deleteMany st.otps email) (loginChallenge user env email query) =
        some created ∧
      env.mailError = none ∧ payload.otpId = env.uuid ∧
      st1.otps = created ∧ st1.defaults = st.defaults ∧ st1.visitors = st.visitors ∧
      st1.roles = st.roles ∧
      (st1.users = st.users ∨
        st1.users = User.save st.users { user with query := user.query ++ [visitor._id] }) := by
  cases hv : Visitor.findById st.visitors query with
  | none => simp [loginUser, hv] at h
  | some visitor =>
    cases hu : User.findByEmail st.users email with
    | none => simp [loginUser, hv, hu] at h
    | some user =>
      cases hcmp : env.compare password user.password with
      | false => simp [loginUser, hv, hu, hcmp] at h
      | true =>
        cases hc : OTP.create (OTP.deleteMany st.otps email)
            (loginChallenge user env email query) with
        | none =>
          have hc2 := hc
          unfold loginChallenge at hc2
          simp [loginUser, hv, hu, hcmp, hc2] at h
        | some created =>
          have hc2 := hc
          unfold loginChallenge at hc2
          cases hm : env.mailError with
          | some err => simp [loginUser, hv, hu, hcmp, hc2, hm] at h
          | none =>
            simp only [loginUser, hv, hu, hcmp, hc2, hm, Bool.not_true, Bool.false_eq_true,
              if_false, Prod.mk.injEq, Except.ok.injEq] at h
            obtain ⟨hp, hst⟩ := h
            subst hp hst
            refine ⟨visitor, user, created, rfl, rfl, hc, rfl, rfl, rfl, rfl, rfl, rfl, ?_⟩
            dsimp only
            split
            · exact Or.inl rfl
            · exact Or.inr rfl

/-- C30: OTP challenges are not bound to the flow that issued them. After `loginUser`
has issued a challenge for an existing user (with the Defaults record of category
`Role` and the role of the user in the store), `verifyOTPAndCreateUser`, called with
the returned `otpId` and the code drawn for the challenge, up to the expiry of one
minute and with the mail accepted, succeeds and stores the user with
`access = {active: true, suspend: false}`; and it does exactly so for the challenge
that `registerUserWithOTP` stores for the same email and visitor. -/
theorem login_challenge_verifies_as_signup (st st1 : Store) (env env2 : Env)
    (query email password : String) (payload : OtpIssued) (user : User)
    (defaults : Defaults) (roleData : Role)
    (hlogin : loginUser st env query email password = (.ok payload, st1))
    (huser : User.findByEmail st.users email = some user)
    (hdefaults : Defaults.findOne st.defaults "Role" = some defaults)
    (hrole : Role.findById st.roles user.role = some roleData)
    (hnow : env2.now ≤ env.now + 60 * 1000)
    (hmail : env2.mailError = none) :
    (∃ s st2, verifyOTPAndCreateUser st1 env2 payload.otpId (some (otpCodeOf env)) =
        (.ok s, st2) ∧
      ∃ stored, User.findByEmail st2.users email = some stored ∧
        stored._id = user._id ∧
        stored.access = { active := true, suspend := false }) ∧
    (∀ username password3, username ≠ "" → env.hash password3 ≠ "" →
      ∃ payload3 st3,
        registerUserWithOTP st env username email password3 query = (.ok payload3, st3) ∧
        ∃ s st4, verifyOTPAndCreateUser st3 env2 payload3.otpId (some (otpCodeOf env)) =
            (.ok s, st4) ∧
          ∃ stored, User.findByEmail st4.users email = some stored ∧
            stored._id = user._id ∧
            stored.access = { active := true, suspend := false }) := by
  obtain ⟨visitor, user2, created, hv, hu2, hc, hm, hid, hotps, hdef, hvis, hroles,
    husers⟩ := loginUser_ok hlogin
  rw [huser] at hu2
  simp only [Option.some.injEq] at hu2
  subst hu2
  have hemail : user.email = email := User.findByEmail_email huser
  obtain ⟨_, hf2, _, hf4, _, hf6, hf7⟩ := OTP.create_fields hc
  have hemail_ne : email ≠ "" := hf2
  have hquery_ne : query ≠ "" := hf4
  have huuid_ne : env.uuid ≠ "" := hf6
  have hany : (OTP.deleteMany st.otps email).any (fun o => o.otpId == env.uuid) = false :=
    hf7
  constructor
  · have hfound : OTP.findOne st1.otps env.uuid =
        some (loginChallenge user env email query) := by
      rw [hotps]
      exact OTP.findOne_create hc
    have hcheck : checkOtp st1.otps env2.now env.uuid (some (otpCodeOf env)) =
        .ok (loginChallenge user env email query) :=
      checkOtp_own_code hfound (otpCodeOf_ne_empty env) hnow
    have hd1 : Defaults.findOne st1.defaults "Role" = some defaults := by
      rw [hdef]
      exact hdefaults
    have hv1 : Visitor.findById st1.visitors (loginChallenge user env email query).query =
        some visitor := by
      rw [hvis]
      exact hv
    rw [hid]
    rcases husers with husers | husers
    · have hu1 : User.findByEmail st1.users (loginChallenge user env email query).email =
          some user := by
        rw [husers]
        exact huser
      have hr1 : Role.findById st1.roles user.role = some roleData := by
        rw [hroles]
        exact hrole
      exact verifyOTPAndCreateUser_existing hcheck hd1 hv1 hu1 hr1 hmail
    · have hu1 : User.findByEmail st1.users (loginChallenge user env email query).email =
          some { user with query := user.query ++ [visitor._id] } := by
        rw [husers]
        exact User.findByEmail_save huser rfl hemail
      have hr1 : Role.findById st1.roles
          ({ user with query := user.query ++ [visitor._id] } : User).role =
          some roleData := by
        rw [hroles]
        exact hrole
      obtain ⟨s, st2, h1, stored, h2, h3, h4⟩ :=
        verifyOTPAndCreateUser_existing hcheck hd1 hv1 hu1 hr1 hmail
      exact ⟨s, st2, h1, stored, h2, h3, h4⟩
  · intro username password3 husername hhash
    have hcreate : OTP.create (OTP.deleteMany st.otps email)
        { username := username, email := email, password := env.hash password3,
          query := query, otpCode := otpCodeOf env, otpId := env.uuid,
          expiresAt := env.now + 60 * 1000, verified := false } =
        some (OTP.deleteMany st.otps email ++
          [{ username := username, email := email, password := env.hash password3,
             query := query, otpCode := otpCodeOf env, otpId := env.uuid,
             expiresAt := env.now + 60 * 1000, verified := false }]) := by
      unfold OTP.create
      simp only [husername, hemail_ne, hhash, hquery_ne, huuid_ne, otpCodeOf_ne_empty env,
        or_self, if_false, hany, Bool.false_eq_true]
    have hreg : registerUserWithOTP st env username email password3 query =
        (.ok { message := msgOtpSent, username := username, email := email,
               otpId := env.uuid },
         { st with otps := OTP.deleteMany st.otps email ++
             [{ username := username, email := email, password := env.hash password3,
                query := query, otpCode := otpCodeOf env, otpId := env.uuid,
                expiresAt := env.now + 60 * 1000, verified := false }] }) := by
      simp only [registerUserWithOTP, hdefaults, hcreate, hm]
    refine ⟨_, _, hreg, ?_⟩
    have hfound := OTP.findOne_create hcreate
    have hcheck := @checkOtp_own_code _ _ _ env2.now hfound (otpCodeOf_ne_empty env) hnow
    exact @verifyOTPAndCreateUser_existing
      { st with otps := OTP.deleteMany st.otps email ++
          [{ username := username, email := email, password := env.hash password3,
             query := query, otpCode := otpCodeOf env, otpId := env.uuid,
             expiresAt := env.now + 60 * 1000, verified := false }] }
      env2 env.uuid (some (otpCodeOf env)) _ defaults visitor user roleData
      hcheck hdefaults hv huser hrole hmail

/-- C30, at the sample store: `alice` requests a login at instant 100 and the
challenge `uuid-1` with the code `123456` is stored; the signup verification with
that id and code at instant 150 succeeds and stores her as active and not
suspended. -/
theorem login_challenge_verifies_as_signup_witness :
    loginUser sampleStore sampleEnv "v1" "a@x.com" "Secret1!" =
      (.ok { message := msgLoginOtpSent, username := "alice", email := "a@x.com",
             otpId := "uuid-1" },
       { sampleStore with otps := [otpIssued] }) ∧
    ∃ s st2, verifyOTPAndCreateUser { sampleStore with otps := [otpIssued] }
        { sampleEnv with now := 150 } "uuid-1" (some (otpCodeOf sampleEnv)) =
        (.ok s, st2) ∧
      ∃ stored, User.findByEmail st2.users "a@x.com" = some stored ∧
        stored._id = alice._id ∧
        stored.access = { active := true, suspend := false } :=
  ⟨by decide,
   (login_challenge_verifies_as_signup sampleStore { sampleStore with otps := [otpIssued] }
      sampleEnv { sampleEnv with now := 150 } "v1" "a@x.com" "Secret1!"
      { message := msgLoginOtpSent, username := "alice", email := "a@x.com",
        otpId := "uuid-1" }
      alice { prior := "Role", roleId := some "r1" } adminRole
      (by decide) (by decide) (by decide) (by decide) (by decide) (by decide)).1⟩

end QualityService
